import Mathlib

/-! # Tic-tac-toe session core: match state machine, connection registry, handshake

A shallow embedding of `tic-tac-toe/handlers.go`, `tic-tac-toe/database.go` and
`tic-tac-toe/websocket.go`.

Modelling conventions
* Go `int` values and SQLite INTEGER columns are `Int`.  Go's `int` has 64 bits
  and `x + 1` wraps at `maxInt` = 2^63 - 1; the embedding adds 1 on `Int`, which
  is the same below `maxInt`.  The counters of a game (scores, round) start at
  0 and 1 and grow by at most one per request (`playMoves_counters_bounded`);
  the theorems that state the value of an incremented counter of an arbitrary
  stored game carry the bound as a hypothesis.
* TEXT columns are `String`; columns scanned into `sql.Null*` values are
  `Option`, the other columns are taken to hold a value (a NULL there would make
  `Scan` fail with "Database error").
* The `board` column holds JSON text.  It is represented by what
  `json.Unmarshal` into a `[]string` yields: `none` when decoding fails,
  `some cells` otherwise; `json.Marshal` of a `[]string` followed by
  `json.Unmarshal` is the identity, so a written board `b` is stored as `some b`.
* A table is the list of its rows in insertion order.  Every SQL statement
  succeeds (an open database); the `err != nil` branches after `db.Exec` are
  therefore not taken.
* `CURRENT_TIMESTAMP` is a `Nat`, in whole seconds, passed to the handler as
  `now`; several requests can be served within the same second.
* Indexing a slice out of range is a run-time panic; it is modelled by an
  explicit `panic` outcome.
* The registry mutex is not modelled: each registry function is one critical
  section, and a handler is run on its own from the state it is given.
* A socket is a script of the results of its reads and writes; elapsed read
  deadlines are read errors.
* The registry refers to sockets by identity; the broadcast functions act on
  the list of the sockets of the process.  A `range` over a Go map is taken in
  the listed order of the entries.
* Timers are records with the time at which they are due; a handler that waits
  in a loop is given by the events it reacts to.

`parseResult` of `last-man-standing/handlers.go` is embedded in its own
namespace, `LastManStanding`.
-/

namespace TicTacToe

/-! ## Data model (models.go, database.go schema) -/

/-- User as provided by the identity service. -/
structure User where
  id : Int
  email : String
  name : String
  isAdmin : Bool
deriving DecidableEq, Repr

/-- Row of the `games` table / `Game` struct. -/
structure Game where
  id : Int
  player1ID : Int
  player1Name : String
  player2ID : Option Int
  player2Name : String
  mode : String
  status : String
  currentTurn : Int
  winnerID : Option Int
  board : Option (List String)
  moveTimeLimit : Int
  sessionTimeout : Int
  firstTo : Int
  player1Score : Int
  player2Score : Int
  currentRound : Int
  lastMoveAt : Option Nat
  createdAt : Nat
  completedAt : Option Nat
deriving DecidableEq, Repr

/-- Row of the `moves` table. -/
structure Move where
  gameID : Int
  playerID : Int
  position : Int
  symbol : String
  createdAt : Nat
deriving DecidableEq, Repr

/-- Row of the `online_users` table. -/
structure OnlineUser where
  userID : Int
  userName : String
  lastSeenAt : Nat
  inGame : Int
deriving DecidableEq, Repr

/-- Row of the `player_stats` table. -/
structure PlayerStats where
  userID : Int
  userName : String
  gamesPlayed : Int
  gamesWon : Int
  gamesLost : Int
  gamesDraw : Int
  updatedAt : Nat
deriving DecidableEq, Repr

/-- Row of the `rematch_requests` table. -/
structure RematchRequest where
  id : Int
  gameID : Int
  requesterID : Int
  opponentID : Int
  status : String
  createdAt : Nat
  expiresAt : Option Nat
deriving DecidableEq, Repr

/-- The SQLite database: one list of rows per table. -/
structure Store where
  games : List Game
  moves : List Move
  onlineUsers : List OnlineUser
  playerStats : List PlayerStats
  rematchRequests : List RematchRequest
deriving DecidableEq, Repr

/-! ## checkWinner (handlers.go) -/

/-- The `wins` table of `checkWinner`. -/
def wins : List (Nat × Nat × Nat) :=
  [(0, 1, 2), (3, 4, 5), (6, 7, 8), (0, 3, 6), (1, 4, 7), (2, 5, 8), (0, 4, 8), (2, 4, 6)]

/-- The condition of the `if` inside the loop of `checkWinner`,
`board[c0] != "" && board[c0] == board[c1] && board[c1] == board[c2]`,
evaluated left to right with short-circuiting; `none` is an index out of range. -/
def comboHit (board : List String) (combo : Nat × Nat × Nat) : Option Bool :=
  match board[combo.1]? with
  | none => none
  | some a =>
    if a = "" then some false
    else
      match board[combo.2.1]? with
      | none => none
      | some b =>
        if a ≠ b then some false
        else
          match board[combo.2.2]? with
          | none => none
          | some c => some (decide (b = c))

/-- The first loop of `checkWinner`: `some true` when a combo hits (early
return), `some false` when the loop runs to its end. -/
def scanWins (board : List String) : List (Nat × Nat × Nat) → Option Bool
  | [] => some false
  | combo :: rest =>
    match comboHit board combo with
    | none => none
    | some true => some true
    | some false => scanWins board rest

/-- The second loop of `checkWinner`: `full` stays true unless a cell is empty. -/
def boardFull : List String → Bool
  | [] => true
  | cell :: rest => if cell = "" then false else boardFull rest

/-- Embedding of `checkWinner(board)` returning `(hasWinner, isDraw)`; `none` is a panic. -/
def checkWinner (board : List String) : Option (Bool × Bool) :=
  match scanWins board wins with
  | none => none
  | some true => some (true, false)
  | some false => some (false, boardFull board)

/-! ## Store access (database.go and the SQL statements of the handlers) -/

/-- Embedding of `SELECT ... FROM games WHERE id = ?` read with `QueryRow`: the first row
with that id, `none` for `sql.ErrNoRows`. -/
def Store.getGame (s : Store) (gameID : Int) : Option Game :=
  s.games.find? (fun g => decide (g.id = gameID))

/-- Embedding of `UPDATE games SET ... WHERE id = ?`, the assignment list given as `f`. -/
def Store.updateGame (s : Store) (gameID : Int) (f : Game → Game) : Store :=
  { s with games := s.games.map (fun g => if g.id = gameID then f g else g) }

/-- Embedding of `INSERT INTO moves (game_id, player_id, position, symbol) VALUES (?, ?, ?, ?)`. -/
def Store.insertMove (s : Store) (now : Nat) (gameID playerID position : Int)
    (symbol : String) : Store :=
  { s with moves := s.moves ++ [{ gameID := gameID, playerID := playerID,
                                  position := position, symbol := symbol, createdAt := now }] }

/-- Embedding of `markUserOnline(userID, userName, inGame)`: with an empty name only
`in_game` and `last_seen_at` of an existing row are updated; otherwise the row
is inserted or, on conflict, overwritten. -/
def markUserOnline (s : Store) (now : Nat) (userID : Int) (userName : String)
    (inGame : Bool) : Store :=
  let inGameInt : Int := if inGame then 1 else 0
  if userName = "" then
    { s with onlineUsers := s.onlineUsers.map (fun u =>
        if u.userID = userID then { u with inGame := inGameInt, lastSeenAt := now } else u) }
  else if s.onlineUsers.any (fun u => decide (u.userID = userID)) then
    { s with onlineUsers := s.onlineUsers.map (fun u =>
        if u.userID = userID then
          { u with userName := userName, lastSeenAt := now, inGame := inGameInt }
        else u) }
  else
    { s with onlineUsers := s.onlineUsers ++
        [{ userID := userID, userName := userName, lastSeenAt := now, inGame := inGameInt }] }

/-- Embedding of `updatePlayerStats(userID, userName, won, lost, draw)`: the upsert
(`ON CONFLICT(user_id) DO UPDATE SET user_name = excluded.user_name`) followed
by the counter update. -/
def updatePlayerStats (s : Store) (now : Nat) (userID : Int) (userName : String)
    (won lost draw : Bool) : Store :=
  let ensured : List PlayerStats :=
    if s.playerStats.any (fun p => decide (p.userID = userID)) then
      s.playerStats.map (fun p => if p.userID = userID then { p with userName := userName } else p)
    else
      s.playerStats ++ [{ userID := userID, userName := userName, gamesPlayed := 0,
                          gamesWon := 0, gamesLost := 0, gamesDraw := 0, updatedAt := now }]
  let wonInt : Int := if won then 1 else 0
  let lostInt : Int := if lost then 1 else 0
  let drawInt : Int := if draw then 1 else 0
  { s with playerStats := ensured.map (fun p =>
      if p.userID = userID then
        { p with gamesPlayed := p.gamesPlayed + 1, gamesWon := p.gamesWon + wonInt,
                 gamesLost := p.gamesLost + lostInt, gamesDraw := p.gamesDraw + drawInt,
                 updatedAt := now }
      else p) }

/-- Embedding of `getFullGameState(gameID)` (websocket.go): the full row, `none` on error. -/
def getFullGameState (s : Store) (gameID : Int) : Option Game :=
  s.getGame gameID

/-! ## WebSocket messages (websocket.go) -/

/-- The `Payload` of a `WSMessage`, by the shapes the server sends. -/
inductive Payload where
  | empty
  | game (g : Game)
  | userID (id : Int)
deriving DecidableEq, Repr

/-- Embedding of `WSMessage{Type, Payload}`. -/
structure WSMessage where
  type : String
  payload : Payload
deriving DecidableEq, Repr

/-! ## makeMoveHandler (handlers.go) -/

/-- The decoded request body `moveReq`. -/
structure MoveReq where
  gameID : Int
  position : Int
deriving DecidableEq, Repr

/-- What the handler sends back: `sendError(w, message, code)`, the success
JSON object, or nothing at all when the handler panics. -/
inductive MoveResponse where
  | error (message : String) (code : Nat)
  | panic
  | success (board : List String) (roundOver seriesOver isDraw : Bool)
      (game : Option Game) (winnerID : Option Int)
deriving DecidableEq, Repr

/-- Outcome of one call of `makeMoveHandler`: the response, the database
afterwards, and the message handed to `broadcastGameEnded` / `broadcastGameUpdate`
for the game's connections (if any). -/
structure MoveResult where
  response : MoveResponse
  store : Store
  broadcast : Option WSMessage
deriving DecidableEq, Repr

/-- The `emptyBoard` literal of `makeMoveHandler`. -/
def emptyBoard : List String := ["", "", "", "", "", "", "", "", ""]

/-- Embedding of `makeMoveHandler`: `authUser` is `auth.GetUser(r)`, `body` the result of
decoding the request body (`none` when decoding fails). -/
def makeMoveHandler (s : Store) (now : Nat) (authUser : Option User)
    (body : Option MoveReq) : MoveResult :=
  match authUser with
  | none => { response := .error "User not found" 401, store := s, broadcast := none }
  | some user =>
  match body with
  | none => { response := .error "Invalid request body" 400, store := s, broadcast := none }
  | some moveReq =>
  if moveReq.position < 0 ∨ moveReq.position > 8 then
    { response := .error "Invalid position" 400, store := s, broadcast := none }
  else
  match s.getGame moveReq.gameID with
  | none => { response := .error "Game not found" 404, store := s, broadcast := none }
  | some game =>
  if game.status ≠ "active" then
    { response := .error "Game is not active" 400, store := s, broadcast := none }
  else
  let seat : Option (Int × String) :=
    if user.id = game.player1ID then some (1, "X")
    else if game.player2ID = some user.id then some (2, "O")
    else none
  match seat with
  | none => { response := .error "You are not in this game" 403, store := s, broadcast := none }
  | some (playerNumber, symbol) =>
  if game.currentTurn ≠ playerNumber then
    { response := .error "Not your turn" 400, store := s, broadcast := none }
  else
  match game.board with
  | none => { response := .error "Invalid board state" 500, store := s, broadcast := none }
  | some board0 =>
  match board0[moveReq.position.toNat]? with
  | none => { response := .panic, store := s, broadcast := none }
  | some cell =>
  if cell ≠ "" then
    { response := .error "Position already taken" 400, store := s, broadcast := none }
  else
  let board := board0.set moveReq.position.toNat symbol
  let s1 := s.insertMove now moveReq.gameID user.id moveReq.position symbol
  match checkWinner board with
  | none => { response := .panic, store := s1, broadcast := none }
  | some (hasWinner, isDraw) =>
  let nextTurn := 3 - playerNumber
  let roundOver := hasWinner || isDraw
  if roundOver then
    let player1Score :=
      if hasWinner ∧ playerNumber = 1 then game.player1Score + 1 else game.player1Score
    let player2Score :=
      if hasWinner ∧ playerNumber ≠ 1 then game.player2Score + 1 else game.player2Score
    let finalWinnerID : Option Int :=
      if player1Score ≥ game.firstTo then some game.player1ID
      else if player2Score ≥ game.firstTo then some (game.player2ID.getD 0)
      else none
    match finalWinnerID with
    | some fwid =>
      let s2 := s1.updateGame moveReq.gameID (fun g =>
        { g with board := some board, status := "completed", winnerID := some fwid,
                 player1Score := player1Score, player2Score := player2Score,
                 lastMoveAt := some now, completedAt := some now })
      let s3 :=
        match game.player2ID with
        | some player2IDInt =>
          let loserID := if fwid = game.player1ID then player2IDInt else game.player1ID
          updatePlayerStats (updatePlayerStats s2 now fwid "" true false false)
            now loserID "" false true false
        | none => s2
      let s4 := markUserOnline s3 now game.player1ID "" false
      let s5 :=
        match game.player2ID with
        | some player2IDInt => markUserOnline s4 now player2IDInt "" false
        | none => s4
      { response := .success board roundOver true isDraw (s5.getGame moveReq.gameID) (some fwid),
        store := s5,
        broadcast := (getFullGameState s5 moveReq.gameID).map
          (fun g => { type := "game_ended", payload := .game g }) }
    | none =>
      let newRound := game.currentRound + 1
      let newStarter : Int := if Int.tmod newRound 2 = 0 then 2 else 1
      let s2 := s1.updateGame moveReq.gameID (fun g =>
        { g with board := some emptyBoard, currentTurn := newStarter, currentRound := newRound,
                 player1Score := player1Score, player2Score := player2Score,
                 lastMoveAt := some now })
      { response := .success board roundOver false isDraw (s2.getGame moveReq.gameID) none,
        store := s2,
        broadcast := (s2.getGame moveReq.gameID).map
          (fun g => { type := "move_update", payload := .game g }) }
  else
    let s2 := s1.updateGame moveReq.gameID (fun g =>
      { g with board := some board, currentTurn := nextTurn, lastMoveAt := some now })
    { response := .success board roundOver false isDraw (s2.getGame moveReq.gameID) none,
      store := s2,
      broadcast := (s2.getGame moveReq.gameID).map
        (fun g => { type := "move_update", payload := .game g }) }

/-! ## Connection registry (websocket.go) -/

/-- A `*websocket.Conn` as stored in the registry: its identity. -/
abbrev ConnID := Nat

/-- A Go map with `int` keys: the list of its entries, one per key. -/
abbrev GoMap (V : Type) := List (Int × V)

/-- Embedding of `m[k]` with the comma-ok form: `none` when the key is absent. -/
def GoMap.get {V : Type} (m : GoMap V) (k : Int) : Option V :=
  (m.find? (fun e => decide (e.1 = k))).map (fun e => e.2)

/-- Embedding of `m[k] = v`: replaces the entry of `k` or adds one. -/
def GoMap.put {V : Type} (m : GoMap V) (k : Int) (v : V) : GoMap V :=
  if m.any (fun e => decide (e.1 = k)) then
    m.map (fun e => if e.1 = k then (k, v) else e)
  else m ++ [(k, v)]

/-- Embedding of `delete(m, k)`. -/
def GoMap.delete {V : Type} (m : GoMap V) (k : Int) : GoMap V :=
  m.filter (fun e => !decide (e.1 = k))

/-- Embedding of `len(m)`. -/
def GoMap.len {V : Type} (m : GoMap V) : Nat := m.length

/-- Embedding of `ConnectionManager`: gameID -> userID -> connection.  The mutex is not
modelled; each function below is one critical section. -/
structure ConnectionManager where
  connections : GoMap (GoMap ConnID)
deriving DecidableEq, Repr

/-- Embedding of `registerConnection(gameID, userID, conn)`. -/
def registerConnection (cm : ConnectionManager) (gameID userID : Int) (conn : ConnID) :
    ConnectionManager :=
  let connections :=
    if cm.connections.get gameID = none then cm.connections.put gameID []
    else cm.connections
  { connections :=
      connections.put gameID (((connections.get gameID).getD []).put userID conn) }

/-- Embedding of `unregisterConnection(gameID, userID)`. -/
def unregisterConnection (cm : ConnectionManager) (gameID userID : Int) : ConnectionManager :=
  match cm.connections.get gameID with
  | none => cm
  | some gameConns =>
    let remaining := gameConns.delete userID
    let connections := cm.connections.put gameID remaining
    if remaining.len = 0 then { connections := connections.delete gameID }
    else { connections := connections }

/-- Embedding of `hasExistingConnection(userID, gameID)`. -/
def hasExistingConnection (cm : ConnectionManager) (userID gameID : Int) : Bool :=
  match cm.connections.get gameID with
  | some gameConns => (gameConns.get userID).isSome
  | none => false

/-- Embedding of `isUserInGame(userID, gameID)`: the `COUNT(*)` query is positive. -/
def isUserInGame (s : Store) (userID gameID : Int) : Bool :=
  decide ((s.games.filter (fun g =>
    decide (g.id = gameID ∧ (g.player1ID = userID ∨ g.player2ID = some userID) ∧
      (g.status = "active" ∨ g.status = "waiting")))).length > 0)

/-! ## Sockets and the handshake (websocket.go) -/

/-- One result of `conn.ReadJSON(&msg)`: an error (closed socket, elapsed read
deadline, malformed JSON) or a decoded JSON object.  Only its `type` member is
used by the server; it is `none` when the object has no such member, in which
case decoding leaves `msg.Type` as it was. -/
inductive ReadResult where
  | err
  | frame (type : Option String)
deriving DecidableEq, Repr

/-- A socket as seen by its handler: the results of the reads still to come
(an exhausted list means nothing arrives before the deadline), for each write
still to come whether it fails (an exhausted list means no failure), and the
messages written so far. -/
structure Conn where
  id : ConnID
  inbox : List ReadResult
  writeErrs : List Bool
  sent : List WSMessage
deriving DecidableEq, Repr

/-- Embedding of `conn.ReadJSON(&msg)` where `msg.Type` currently is `msgType`: `none` on
error, otherwise the new `msg.Type`. -/
def Conn.readJSON (c : Conn) (msgType : String) : Option String × Conn :=
  match c.inbox with
  | [] => (none, c)
  | .err :: rest => (none, { c with inbox := rest })
  | .frame t :: rest => (some (t.getD msgType), { c with inbox := rest })

/-- Embedding of `conn.WriteJSON(m)`: `true` when the error is nil. -/
def Conn.writeJSON (c : Conn) (m : WSMessage) : Bool × Conn :=
  match c.writeErrs with
  | [] => (true, { c with sent := c.sent ++ [m] })
  | true :: rest => (false, { c with writeErrs := rest })
  | false :: rest => (true, { c with writeErrs := rest, sent := c.sent ++ [m] })

/-- Embedding of `performHandshake(conn, gameID, userID)`; `s` is the database at the time
the game state is fetched.  Read deadlines show up as `ReadResult.err`. -/
def performHandshake (s : Store) (conn : Conn) (gameID _userID : Int) : Bool × Conn :=
  match conn.readJSON "" with
  | (none, c1) => (false, c1)
  | (some type1, c1) =>
    if type1 ≠ "ping" then (false, c1)
    else
      match c1.writeJSON { type := "pong", payload := .empty } with
      | (false, c2) => (false, c2)
      | (true, c2) =>
        match c2.readJSON type1 with
        | (none, c3) => (false, c3)
        | (some type2, c3) =>
          if type2 ≠ "ack" then (false, c3)
          else
            match getFullGameState s gameID with
            | none => (false, c3)
            | some game =>
              match c3.writeJSON { type := "ready", payload := .game game } with
              | (false, c4) => (false, c4)
              | (true, c4) => (true, c4)

/-- What reaches `gameWebSocketHandler`: the `token` query parameter, the
answer of `validateTokenWithIdentity`, the parsed `gameId` path variable and
the result of `upgrader.Upgrade` (`none` stands for an error in each case). -/
structure WSRequest where
  token : String
  identity : Option User
  gameIdVar : Option Int
  upgrade : Option Conn
deriving DecidableEq, Repr

/-- Outcome of `gameWebSocketHandler`: the `http.Error` answer if any, whether
the socket was upgraded, the registry while the connection is being served
(from `registerConnection` on), the handshake result and the socket after it,
and the registry once the handler has returned (the deferred
`unregisterConnection` has run). -/
structure WSOutcome where
  httpError : Option (String × Nat)
  upgraded : Bool
  live : ConnectionManager
  handshake : Bool
  conn : Option Conn
  final : ConnectionManager
deriving DecidableEq, Repr

/-- Embedding of `gameWebSocketHandler`.  After a successful handshake the handler stays in
`handleGameConnection` until the socket ends; that loop does not write to the
registry, so `final` is the deferred `unregisterConnection` applied to `live`. -/
def gameWebSocketHandler (s : Store) (cm : ConnectionManager) (r : WSRequest) : WSOutcome :=
  let refuse (msg : String) (code : Nat) : WSOutcome :=
    { httpError := some (msg, code), upgraded := false, live := cm, handshake := false,
      conn := none, final := cm }
  if r.token = "" then refuse "Missing token" 401
  else
  match r.identity with
  | none => refuse "Unauthorized" 401
  | some user =>
  match r.gameIdVar with
  | none => refuse "Invalid game ID" 400
  | some gameID =>
  if !isUserInGame s user.id gameID then refuse "Not authorized for this game" 403
  else if hasExistingConnection cm user.id gameID then
    refuse "Game already open in another tab" 409
  else
  match r.upgrade with
  | none =>
    { httpError := none, upgraded := false, live := cm, handshake := false, conn := none,
      final := cm }
  | some conn =>
    let live := registerConnection cm gameID user.id conn.id
    let hs := performHandshake s conn gameID user.id
    { httpError := none, upgraded := true, live := live, handshake := hs.1,
      conn := some hs.2, final := unregisterConnection live gameID user.id }

/-- The connection registered for a (game, user) pair, if any. -/
def ConnectionManager.lookup (cm : ConnectionManager) (gameID userID : Int) : Option ConnID :=
  (cm.connections.get gameID).bind (fun gameConns => gameConns.get userID)

/-- The `pong` message of the handshake. -/
def pongMsg : WSMessage := { type := "pong", payload := .empty }

/-- The `ready` message of the handshake, carrying the game state. -/
def readyMsg (game : Game) : WSMessage := { type := "ready", payload := .game game }

/-! ### Reference notions for `checkWinner` -/

/-- The eight standard three-in-a-row lines of the 3×3 board. -/
def lines : List (List Nat) :=
  [[0, 1, 2], [3, 4, 5], [6, 7, 8], [0, 3, 6], [1, 4, 7], [2, 5, 8], [0, 4, 8], [2, 4, 6]]

/-- Some line holds three identical non-empty cells. -/
def HasLine (board : List String) : Prop :=
  ∃ l ∈ lines, ∃ sym : String, sym ≠ "" ∧ ∀ i ∈ l, board[i]? = some sym

/-- No cell of the board is empty. -/
def NoEmptyCell (board : List String) : Prop :=
  ∀ cell ∈ board, cell ≠ ""

/-! ### Reference notions for `makeMoveHandler` -/

/-- The largest value of Go's `int` on a 64-bit platform (`math.MaxInt`).  A
counter holding it wraps to the smallest value when `++` or `+ 1` is applied;
on every smaller value Go's addition of 1 is the addition of 1 on `Int` used
in this embedding. -/
def maxInt : Int := 9223372036854775807

/-- The seat number of a user in a game: 1 for player1, 2 for player2, `none`
for anybody else.  A user stored in both seats is seated as player 1. -/
def seatOf (g : Game) (userID : Int) : Option Int :=
  if userID = g.player1ID then some 1
  else if g.player2ID = some userID then some 2
  else none

/-- The response is the success object (the move was accepted). -/
def MoveResponse.isSuccess : MoveResponse → Bool
  | .success _ _ _ _ _ _ => true
  | _ => false

/-- The row that the `UPDATE games` statement of `makeMoveHandler` leaves for
`g` after an accepted move of seat `playerNumber` that produced `board` with
`checkWinner board = (hasWinner, isDraw)`. -/
def movedGame (g : Game) (now : Nat) (playerNumber : Int) (board : List String)
    (hasWinner isDraw : Bool) : Game :=
  let player1Score :=
    if hasWinner ∧ playerNumber = 1 then g.player1Score + 1 else g.player1Score
  let player2Score :=
    if hasWinner ∧ playerNumber ≠ 1 then g.player2Score + 1 else g.player2Score
  if (hasWinner || isDraw) = true then
    if player1Score ≥ g.firstTo then
      { g with board := some board, status := "completed", winnerID := some g.player1ID,
               player1Score := player1Score, player2Score := player2Score,
               lastMoveAt := some now, completedAt := some now }
    else if player2Score ≥ g.firstTo then
      { g with board := some board, status := "completed",
               winnerID := some (g.player2ID.getD 0),
               player1Score := player1Score, player2Score := player2Score,
               lastMoveAt := some now, completedAt := some now }
    else
      { g with board := some emptyBoard,
               currentTurn := if Int.tmod (g.currentRound + 1) 2 = 0 then 2 else 1,
               currentRound := g.currentRound + 1,
               player1Score := player1Score, player2Score := player2Score,
               lastMoveAt := some now }
  else
    { g with board := some board, currentTurn := 3 - playerNumber, lastMoveAt := some now }

/-- Boolean form of "the cells of `combo` are identical and non-empty". -/
def comboFilled (board : List String) (combo : Nat × Nat × Nat) : Bool :=
  match board[combo.1]?, board[combo.2.1]?, board[combo.2.2]? with
  | some a, some b, some c => decide (a ≠ "" ∧ a = b ∧ b = c)
  | _, _, _ => false

/-- The seat and symbol that the `if`/`else if` chain of the handler assigns. -/
def Seated (g : Game) (user : User) (playerNumber : Int) (symbol : String) : Prop :=
  (user.id = g.player1ID ∧ playerNumber = 1 ∧ symbol = "X") ∨
  (user.id ≠ g.player1ID ∧ g.player2ID = some user.id ∧ playerNumber = 2 ∧ symbol = "O")

/-- A run of requests against `makeMoveHandler`, each with its time, its
authenticated user and its decoded body; only the database is threaded through. -/
def playMoves (s : Store) : List (Nat × Option User × Option MoveReq) → Store
  | [] => s
  | (now, authUser, body) :: rest => playMoves (makeMoveHandler s now authUser body).store rest

/-- The `DEFAULT_SESSION_TIMEOUT` constant. -/
def DEFAULT_SESSION_TIMEOUT : Int := 60

/-- The row inserted by `createChallengeHandler` (explicit values plus the
schema defaults for the other columns) after the opponent has accepted the
challenge, that is with `status = 'active'`. -/
def startedGame (id : Int) (player1 player2 : User) (mode : String) (moveTimeLimit firstTo : Int)
    (createdAt acceptedAt : Nat) : Game :=
  { id := id, player1ID := player1.id, player1Name := player1.name,
    player2ID := some player2.id, player2Name := player2.name, mode := mode,
    status := "active", currentTurn := 1, winnerID := none, board := some emptyBoard,
    moveTimeLimit := moveTimeLimit, sessionTimeout := DEFAULT_SESSION_TIMEOUT,
    firstTo := firstTo, player1Score := 0, player2Score := 0, currentRound := 1,
    lastMoveAt := some acceptedAt, createdAt := createdAt, completedAt := none }

/-! ### The scenario of the specification: game 1 between A and B -/

/-- Player A of the scenario. -/
def userA : User := { id := 101, email := "a@pub.test", name := "A", isAdmin := false }

/-- Player B of the scenario. -/
def userB : User := { id := 102, email := "b@pub.test", name := "B", isAdmin := false }

/-- A database holding only game 1 between A and B, just started. -/
def scenarioStore (firstTo : Int) : Store :=
  { games := [startedGame 1 userA userB "normal" 0 firstTo 0 0], moves := [],
    onlineUsers := [], playerStats := [], rematchRequests := [] }

/-- The opening of the scenario: A plays 0, B plays 4, A plays 1, B plays 5. -/
def scenarioOpening : List (Nat × Option User × Option MoveReq) :=
  [(1, some userA, some { gameID := 1, position := 0 }),
   (2, some userB, some { gameID := 1, position := 4 }),
   (3, some userA, some { gameID := 1, position := 1 }),
   (4, some userB, some { gameID := 1, position := 5 })]

/-- A drawn round: after these eight moves A's move on cell 8 fills the board
without a line. -/
def drawOpening : List (Nat × Option User × Option MoveReq) :=
  [(1, some userA, some { gameID := 1, position := 0 }),
   (2, some userB, some { gameID := 1, position := 1 }),
   (3, some userA, some { gameID := 1, position := 2 }),
   (4, some userB, some { gameID := 1, position := 4 }),
   (5, some userA, some { gameID := 1, position := 3 }),
   (6, some userB, some { gameID := 1, position := 5 }),
   (7, some userA, some { gameID := 1, position := 7 }),
   (8, some userB, some { gameID := 1, position := 6 })]

/-- A well-formed board: exactly nine cells, each empty or one of the two symbols. -/
def BoardOK (board : List String) : Prop :=
  board.length = 9 ∧ ∀ cell ∈ board, cell = "" ∨ cell = "X" ∨ cell = "O"

/-- A third user, not a player of game 1. -/
def userC : User := { id := 103, email := "c@pub.test", name := "C", isAdmin := false }

/-- A socket whose client never sends anything. -/
def silentConn (id : ConnID) : Conn := { id := id, inbox := [], writeErrs := [], sent := [] }

/-! ## Start-up reconciliation (database.go) -/

/-- Embedding of `cleanupOnServerRestart`: the four statements in their order. -/
def cleanupOnServerRestart (s : Store) : Store :=
  let s1 : Store := { s with games := s.games.map (fun (g : Game) =>
    if g.status = "active" then { g with status := "abandoned" } else g) }
  let s2 : Store :=
    { s1 with games := s1.games.filter (fun (g : Game) => !decide (g.status = "waiting")) }
  let s3 : Store :=
    { s2 with rematchRequests := s2.rematchRequests.map (fun (r : RematchRequest) =>
      if r.status = "pending" then { r with status := "expired" } else r) }
  { s3 with onlineUsers := [] }

/-! ## Rematch requests (database.go, handlers.go) -/

/-- The row with the greatest `created_at` (`ORDER BY created_at DESC LIMIT 1`).
SQL leaves the choice among rows of equal `created_at` open; the earliest such
row is taken here. -/
def latestRequest : List RematchRequest → Option RematchRequest
  | [] => none
  | r :: rest =>
    match latestRequest rest with
    | none => some r
    | some r' => if r'.createdAt > r.createdAt then some r' else some r

/-- Embedding of `getRematchRequest(gameID)`: the latest request of the game
whose status is `pending` or `accepted`; `none` stands for `nil, nil`. -/
def getRematchRequest (s : Store) (gameID : Int) : Option RematchRequest :=
  latestRequest (s.rematchRequests.filter (fun (r : RematchRequest) =>
    decide (r.gameID = gameID ∧ (r.status = "pending" ∨ r.status = "accepted"))))

/-- Embedding of `createRematchRequest(gameID, requesterID, opponentID)`;
`newID` is the row id that AUTOINCREMENT assigns, the status is the column
default and the request expires 80 seconds from now. -/
def createRematchRequest (s : Store) (now : Nat) (newID gameID requesterID opponentID : Int) :
    Store :=
  { s with rematchRequests := s.rematchRequests ++
      [{ id := newID, gameID := gameID, requesterID := requesterID, opponentID := opponentID,
         status := "pending", createdAt := now, expiresAt := some (now + 80) }] }

/-- Embedding of `updateRematchStatus(rematchID, status)`. -/
def updateRematchStatus (s : Store) (rematchID : Int) (status : String) : Store :=
  { s with rematchRequests := s.rematchRequests.map (fun (r : RematchRequest) =>
      if r.id = rematchID then { r with status := status } else r) }

/-- Embedding of `cleanupExpiredRematches()` run at time `now`: a `pending`
request whose `expires_at` is before `now` becomes `expired` (a NULL
`expires_at` never compares as earlier). -/
def cleanupExpiredRematches (s : Store) (now : Nat) : Store :=
  { s with rematchRequests := s.rematchRequests.map (fun (r : RematchRequest) =>
      if r.status = "pending" ∧ (∃ e, r.expiresAt = some e ∧ e < now) then
        { r with status := "expired" }
      else r) }

/-- What a rematch handler sends back: `sendError`, the id of the created
request, the request found (JSON `null` for none), or the new status. -/
inductive RematchResponse where
  | error (message : String) (code : Nat)
  | created (rematchID : Int)
  | rematch (r : Option RematchRequest)
  | responded (status : String)
deriving DecidableEq, Repr

/-- Outcome of a rematch handler: the response and the database afterwards. -/
structure RematchResult where
  response : RematchResponse
  store : Store
deriving DecidableEq, Repr

/-- Embedding of `createRematchHandler`; `body` is the decoded `game_id`
(`none` when decoding fails), `newID` the id the new row would get. -/
def createRematchHandler (s : Store) (now : Nat) (newID : Int) (authUser : Option User)
    (body : Option Int) : RematchResult :=
  match authUser with
  | none => { response := .error "User not found" 401, store := s }
  | some user =>
  match body with
  | none => { response := .error "Invalid request body" 400, store := s }
  | some gameID =>
  match s.getGame gameID with
  | none => { response := .error "Game not found" 404, store := s }
  | some game =>
  match game.player2ID with
  | none => { response := .error "Database error" 500, store := s }
  | some player2ID =>
  if game.status ≠ "completed" then
    { response := .error "Game is not completed" 400, store := s }
  else
  let opponent : Option Int :=
    if user.id = game.player1ID then some player2ID
    else if user.id = player2ID then some game.player1ID
    else none
  match opponent with
  | none => { response := .error "You are not in this game" 403, store := s }
  | some opponentID =>
  match getRematchRequest s gameID with
  | some existingRematch =>
    if existingRematch.status = "pending" then
      { response := .error "Rematch request already pending" 400, store := s }
    else
      { response := .created newID,
        store := createRematchRequest s now newID gameID user.id opponentID }
  | none =>
    { response := .created newID,
      store := createRematchRequest s now newID gameID user.id opponentID }

/-- Embedding of `getRematchHandler`; `gameID` is the parsed path variable
(0 when it does not parse). -/
def getRematchHandler (s : Store) (now : Nat) (authUser : Option User) (gameID : Int) :
    RematchResult :=
  match authUser with
  | none => { response := .error "User not found" 401, store := s }
  | some _ =>
    let s1 := cleanupExpiredRematches s now
    { response := .rematch (getRematchRequest s1 gameID), store := s1 }

/-- The row that `INSERT INTO games (player1_id, player1_name, player2_id,
player2_name, mode, status, current_turn, move_time_limit, session_timeout,
first_to)` creates: the given values, `current_turn` 1, and the schema defaults
for the other columns. -/
def insertedGame (id : Int) (player1ID : Int) (player1Name : String) (player2ID : Int)
    (player2Name : String) (mode status : String) (moveTimeLimit firstTo : Int) (now : Nat) :
    Game :=
  { id := id, player1ID := player1ID, player1Name := player1Name,
    player2ID := some player2ID, player2Name := player2Name, mode := mode,
    status := status, currentTurn := 1, winnerID := none, board := some emptyBoard,
    moveTimeLimit := moveTimeLimit, sessionTimeout := DEFAULT_SESSION_TIMEOUT,
    firstTo := firstTo, player1Score := 0, player2Score := 0, currentRound := 1,
    lastMoveAt := none, createdAt := now, completedAt := none }

/-- Embedding of `respondToRematchHandler`; `rematchID` is the parsed path
variable, `body` the decoded `accept` flag, `newGameID` the id a new game row
would get.  The ids of the prior game are read as decimal strings and written
back; the INTEGER columns and `strconv.Atoi` give the same numbers again.
When the prior game row is missing or has no second player the Go code inserts
a row whose id columns hold the empty string; that row is not a `Game`, and
the result is `none`. -/
def respondToRematchHandler (s : Store) (now : Nat) (newGameID : Int) (authUser : Option User)
    (rematchID : Int) (body : Option Bool) : Option RematchResult :=
  match authUser with
  | none => some { response := .error "User not found" 401, store := s }
  | some user =>
  match body with
  | none => some { response := .error "Invalid request body" 400, store := s }
  | some accept =>
  match s.rematchRequests.find? (fun (r : RematchRequest) => decide (r.id = rematchID)) with
  | none => some { response := .error "Rematch request not found" 404, store := s }
  | some rm =>
  if rm.opponentID ≠ user.id then
    some { response := .error "Not your rematch request" 403, store := s }
  else if rm.status ≠ "pending" then
    some { response := .error "Rematch already responded to" 400, store := s }
  else if accept then
    match s.getGame rm.gameID with
    | none => none
    | some game =>
      match game.player2ID with
      | none => none
      | some player2ID =>
        let s1 : Store := { s with games := s.games ++
          [insertedGame newGameID game.player1ID game.player1Name player2ID game.player2Name
            game.mode "active" game.moveTimeLimit game.firstTo now] }
        let s2 := markUserOnline s1 now game.player1ID game.player1Name true
        let s3 := markUserOnline s2 now player2ID game.player2Name true
        some { response := .responded "accepted",
               store := updateRematchStatus s3 rematchID "accepted" }
  else
    some { response := .responded "declined",
           store := updateRematchStatus s rematchID "declined" }

/-! ### Reference notions for the rematch requests -/

/-- The database after game 1 of the scenario (`first_to = 1`) has been won by
A with the moves A:0, B:4, A:1, B:5, A:2. -/
def completedStore : Store :=
  (makeMoveHandler (playMoves (scenarioStore 1) scenarioOpening) 5 (some userA)
    (some { gameID := 1, position := 2 })).store

/-- The request that A makes at time 10 for a rematch of game 1. -/
def requestByA : RematchRequest :=
  { id := 1, gameID := 1, requesterID := 101, opponentID := 102, status := "pending",
    createdAt := 10, expiresAt := some 90 }

/-- The database after A has asked for a rematch of the completed game 1. -/
def rematchAskedStore : Store :=
  (createRematchHandler completedStore 10 1 (some userA) (some 1)).store

/-- The decoded body `settings` of `createChallengeHandler`. -/
structure ChallengeSettings where
  opponentID : Int
  mode : String
  moveTimeLimit : Int
  firstTo : Int
deriving DecidableEq, Repr

/-- What a challenge handler sends back: `sendError`, the id of the created
game (201), or the new status of the challenge. -/
inductive ChallengeResponse where
  | error (message : String) (code : Nat)
  | created (gameID : Int)
  | responded (status : String)
deriving DecidableEq, Repr

/-- Outcome of a challenge handler: the response and the database afterwards.
The lobby notifications that follow the write go to sockets only and are not
part of the outcome. -/
structure ChallengeResult where
  response : ChallengeResponse
  store : Store
deriving DecidableEq, Repr

/-- The `validFirstTo` table of `createChallengeHandler`. -/
def validFirstTo : List Int := [1, 2, 3, 5, 10, 20]

/-- Embedding of `createChallengeHandler`; times are in seconds, so "seen in the
last 5 minutes" is `last_seen_at + 300 > now`; `newID` is the id the new row
would get. -/
def createChallengeHandler (s : Store) (now : Nat) (newID : Int) (authUser : Option User)
    (body : Option ChallengeSettings) : ChallengeResult :=
  match authUser with
  | none => { response := .error "User not found" 401, store := s }
  | some user =>
  match body with
  | none => { response := .error "Invalid request body" 400, store := s }
  | some settings =>
  if settings.firstTo ∉ validFirstTo then
    { response := .error "Invalid first_to value" 400, store := s }
  else
  match s.onlineUsers.find? (fun (u : OnlineUser) =>
      decide (u.userID = settings.opponentID ∧ u.lastSeenAt + 300 > now)) with
  | none => { response := .error "Opponent is not online" 400, store := s }
  | some opponent =>
  let existingGame := (s.games.filter (fun (g : Game) =>
    decide ((g.player1ID = user.id ∨ g.player2ID = some user.id ∨
        g.player1ID = settings.opponentID ∨ g.player2ID = some settings.opponentID) ∧
      (g.status = "waiting" ∨ g.status = "active")))).length
  if existingGame > 0 then
    { response := .error "One of the players is already in a game" 400, store := s }
  else
    { response := .created newID,
      store := { s with games := s.games ++
        [insertedGame newID user.id user.name settings.opponentID opponent.userName
          settings.mode "waiting" settings.moveTimeLimit settings.firstTo now] } }

/-- Embedding of `respondToChallengeHandler`; `gameID` is the parsed path
variable, `body` the decoded `accept` flag. -/
def respondToChallengeHandler (s : Store) (now : Nat) (authUser : Option User) (gameID : Int)
    (body : Option Bool) : ChallengeResult :=
  match authUser with
  | none => { response := .error "User not found" 401, store := s }
  | some user =>
  match body with
  | none => { response := .error "Invalid request body" 400, store := s }
  | some accept =>
  match s.getGame gameID with
  | none => { response := .error "Game not found" 404, store := s }
  | some game =>
  match game.player2ID with
  | none => { response := .error "Database error" 500, store := s }
  | some player2ID =>
  if player2ID ≠ user.id then { response := .error "Not your challenge" 403, store := s }
  else if game.status ≠ "waiting" then
    { response := .error "Challenge already responded to" 400, store := s }
  else if accept then
    let s1 := markUserOnline s now user.id user.name true
    let s2 := markUserOnline s1 now game.player1ID game.player1Name true
    { response := .responded "active",
      store := s2.updateGame gameID (fun g =>
        { g with status := "active", lastMoveAt := some now }) }
  else
    { response := .responded "declined",
      store := s.updateGame gameID (fun g =>
        { g with status := "declined", lastMoveAt := some now }) }

/-- The games in which user `u` is a player and whose status is `waiting` or
`active`. -/
def liveGamesOf (s : Store) (u : Int) : List Game :=
  s.games.filter (fun (g : Game) =>
    decide ((g.player1ID = u ∨ g.player2ID = some u) ∧
      (g.status = "waiting" ∨ g.status = "active")))

/-- Each user is a player in at most one game that is `waiting` or `active`. -/
def OneLiveGamePerUser (s : Store) : Prop :=
  ∀ u, (liveGamesOf s u).length ≤ 1

/-- Game 1 is completed, B and C have been seen online at time 8, A has asked
for a rematch of game 1 at time 10 and has challenged C at time 12 (game 2). -/
def rematchAndChallengeStore : Store :=
  (createChallengeHandler
    (createRematchHandler
      (markUserOnline (markUserOnline completedStore 8 102 "B" false) 8 103 "C" false)
      10 1 (some userA) (some 1)).store
    12 2 (some userA)
    (some { opponentID := 103, mode := "normal", moveTimeLimit := 0, firstTo := 1 })).store

/-! ## Lobby connections (websocket.go) -/

/-- A `*time.Timer`: its identity. -/
abbrev TimerID := Nat

/-- Embedding of `LobbyConnection`. -/
structure LobbyConnection where
  conn : ConnID
  timer : TimerID
  userID : Int
  connected : Nat
deriving DecidableEq, Repr

/-- A timer armed by `time.AfterFunc(30*time.Second, ...)` in
`registerLobbyConnection`: when it fires, its function looks up the user id it
captured. -/
structure LobbyTimer where
  id : TimerID
  userID : Int
  fireAt : Nat
deriving DecidableEq, Repr

/-- Embedding of `LobbyConnectionManager`, together with what its functions act
on: the timers that are armed, the sockets on which `Close` has been called,
and the identity the next timer will get.  The mutex is not modelled. -/
structure LobbyConnectionManager where
  connections : GoMap LobbyConnection
  timers : List LobbyTimer
  closed : List ConnID
  nextTimer : TimerID
deriving DecidableEq, Repr

/-- Embedding of `registerLobbyConnection(userID, conn)` called at time `now`. -/
def registerLobbyConnection (lm : LobbyConnectionManager) (now : Nat) (userID : Int)
    (conn : ConnID) : LobbyConnectionManager :=
  { connections := lm.connections.put userID
      { conn := conn, timer := lm.nextTimer, userID := userID, connected := now },
    timers := lm.timers ++ [{ id := lm.nextTimer, userID := userID, fireAt := now + 30 }],
    closed := lm.closed,
    nextTimer := lm.nextTimer + 1 }

/-- Embedding of `unregisterLobbyConnection(userID)`: `timer.Stop()` disarms the
timer of the entry found. -/
def unregisterLobbyConnection (lm : LobbyConnectionManager) (userID : Int) :
    LobbyConnectionManager :=
  match lm.connections.get userID with
  | some lc =>
    { lm with timers := lm.timers.filter (fun (t : LobbyTimer) => !decide (t.id = lc.timer)),
              connections := lm.connections.delete userID }
  | none => lm

/-- Embedding of `getLobbyConnection(userID)`; `none` stands for nil. -/
def getLobbyConnection (lm : LobbyConnectionManager) (userID : Int) : Option LobbyConnection :=
  lm.connections.get userID

/-- The function given to `time.AfterFunc` in `registerLobbyConnection`, run
when timer `t` fires: the entry then stored for the captured user id, if any,
is closed and deleted. -/
def lobbyTimerFired (lm : LobbyConnectionManager) (t : LobbyTimer) : LobbyConnectionManager :=
  let lm1 : LobbyConnectionManager :=
    { lm with timers := lm.timers.filter (fun (x : LobbyTimer) => !decide (x.id = t.id)) }
  match lm1.connections.get t.userID with
  | some lc =>
    { lm1 with closed := lm1.closed ++ [lc.conn],
               connections := lm1.connections.delete t.userID }
  | none => lm1

/-- The deferred calls of `lobbyWebSocketHandler`, run when it returns:
`unregisterLobbyConnection(user.ID)` and then `conn.Close()`. -/
def lobbyHandlerExit (lm : LobbyConnectionManager) (userID : Int) (conn : ConnID) :
    LobbyConnectionManager :=
  let lm1 := unregisterLobbyConnection lm userID
  { lm1 with closed := lm1.closed ++ [conn] }

/-- What reaches `lobbyWebSocketHandler`: the `token` query parameter, the
answer of `validateTokenWithIdentity` and the result of `upgrader.Upgrade`. -/
structure LobbyRequest where
  token : String
  identity : Option User
  upgrade : Option Conn
deriving DecidableEq, Repr

/-- Outcome of `lobbyWebSocketHandler`: the `http.Error` answer if any, whether
the socket was upgraded, the registry while the connection is served (from
`registerLobbyConnection` on), the socket after the `lobby_connected` write,
and the registry once the handler has returned. -/
structure LobbyOutcome where
  httpError : Option (String × Nat)
  upgraded : Bool
  live : LobbyConnectionManager
  conn : Option Conn
  final : LobbyConnectionManager
deriving DecidableEq, Repr

/-- Embedding of `lobbyWebSocketHandler` called at time `now`.  After the
`lobby_connected` write the handler stays in its keep-alive loop until the
socket ends; that loop does not touch the registry, so `final` is the deferred
calls applied to `live`. -/
def lobbyWebSocketHandler (lm : LobbyConnectionManager) (now : Nat) (r : LobbyRequest) :
    LobbyOutcome :=
  if r.token = "" then
    { httpError := some ("Missing token", 401), upgraded := false, live := lm, conn := none,
      final := lm }
  else
  match r.identity with
  | none =>
    { httpError := some ("Unauthorized", 401), upgraded := false, live := lm, conn := none,
      final := lm }
  | some user =>
  let lm1 : LobbyConnectionManager :=
    match getLobbyConnection lm user.id with
    | some existingConn =>
      unregisterLobbyConnection { lm with closed := lm.closed ++ [existingConn.conn] } user.id
    | none => lm
  match r.upgrade with
  | none => { httpError := none, upgraded := false, live := lm1, conn := none, final := lm1 }
  | some conn =>
    let live := registerLobbyConnection lm1 now user.id conn.id
    { httpError := none, upgraded := true, live := live,
      conn := some (conn.writeJSON { type := "lobby_connected", payload := .empty }).2,
      final := lobbyHandlerExit live user.id conn.id }

/-- The lobby registry after A has connected with socket 7 at time 0. -/
def lobbyWithA : LobbyConnectionManager :=
  registerLobbyConnection { connections := [], timers := [], closed := [], nextTimer := 0 }
    0 101 7

/-! ## `makeMoveHandler` with the read and the write apart

The handler issues its statements one by one on the shared `db` handle, outside
any transaction: the `SELECT` of handlers.go:350 first, the `INSERT INTO moves`
and the `UPDATE games ... WHERE id = ?` later.  Another request can be served in
between.  `makeMoveHandlerAt read write` is the same handler with the two moments
apart: the `SELECT` sees `read`, and the statements that write (and the final
re-fetch) run on `write`, the database as it is when they are issued. -/

/-- Embedding of `makeMoveHandler` where the database seen by the first `SELECT`
(`read`) and the database on which the later statements run (`write`) are given
separately. -/
def makeMoveHandlerAt (read write : Store) (now : Nat) (authUser : Option User)
    (body : Option MoveReq) : MoveResult :=
  match authUser with
  | none => { response := .error "User not found" 401, store := write, broadcast := none }
  | some user =>
  match body with
  | none => { response := .error "Invalid request body" 400, store := write, broadcast := none }
  | some moveReq =>
  if moveReq.position < 0 ∨ moveReq.position > 8 then
    { response := .error "Invalid position" 400, store := write, broadcast := none }
  else
  match read.getGame moveReq.gameID with
  | none => { response := .error "Game not found" 404, store := write, broadcast := none }
  | some game =>
  if game.status ≠ "active" then
    { response := .error "Game is not active" 400, store := write, broadcast := none }
  else
  let seat : Option (Int × String) :=
    if user.id = game.player1ID then some (1, "X")
    else if game.player2ID = some user.id then some (2, "O")
    else none
  match seat with
  | none => { response := .error "You are not in this game" 403, store := write, broadcast := none }
  | some (playerNumber, symbol) =>
  if game.currentTurn ≠ playerNumber then
    { response := .error "Not your turn" 400, store := write, broadcast := none }
  else
  match game.board with
  | none => { response := .error "Invalid board state" 500, store := write, broadcast := none }
  | some board0 =>
  match board0[moveReq.position.toNat]? with
  | none => { response := .panic, store := write, broadcast := none }
  | some cell =>
  if cell ≠ "" then
    { response := .error "Position already taken" 400, store := write, broadcast := none }
  else
  let board := board0.set moveReq.position.toNat symbol
  let s1 := write.insertMove now moveReq.gameID user.id moveReq.position symbol
  match checkWinner board with
  | none => { response := .panic, store := s1, broadcast := none }
  | some (hasWinner, isDraw) =>
  let nextTurn := 3 - playerNumber
  let roundOver := hasWinner || isDraw
  if roundOver then
    let player1Score :=
      if hasWinner ∧ playerNumber = 1 then game.player1Score + 1 else game.player1Score
    let player2Score :=
      if hasWinner ∧ playerNumber ≠ 1 then game.player2Score + 1 else game.player2Score
    let finalWinnerID : Option Int :=
      if player1Score ≥ game.firstTo then some game.player1ID
      else if player2Score ≥ game.firstTo then some (game.player2ID.getD 0)
      else none
    match finalWinnerID with
    | some fwid =>
      let s2 := s1.updateGame moveReq.gameID (fun g =>
        { g with board := some board, status := "completed", winnerID := some fwid,
                 player1Score := player1Score, player2Score := player2Score,
                 lastMoveAt := some now, completedAt := some now })
      let s3 :=
        match game.player2ID with
        | some player2IDInt =>
          let loserID := if fwid = game.player1ID then player2IDInt else game.player1ID
          updatePlayerStats (updatePlayerStats s2 now fwid "" true false false)
            now loserID "" false true false
        | none => s2
      let s4 := markUserOnline s3 now game.player1ID "" false
      let s5 :=
        match game.player2ID with
        | some player2IDInt => markUserOnline s4 now player2IDInt "" false
        | none => s4
      { response := .success board roundOver true isDraw (s5.getGame moveReq.gameID) (some fwid),
        store := s5,
        broadcast := (getFullGameState s5 moveReq.gameID).map
          (fun g => { type := "game_ended", payload := .game g }) }
    | none =>
      let newRound := game.currentRound + 1
      let newStarter : Int := if Int.tmod newRound 2 = 0 then 2 else 1
      let s2 := s1.updateGame moveReq.gameID (fun g =>
        { g with board := some emptyBoard, currentTurn := newStarter, currentRound := newRound,
                 player1Score := player1Score, player2Score := player2Score,
                 lastMoveAt := some now })
      { response := .success board roundOver false isDraw (s2.getGame moveReq.gameID) none,
        store := s2,
        broadcast := (s2.getGame moveReq.gameID).map
          (fun g => { type := "move_update", payload := .game g }) }
  else
    let s2 := s1.updateGame moveReq.gameID (fun g =>
      { g with board := some board, currentTurn := nextTurn, lastMoveAt := some now })
    { response := .success board roundOver false isDraw (s2.getGame moveReq.gameID) none,
      store := s2,
      broadcast := (s2.getGame moveReq.gameID).map
        (fun g => { type := "move_update", payload := .game g }) }


/-- The part of a response that is fixed before the final re-fetch of the game:
the response without its `game` field. -/
def MoveResponse.verdict : MoveResponse → MoveResponse
  | .success board roundOver seriesOver isDraw _ winnerID =>
      .success board roundOver seriesOver isDraw none winnerID
  | r => r

/-- The row that the `UPDATE games ... WHERE id = ?` statement of
`makeMoveHandler` leaves for the stored row `stored`, when the handler computed
the values of its `SET` list from the row `g` that its `SELECT` returned: the
columns of the `SET` list take the computed values, the others keep what is
stored. -/
def writtenGame (g stored : Game) (now : Nat) (playerNumber : Int) (board : List String)
    (hasWinner isDraw : Bool) : Game :=
  let player1Score :=
    if hasWinner ∧ playerNumber = 1 then g.player1Score + 1 else g.player1Score
  let player2Score :=
    if hasWinner ∧ playerNumber ≠ 1 then g.player2Score + 1 else g.player2Score
  if (hasWinner || isDraw) = true then
    if player1Score ≥ g.firstTo then
      { stored with board := some board, status := "completed",
                    winnerID := some g.player1ID,
                    player1Score := player1Score, player2Score := player2Score,
                    lastMoveAt := some now, completedAt := some now }
    else if player2Score ≥ g.firstTo then
      { stored with board := some board, status := "completed",
                    winnerID := some (g.player2ID.getD 0),
                    player1Score := player1Score, player2Score := player2Score,
                    lastMoveAt := some now, completedAt := some now }
    else
      { stored with board := some emptyBoard,
                    currentTurn := if Int.tmod (g.currentRound + 1) 2 = 0 then 2 else 1,
                    currentRound := g.currentRound + 1,
                    player1Score := player1Score, player2Score := player2Score,
                    lastMoveAt := some now }
  else
    { stored with board := some board, currentTurn := 3 - playerNumber,
                  lastMoveAt := some now }

/-- The database after A's move on cell 0 of the just started game 1, served
completely at time 1. -/
def afterFirstMove : Store :=
  (makeMoveHandler (scenarioStore 2) 1 (some userA)
    (some { gameID := 1, position := 0 })).store

/-- A second request of A, for cell 1 at time 2, that read game 1 before the first
move was written (it saw `scenarioStore 2`) and writes after it. -/
def staleMove : MoveResult :=
  makeMoveHandlerAt (scenarioStore 2) afterFirstMove 2 (some userA)
    (some { gameID := 1, position := 1 })


/-! ### Reference notions for the player statistics -/

/-- The `player_stats` row of a user, if there is one (`user_id` is the primary
key of the table). -/
def statsOf (s : Store) (userID : Int) : Option PlayerStats :=
  s.playerStats.find? (fun (p : PlayerStats) => decide (p.userID = userID))

/-- The counters of a user: `games_played`, `games_won`, `games_lost` and
`games_draw`, all zero for a user without a row. -/
def countersOf (s : Store) (userID : Int) : Int × Int × Int × Int :=
  match statsOf s userID with
  | some p => (p.gamesPlayed, p.gamesWon, p.gamesLost, p.gamesDraw)
  | none => (0, 0, 0, 0)

/-- The database of the scenario with A and B marked online and in a game, and
with statistics from earlier series: A has played 3 games (2 won, 1 lost), B
has played 3 games (1 won, 2 lost) and C has played none. -/
def scenarioWithStats (firstTo : Int) : Store :=
  { scenarioStore firstTo with
    onlineUsers :=
      [{ userID := 101, userName := "A", lastSeenAt := 0, inGame := 1 },
       { userID := 102, userName := "B", lastSeenAt := 0, inGame := 1 }],
    playerStats :=
      [{ userID := 101, userName := "A", gamesPlayed := 3, gamesWon := 2, gamesLost := 1,
         gamesDraw := 0, updatedAt := 0 },
       { userID := 102, userName := "B", gamesPlayed := 3, gamesWon := 1, gamesLost := 2,
         gamesDraw := 0, updatedAt := 0 },
       { userID := 103, userName := "C", gamesPlayed := 0, gamesWon := 0, gamesLost := 0,
         gamesDraw := 0, updatedAt := 0 }] }

/-- Every `player_stats` row has the empty `user_name`.  The rows of the table
are written by `updatePlayerStats` only, and `makeMoveHandler`, its only caller,
passes the empty string as the name. -/
def StatsNamesEmpty (s : Store) : Prop :=
  ∀ p ∈ s.playerStats, p.userName = ""

/-! ### Reference notions for the status of a game -/

/-- A call of one of the two functions that write to the registry. -/
inductive RegistryOp where
  | register (gameID userID : Int) (conn : ConnID)
  | unregister (gameID userID : Int)
deriving DecidableEq, Repr

/-- The registry after one call. -/
def applyRegistryOp (cm : ConnectionManager) : RegistryOp → ConnectionManager
  | .register gameID userID conn => registerConnection cm gameID userID conn
  | .unregister gameID userID => unregisterConnection cm gameID userID

/-- The registry after a sequence of calls. -/
def runRegistryOps (cm : ConnectionManager) (ops : List RegistryOp) : ConnectionManager :=
  ops.foldl applyRegistryOp cm

/-- No game id maps to an empty connection set. -/
def NoEmptyGame (cm : ConnectionManager) : Prop :=
  ∀ e ∈ cm.connections, e.2 ≠ []

/-! ## Broadcasts over the registry (websocket.go)

The broadcast functions read the registry and write to the sockets it refers
to.  `Server` puts together what they could touch: the database, the registry
and the sockets of the process, each socket under the identity by which the
registry refers to it. -/

/-- The state of the server process. -/
structure Server where
  db : Store
  connManager : ConnectionManager
  sockets : List Conn
deriving DecidableEq, Repr

/-- Embedding of `conn.WriteJSON(m)` on the socket with identity `conn`; the
error, if any, is only logged by the broadcast functions. -/
def Server.writeJSON (sv : Server) (conn : ConnID) (m : WSMessage) : Server :=
  { sv with sockets := sv.sockets.map (fun (c : Conn) =>
      if c.id = conn then (c.writeJSON m).2 else c) }

/-- Embedding of `broadcastGameUpdate(gameID, game)`.  The `range` over the map
visits every entry once, in an order that Go leaves open; the entries are
visited in their listed order here (writes to different sockets do not
interfere). -/
def broadcastGameUpdate (sv : Server) (gameID : Int) (game : Game) : Server :=
  match sv.connManager.connections.get gameID with
  | none => sv
  | some gameConns =>
    gameConns.foldl (fun (acc : Server) (e : Int × ConnID) =>
      acc.writeJSON e.2 { type := "move_update", payload := .game game }) sv

/-- Embedding of `broadcastGameEnded(gameID, game)`. -/
def broadcastGameEnded (sv : Server) (gameID : Int) (game : Game) : Server :=
  match sv.connManager.connections.get gameID with
  | none => sv
  | some gameConns =>
    gameConns.foldl (fun (acc : Server) (e : Int × ConnID) =>
      acc.writeJSON e.2 { type := "game_ended", payload := .game game }) sv

/-- Embedding of `notifyOpponentDisconnected(gameID, disconnectedUserID)`. -/
def notifyOpponentDisconnected (sv : Server) (gameID disconnectedUserID : Int) : Server :=
  match sv.connManager.connections.get gameID with
  | none => sv
  | some gameConns =>
    gameConns.foldl (fun (acc : Server) (e : Int × ConnID) =>
      if e.1 ≠ disconnectedUserID then
        acc.writeJSON e.2
          { type := "opponent_disconnected", payload := .userID disconnectedUserID }
      else acc) sv

/-- The end of a game connection whose socket was closed by the client: the
`done` case of `handleGameConnection` calls `notifyOpponentDisconnected` and
returns, then the deferred `unregisterConnection` of `gameWebSocketHandler`
runs. -/
def gameConnectionClosed (sv : Server) (gameID userID : Int) : Server :=
  let sv1 := notifyOpponentDisconnected sv gameID userID
  { sv1 with connManager := unregisterConnection sv1.connManager gameID userID }

/-- The sockets registered under a game. -/
def connsOfGame (cm : ConnectionManager) (gameID : Int) : List ConnID :=
  ((cm.connections.get gameID).getD []).map (fun e => e.2)

/-- The sockets registered under a game for users other than `userID`. -/
def connsOfOthers (cm : ConnectionManager) (gameID userID : Int) : List ConnID :=
  (((cm.connections.get gameID).getD []).filter
    (fun e => !decide (e.1 = userID))).map (fun e => e.2)

/-- The `move_update` message carrying a game. -/
def moveUpdateMsg (game : Game) : WSMessage := { type := "move_update", payload := .game game }

/-- The `opponent_disconnected` message naming a user. -/
def opponentDisconnectedMsg (userID : Int) : WSMessage :=
  { type := "opponent_disconnected", payload := .userID userID }

/-- A server where A (socket 7) and B (socket 8) are connected to game 1 and C
(socket 9) to game 2; the next write to A's socket fails. -/
def twoGamesServer : Server :=
  { db := scenarioStore 1,
    connManager := runRegistryOps { connections := [] }
      [.register 1 101 7, .register 1 102 8, .register 2 103 9],
    sockets := [{ id := 7, inbox := [], writeErrs := [true], sent := [] },
                { id := 8, inbox := [], writeErrs := [], sent := [] },
                { id := 9, inbox := [], writeErrs := [], sent := [] }] }

/-! ### The keep-alive loop of `lobbyWebSocketHandler` -/

/-- What the keep-alive loop of `lobbyWebSocketHandler` and its reading
goroutine react to: a message read from the client (it is dropped), a pong (the
pong handler moves the read deadline), a tick of the 10-second ticker (a ping
is written, `pingOk` tells whether the write succeeded), and a failed read
(`done` is closed). -/
inductive LobbyLoopEvent where
  | message
  | pong
  | tick (pingOk : Bool)
  | readError
deriving DecidableEq, Repr

/-- A lobby handler in its keep-alive loop: the registry, the read deadline of
its socket, and whether the handler has returned. -/
structure LobbyLoop where
  lm : LobbyConnectionManager
  readDeadline : Nat
  returned : Bool
deriving DecidableEq, Repr

/-- One event at time `now` in the loop of the handler of `userID` with socket
`conn`.  The loop returns on a failed read and on a failed ping; the deferred
calls then run. -/
def lobbyLoopStep (userID : Int) (conn : ConnID) (st : LobbyLoop) (now : Nat) :
    LobbyLoopEvent → LobbyLoop
  | .message => st
  | .pong => if st.returned then st else { st with readDeadline := now + 35 }
  | .tick true => st
  | .tick false =>
    if st.returned then st
    else { st with lm := lobbyHandlerExit st.lm userID conn, returned := true }
  | .readError =>
    if st.returned then st
    else { st with lm := lobbyHandlerExit st.lm userID conn, returned := true }

/-- The loop over a sequence of timed events. -/
def runLobbyLoop (userID : Int) (conn : ConnID) (st : LobbyLoop) :
    List (Nat × LobbyLoopEvent) → LobbyLoop
  | [] => st
  | (now, ev) :: rest => runLobbyLoop userID conn (lobbyLoopStep userID conn st now ev) rest

/-- The lobby registry after a second connection of A (socket 8, at time 5) has
replaced the first one (socket 7). -/
def lobbyReplaced : LobbyConnectionManager :=
  (lobbyWebSocketHandler lobbyWithA 5
    { token := "t", identity := some userA, upgrade := some (silentConn 8) }).live

/-! ### Reference notions for the state of an active game -/

/-- The invariant of a game while it is `active`: its board has nine cells, no
three-in-a-row and an empty cell, and both scores are below `first_to`. -/
def ActiveInv (g : Game) : Prop :=
  g.status = "active" →
    (∃ b, g.board = some b ∧ b.length = 9 ∧ ¬ HasLine b ∧ ¬ NoEmptyCell b) ∧
    g.player1Score < g.firstTo ∧ g.player2Score < g.firstTo

end TicTacToe

/-! # Last man standing: match results (last-man-standing/handlers.go)

Go strings are taken as their sequences of characters.  Comparing two Go
strings with `>` compares their UTF-8 bytes lexicographically, which is the
lexicographic order of their code points. -/

namespace LastManStanding

/-- Embedding of `unicode.IsSpace`, by code point. -/
def isSpace (c : Char) : Bool :=
  decide (c.toNat ∈ [0x09, 0x0A, 0x0B, 0x0C, 0x0D, 0x20, 0x85, 0xA0, 0x1680, 0x2028, 0x2029,
    0x202F, 0x205F, 0x3000]) || decide (0x2000 ≤ c.toNat ∧ c.toNat ≤ 0x200A)

/-- Embedding of `strings.TrimSpace`. -/
def trimSpace (s : List Char) : List Char :=
  ((s.dropWhile isSpace).reverse.dropWhile isSpace).reverse

/-- Embedding of `unicode.ToUpper` on the letters a to z.  Other characters
are left as they are: `parseResult` only compares the upper-cased text with
"P - P" and "P-P", and no character other than `p` has `P` as its upper case,
nor has any other character `-` or the space. -/
def toUpperChar (c : Char) : Char :=
  if 97 ≤ c.toNat ∧ c.toNat ≤ 122 then Char.ofNat (c.toNat - 32) else c

/-- Embedding of `strings.ToUpper`. -/
def toUpper (s : List Char) : List Char := s.map toUpperChar

/-- Embedding of `strings.Split(s, "-")`. -/
def splitDash : List Char → List (List Char)
  | [] => [[]]
  | c :: rest =>
    if c.toNat = 45 then [] :: splitDash rest
    else
      match splitDash rest with
      | [] => [[c]]
      | part :: parts => (c :: part) :: parts

/-- Embedding of the Go string comparison `a > b`. -/
def gtString : List Char → List Char → Bool
  | [], _ => false
  | _ :: _, [] => true
  | x :: xs, y :: ys =>
    if x.toNat > y.toNat then true
    else if x.toNat < y.toNat then false
    else gtString xs ys

/-- Embedding of `parseResult(result, homeTeam, awayTeam)`. -/
def parseResult (result homeTeam awayTeam : String) : String :=
  let result := trimSpace result.data
  if toUpper result = "P - P".data ∨ toUpper result = "P-P".data then "postponed"
  else
    match splitDash result with
    | [part0, part1] =>
      let home := trimSpace part0
      let away := trimSpace part1
      if home = away then "draw"
      else if gtString home away then homeTeam
      else awayTeam
    | _ => ""

end LastManStanding

namespace TicTacToe


/-! ## Proofs about `checkWinner` -/

theorem comboFilled_iff (board : List String) (combo : Nat × Nat × Nat) :
    comboFilled board combo = true ↔
      ∃ sym : String, sym ≠ "" ∧ board[combo.1]? = some sym ∧
        board[combo.2.1]? = some sym ∧ board[combo.2.2]? = some sym := by
  unfold comboFilled
  constructor
  · intro h
    split at h
    · next a b c ha hb hc =>
      simp only [decide_eq_true_eq] at h
      obtain ⟨h1, h2, h3⟩ := h
      subst h2 h3
      exact ⟨a, h1, ha, hb, hc⟩
    · simp at h
  · rintro ⟨sym, h1, h2, h3, h4⟩
    simp [h2, h3, h4, h1]

theorem exists_nine {α : Type} (l : List α) (h : l.length = 9) :
    ∃ a0 a1 a2 a3 a4 a5 a6 a7 a8, l = [a0, a1, a2, a3, a4, a5, a6, a7, a8] := by
  match l, h with
  | [a0, a1, a2, a3, a4, a5, a6, a7, a8], _ => exact ⟨a0, a1, a2, a3, a4, a5, a6, a7, a8, rfl⟩

theorem comboHit_eq (board : List String) (a b c : String) (combo : Nat × Nat × Nat)
    (ha : board[combo.1]? = some a) (hb : board[combo.2.1]? = some b)
    (hc : board[combo.2.2]? = some c) :
    comboHit board combo = some (comboFilled board combo) := by
  unfold comboHit comboFilled
  simp only [ha, hb, hc]
  by_cases h1 : a = ""
  · simp [h1]
  · by_cases h2 : a = b
    · subst h2
      simp [h1]
    · simp [h1, h2]

theorem comboHit_wins (board : List String) (h : board.length = 9)
    (combo : Nat × Nat × Nat) (hc : combo ∈ wins) :
    comboHit board combo = some (comboFilled board combo) := by
  obtain ⟨a0, a1, a2, a3, a4, a5, a6, a7, a8, rfl⟩ := exists_nine board h
  simp only [wins, List.mem_cons, List.mem_singleton, List.not_mem_nil, or_false] at hc
  rcases hc with rfl | rfl | rfl | rfl | rfl | rfl | rfl | rfl <;>
    exact comboHit_eq _ _ _ _ _ rfl rfl rfl

theorem scanWins_eq_any (board : List String) (combos : List (Nat × Nat × Nat))
    (h : ∀ combo ∈ combos, comboHit board combo = some (comboFilled board combo)) :
    scanWins board combos = some (combos.any (comboFilled board)) := by
  induction combos with
  | nil => rfl
  | cons combo rest ih =>
    have hhead := h combo (List.mem_cons_self _ _)
    have htail := ih (fun c hc => h c (List.mem_cons_of_mem _ hc))
    simp only [scanWins, hhead, List.any_cons]
    cases hf : comboFilled board combo
    · simpa using htail
    · simp

theorem boardFull_iff (board : List String) : boardFull board = true ↔ NoEmptyCell board := by
  induction board with
  | nil => simp [boardFull, NoEmptyCell]
  | cons cell rest ih =>
    unfold boardFull
    by_cases hc : cell = ""
    · simp [hc, NoEmptyCell]
    · simp only [hc, if_false, ih]
      simp [NoEmptyCell, hc]

theorem any_comboFilled_iff (board : List String) :
    wins.any (comboFilled board) = true ↔ HasLine board := by
  simp only [List.any_eq_true, HasLine, comboFilled_iff]
  constructor
  · rintro ⟨combo, hmem, sym, hne, h1, h2, h3⟩
    refine ⟨[combo.1, combo.2.1, combo.2.2], ?_, sym, hne, ?_⟩
    · simp only [wins, List.mem_cons, List.mem_singleton, List.not_mem_nil, or_false] at hmem
      rcases hmem with rfl | rfl | rfl | rfl | rfl | rfl | rfl | rfl <;> simp [lines]
    · intro i hi
      simp only [List.mem_cons, List.mem_singleton, List.not_mem_nil, or_false] at hi
      rcases hi with rfl | rfl | rfl <;> assumption
  · rintro ⟨l, hmem, sym, hne, hall⟩
    simp only [lines, List.mem_cons, List.mem_singleton, List.not_mem_nil, or_false] at hmem
    rcases hmem with rfl | rfl | rfl | rfl | rfl | rfl | rfl | rfl
    · exact ⟨(0, 1, 2), by simp [wins], ⟨sym, hne, hall 0 (by simp), hall 1 (by simp), hall 2 (by simp)⟩⟩
    · exact ⟨(3, 4, 5), by simp [wins], ⟨sym, hne, hall 3 (by simp), hall 4 (by simp), hall 5 (by simp)⟩⟩
    · exact ⟨(6, 7, 8), by simp [wins], ⟨sym, hne, hall 6 (by simp), hall 7 (by simp), hall 8 (by simp)⟩⟩
    · exact ⟨(0, 3, 6), by simp [wins], ⟨sym, hne, hall 0 (by simp), hall 3 (by simp), hall 6 (by simp)⟩⟩
    · exact ⟨(1, 4, 7), by simp [wins], ⟨sym, hne, hall 1 (by simp), hall 4 (by simp), hall 7 (by simp)⟩⟩
    · exact ⟨(2, 5, 8), by simp [wins], ⟨sym, hne, hall 2 (by simp), hall 5 (by simp), hall 8 (by simp)⟩⟩
    · exact ⟨(0, 4, 8), by simp [wins], ⟨sym, hne, hall 0 (by simp), hall 4 (by simp), hall 8 (by simp)⟩⟩
    · exact ⟨(2, 4, 6), by simp [wins], ⟨sym, hne, hall 2 (by simp), hall 4 (by simp), hall 6 (by simp)⟩⟩

/-- On a 9-cell board `checkWinner` does not panic and computes the two flags
from `HasLine` and `NoEmptyCell`. -/
theorem checkWinner_eq (board : List String) (h : board.length = 9) :
    checkWinner board =
      some (wins.any (comboFilled board), !(wins.any (comboFilled board)) && boardFull board) := by
  unfold checkWinner
  rw [scanWins_eq_any board wins (fun c hc => comboHit_wins board h c hc)]
  cases wins.any (comboFilled board) <;> simp

/-- C5: for every 9-cell board, `checkWinner` returns `(true, false)` exactly
when one of the eight lines holds three identical non-empty cells, `(false, true)`
exactly when there is no such line and no empty cell, `(false, false)` exactly in
the remaining case, and never `(true, true)`. -/
theorem checkWinner_spec (board : List String) (h : board.length = 9) :
    (checkWinner board = some (true, false) ↔ HasLine board) ∧
    (checkWinner board = some (false, true) ↔ ¬ HasLine board ∧ NoEmptyCell board) ∧
    (checkWinner board = some (false, false) ↔ ¬ HasLine board ∧ ¬ NoEmptyCell board) ∧
    checkWinner board ≠ some (true, true) := by
  rw [checkWinner_eq board h, ← any_comboFilled_iff, ← boardFull_iff]
  cases wins.any (comboFilled board) <;> cases boardFull board <;> simp

/-- C5 at a concrete board: the top row of X is detected as a win. -/
theorem checkWinner_spec_witness :
    (checkWinner ["X", "X", "X", "O", "O", "", "", "", ""] = some (true, false) ↔
        HasLine ["X", "X", "X", "O", "O", "", "", "", ""]) ∧
    (checkWinner ["X", "X", "X", "O", "O", "", "", "", ""] = some (false, true) ↔
        ¬ HasLine ["X", "X", "X", "O", "O", "", "", "", ""] ∧
          NoEmptyCell ["X", "X", "X", "O", "O", "", "", "", ""]) ∧
    (checkWinner ["X", "X", "X", "O", "O", "", "", "", ""] = some (false, false) ↔
        ¬ HasLine ["X", "X", "X", "O", "O", "", "", "", ""] ∧
          ¬ NoEmptyCell ["X", "X", "X", "O", "O", "", "", "", ""]) ∧
    checkWinner ["X", "X", "X", "O", "O", "", "", "", ""] ≠ some (true, true) :=
  checkWinner_spec ["X", "X", "X", "O", "O", "", "", "", ""] (by decide)

/-! ## Store lemmas -/

theorem find_map_update (games : List Game) (gameID : Int) (f : Game → Game)
    (hf : ∀ x, (f x).id = x.id) :
    (games.map (fun g => if g.id = gameID then f g else g)).find?
        (fun g => decide (g.id = gameID)) =
      (games.find? (fun g => decide (g.id = gameID))).map f := by
  induction games with
  | nil => rfl
  | cons x rest ih =>
    by_cases hx : x.id = gameID
    · have hfx : (f x).id = gameID := by rw [hf, hx]
      simp [List.find?, hx, hfx]
    · simp [List.find?, hx, ih]

theorem find_map_update_other (games : List Game) (gameID other : Int) (f : Game → Game)
    (hf : ∀ x, (f x).id = x.id) (hne : other ≠ gameID) :
    (games.map (fun g => if g.id = gameID then f g else g)).find?
        (fun g => decide (g.id = other)) =
      games.find? (fun g => decide (g.id = other)) := by
  induction games with
  | nil => rfl
  | cons x rest ih =>
    rw [List.map_cons, List.find?_cons, List.find?_cons, ih]
    by_cases hx : x.id = gameID
    · have hxo : ¬ x.id = other := by rw [hx]; exact fun h => hne h.symm
      have hfx : ¬ (f x).id = other := by rw [hf]; exact hxo
      have hgo : ¬ gameID = other := fun h => hne h.symm
      simp [hx, hfx, hgo]
    · simp only [hx, if_false]

theorem getGame_updateGame (s : Store) (gameID : Int) (f : Game → Game)
    (hf : ∀ x, (f x).id = x.id) :
    (s.updateGame gameID f).getGame gameID = (s.getGame gameID).map f :=
  find_map_update s.games gameID f hf

theorem getGame_updateGame_other (s : Store) (gameID other : Int) (f : Game → Game)
    (hf : ∀ x, (f x).id = x.id) (hne : other ≠ gameID) :
    (s.updateGame gameID f).getGame other = s.getGame other :=
  find_map_update_other s.games gameID other f hf hne

theorem getGame_congr (s t : Store) (h : t.games = s.games) (gameID : Int) :
    t.getGame gameID = s.getGame gameID := by
  unfold Store.getGame
  rw [h]

theorem markUserOnline_games (s : Store) (now : Nat) (userID : Int) (userName : String)
    (inGame : Bool) : (markUserOnline s now userID userName inGame).games = s.games := by
  unfold markUserOnline
  dsimp only
  split_ifs <;> rfl

theorem markUserOnline_moves (s : Store) (now : Nat) (userID : Int) (userName : String)
    (inGame : Bool) : (markUserOnline s now userID userName inGame).moves = s.moves := by
  unfold markUserOnline
  dsimp only
  split_ifs <;> rfl

theorem updatePlayerStats_games (s : Store) (now : Nat) (userID : Int) (userName : String)
    (won lost draw : Bool) :
    (updatePlayerStats s now userID userName won lost draw).games = s.games := rfl

theorem updatePlayerStats_moves (s : Store) (now : Nat) (userID : Int) (userName : String)
    (won lost draw : Bool) :
    (updatePlayerStats s now userID userName won lost draw).moves = s.moves := rfl

/-! ## The validation chain of `makeMoveHandler` -/

theorem makeMove_invalidPosition (s : Store) (now : Nat) (user : User) (req : MoveReq)
    (h : req.position < 0 ∨ req.position > 8) :
    makeMoveHandler s now (some user) (some req) =
      { response := .error "Invalid position" 400, store := s, broadcast := none } := by
  unfold makeMoveHandler
  simp only [h, if_true]

theorem makeMove_notFound (s : Store) (now : Nat) (user : User) (req : MoveReq)
    (h0 : 0 ≤ req.position) (h8 : req.position ≤ 8) (hg : s.getGame req.gameID = none) :
    makeMoveHandler s now (some user) (some req) =
      { response := .error "Game not found" 404, store := s, broadcast := none } := by
  have hpos : ¬ (req.position < 0 ∨ req.position > 8) := by omega
  unfold makeMoveHandler
  simp only [hpos, if_false, hg]

theorem makeMove_notActive (s : Store) (now : Nat) (user : User) (req : MoveReq) (g : Game)
    (h0 : 0 ≤ req.position) (h8 : req.position ≤ 8) (hg : s.getGame req.gameID = some g)
    (hst : g.status ≠ "active") :
    makeMoveHandler s now (some user) (some req) =
      { response := .error "Game is not active" 400, store := s, broadcast := none } := by
  have hpos : ¬ (req.position < 0 ∨ req.position > 8) := by omega
  unfold makeMoveHandler
  simp only [hpos, if_false, hg, hst, ne_eq, not_false_eq_true, if_true]

theorem makeMove_notInGame (s : Store) (now : Nat) (user : User) (req : MoveReq) (g : Game)
    (h0 : 0 ≤ req.position) (h8 : req.position ≤ 8) (hg : s.getGame req.gameID = some g)
    (hst : g.status = "active") (h1 : user.id ≠ g.player1ID)
    (h2 : g.player2ID ≠ some user.id) :
    makeMoveHandler s now (some user) (some req) =
      { response := .error "You are not in this game" 403, store := s, broadcast := none } := by
  have hpos : ¬ (req.position < 0 ∨ req.position > 8) := by omega
  unfold makeMoveHandler
  simp only [hpos, if_false, hg, hst, ne_eq, not_true_eq_false, h1, h2]

theorem makeMove_notYourTurn (s : Store) (now : Nat) (user : User) (req : MoveReq) (g : Game)
    (pn : Int) (sym : String)
    (h0 : 0 ≤ req.position) (h8 : req.position ≤ 8) (hg : s.getGame req.gameID = some g)
    (hst : g.status = "active") (hseat : Seated g user pn sym) (hturn : g.currentTurn ≠ pn) :
    makeMoveHandler s now (some user) (some req) =
      { response := .error "Not your turn" 400, store := s, broadcast := none } := by
  have hpos : ¬ (req.position < 0 ∨ req.position > 8) := by omega
  unfold makeMoveHandler
  rcases hseat with ⟨h1, rfl, rfl⟩ | ⟨h1, h2, rfl, rfl⟩
  · simp only [hpos, if_false, hg, hst, ne_eq, not_true_eq_false, h1, if_true, hturn,
      not_false_eq_true]
  · simp only [hpos, if_false, hg, hst, ne_eq, not_true_eq_false, h1, h2, if_true, hturn,
      not_false_eq_true]

theorem makeMove_invalidBoard (s : Store) (now : Nat) (user : User) (req : MoveReq) (g : Game)
    (pn : Int) (sym : String)
    (h0 : 0 ≤ req.position) (h8 : req.position ≤ 8) (hg : s.getGame req.gameID = some g)
    (hst : g.status = "active") (hseat : Seated g user pn sym) (hturn : g.currentTurn = pn)
    (hb : g.board = none) :
    makeMoveHandler s now (some user) (some req) =
      { response := .error "Invalid board state" 500, store := s, broadcast := none } := by
  have hpos : ¬ (req.position < 0 ∨ req.position > 8) := by omega
  unfold makeMoveHandler
  rcases hseat with ⟨h1, rfl, rfl⟩ | ⟨h1, h2, rfl, rfl⟩
  · simp only [hpos, if_false, hg, hst, ne_eq, not_true_eq_false, h1, if_true, hturn, hb]
  · simp only [hpos, if_false, hg, hst, ne_eq, not_true_eq_false, h1, h2, if_true, hturn, hb]

theorem makeMove_indexPanic (s : Store) (now : Nat) (user : User) (req : MoveReq) (g : Game)
    (pn : Int) (sym : String) (b0 : List String)
    (h0 : 0 ≤ req.position) (h8 : req.position ≤ 8) (hg : s.getGame req.gameID = some g)
    (hst : g.status = "active") (hseat : Seated g user pn sym) (hturn : g.currentTurn = pn)
    (hb : g.board = some b0) (hcell : b0[req.position.toNat]? = none) :
    makeMoveHandler s now (some user) (some req) =
      { response := .panic, store := s, broadcast := none } := by
  have hpos : ¬ (req.position < 0 ∨ req.position > 8) := by omega
  unfold makeMoveHandler
  rcases hseat with ⟨h1, rfl, rfl⟩ | ⟨h1, h2, rfl, rfl⟩
  · simp only [hpos, if_false, hg, hst, ne_eq, not_true_eq_false, h1, if_true, hturn, hb,
      hcell]
  · simp only [hpos, if_false, hg, hst, ne_eq, not_true_eq_false, h1, h2, if_true, hturn, hb,
      hcell]

theorem makeMove_positionTaken (s : Store) (now : Nat) (user : User) (req : MoveReq) (g : Game)
    (pn : Int) (sym : String) (b0 : List String) (cell : String)
    (h0 : 0 ≤ req.position) (h8 : req.position ≤ 8) (hg : s.getGame req.gameID = some g)
    (hst : g.status = "active") (hseat : Seated g user pn sym) (hturn : g.currentTurn = pn)
    (hb : g.board = some b0) (hcell : b0[req.position.toNat]? = some cell)
    (hne : cell ≠ "") :
    makeMoveHandler s now (some user) (some req) =
      { response := .error "Position already taken" 400, store := s, broadcast := none } := by
  have hpos : ¬ (req.position < 0 ∨ req.position > 8) := by omega
  unfold makeMoveHandler
  rcases hseat with ⟨h1, rfl, rfl⟩ | ⟨h1, h2, rfl, rfl⟩
  · simp only [hpos, if_false, hg, hst, ne_eq, not_true_eq_false, h1, if_true, hturn, hb,
      hcell, hne, not_false_eq_true]
  · simp only [hpos, if_false, hg, hst, ne_eq, not_true_eq_false, h1, h2, if_true, hturn, hb,
      hcell, hne, not_false_eq_true]

theorem makeMove_checkPanic (s : Store) (now : Nat) (user : User) (req : MoveReq) (g : Game)
    (pn : Int) (sym : String) (b0 : List String)
    (h0 : 0 ≤ req.position) (h8 : req.position ≤ 8) (hg : s.getGame req.gameID = some g)
    (hst : g.status = "active") (hseat : Seated g user pn sym) (hturn : g.currentTurn = pn)
    (hb : g.board = some b0) (hcell : b0[req.position.toNat]? = some "")
    (hcw : checkWinner (b0.set req.position.toNat sym) = none) :
    makeMoveHandler s now (some user) (some req) =
      { response := .panic,
        store := s.insertMove now req.gameID user.id req.position sym,
        broadcast := none } := by
  have hpos : ¬ (req.position < 0 ∨ req.position > 8) := by omega
  unfold makeMoveHandler
  rcases hseat with ⟨h1, rfl, rfl⟩ | ⟨h1, h2, rfl, rfl⟩
  · simp only [hpos, if_false, hg, hst, ne_eq, not_true_eq_false, h1, if_true, hturn, hb,
      hcell, hcw]
  · simp only [hpos, if_false, hg, hst, ne_eq, not_true_eq_false, h1, h2, if_true, hturn, hb,
      hcell, hcw]

theorem getGame_markUserOnline (s : Store) (now : Nat) (userID : Int) (userName : String)
    (inGame : Bool) (gameID : Int) :
    (markUserOnline s now userID userName inGame).getGame gameID = s.getGame gameID :=
  getGame_congr _ _ (markUserOnline_games s now userID userName inGame) gameID

theorem getGame_updatePlayerStats (s : Store) (now : Nat) (userID : Int)
    (userName : String) (won lost draw : Bool) (gameID : Int) :
    (updatePlayerStats s now userID userName won lost draw).getGame gameID = s.getGame gameID :=
  rfl

theorem getGame_insertMove (s : Store) (now : Nat) (gameID playerID position : Int)
    (symbol : String) (other : Int) :
    (s.insertMove now gameID playerID position symbol).getGame other = s.getGame other :=
  rfl

theorem moves_updateGame (s : Store) (gameID : Int) (f : Game → Game) :
    (s.updateGame gameID f).moves = s.moves := rfl

/-- The outcome of a request that passes every validation of `makeMoveHandler`. -/
theorem makeMove_accepted (s : Store) (now : Nat) (user : User) (req : MoveReq) (g : Game)
    (pn : Int) (sym : String) (b0 : List String) (hw dr : Bool)
    (h0 : 0 ≤ req.position) (h8 : req.position ≤ 8) (hg : s.getGame req.gameID = some g)
    (hst : g.status = "active") (hseat : Seated g user pn sym) (hturn : g.currentTurn = pn)
    (hb : g.board = some b0) (hcell : b0[req.position.toNat]? = some "")
    (hcw : checkWinner (b0.set req.position.toNat sym) = some (hw, dr)) :
    (∃ so w, (makeMoveHandler s now (some user) (some req)).response =
        .success (b0.set req.position.toNat sym) (hw || dr) so dr
          ((makeMoveHandler s now (some user) (some req)).store.getGame req.gameID) w) ∧
    (makeMoveHandler s now (some user) (some req)).store.getGame req.gameID =
        some (movedGame g now pn (b0.set req.position.toNat sym) hw dr) ∧
    (makeMoveHandler s now (some user) (some req)).store.moves =
        s.moves ++ [{ gameID := req.gameID, playerID := user.id, position := req.position,
                      symbol := sym, createdAt := now }] ∧
    (∀ other, other ≠ req.gameID →
        (makeMoveHandler s now (some user) (some req)).store.getGame other =
          s.getGame other) := by
  have hpos : ¬ (req.position < 0 ∨ req.position > 8) := by omega
  have h21 : ¬ ((2 : Int) = 1) := by decide
  unfold makeMoveHandler
  by_cases hp1 :
      (if hw = true ∧ pn = 1 then g.player1Score + 1 else g.player1Score) ≥ g.firstTo <;>
  by_cases hp2 :
      (if hw = true ∧ pn ≠ 1 then g.player2Score + 1 else g.player2Score) ≥ g.firstTo <;>
  rcases hseat with ⟨h1, rfl, rfl⟩ | ⟨h1, h2, rfl, rfl⟩ <;>
  cases hw <;> cases dr <;> cases hp2ID : g.player2ID <;>
  (try (rw [hp2ID] at h2)) <;>
  first
  | (exact absurd h2 (Option.some_ne_none _).symm)
  | (try (cases h2)
     simp only [hpos, if_false, hg, hst, ne_eq, not_true_eq_false, h1, if_true, hturn, hb,
      hcell, hcw, hp2ID, h21, Bool.or_self, Bool.or_true, Bool.true_or, Bool.or_false,
      Bool.false_eq_true, false_and, true_and, and_true, and_false, not_false_eq_true,
      Option.some.injEq] at hp1 hp2 ⊢
     try simp only [hp1, hp2, if_true, if_false]
     refine ⟨⟨_, _, rfl⟩, ?_, ?_, ?_⟩
     · try simp only [getGame_markUserOnline, getGame_updatePlayerStats]
       rw [getGame_updateGame _ _ _ (by intro _; rfl), getGame_insertMove, hg]
       simp [movedGame, hp1, hp2, hp2ID]
     · simp only [markUserOnline_moves, updatePlayerStats_moves, moves_updateGame]
       rfl
     · intro other ho
       try simp only [getGame_markUserOnline, getGame_updatePlayerStats]
       rw [getGame_updateGame_other _ _ _ _ (by intro _; rfl) ho, getGame_insertMove])

/-! ## `checkWinner` on boards of any length -/

theorem comboHit_some (board : List String) (combo : Nat × Nat × Nat) (v : Bool)
    (h : comboHit board combo = some v) : comboFilled board combo = v := by
  unfold comboHit at h
  unfold comboFilled
  cases ha : board[combo.1]? with
  | none => simp [ha] at h
  | some a =>
    simp only [ha] at h
    by_cases h1 : a = ""
    · simp only [h1, if_true, Option.some.injEq] at h
      subst h
      cases board[combo.2.1]? <;> cases board[combo.2.2]? <;> simp [h1]
    · simp only [h1, if_false] at h
      cases hb : board[combo.2.1]? with
      | none => simp [hb] at h
      | some b =>
        simp only [hb] at h
        by_cases h2 : a = b
        · subst h2
          simp only [ne_eq, not_true_eq_false, if_false] at h
          cases hc : board[combo.2.2]? with
          | none => simp [hc] at h
          | some c =>
            simp only [hc, Option.some.injEq] at h
            subst h
            simp [h1]
        · simp only [ne_eq, h2, not_false_eq_true, if_true, Option.some.injEq] at h
          subst h
          cases board[combo.2.2]? <;> simp [h2]

theorem scanWins_some (board : List String) (combos : List (Nat × Nat × Nat)) (v : Bool)
    (h : scanWins board combos = some v) : v = combos.any (comboFilled board) := by
  induction combos with
  | nil =>
    simp only [scanWins, Option.some.injEq] at h
    simp [← h]
  | cons combo rest ih =>
    unfold scanWins at h
    cases hc : comboHit board combo with
    | none => simp [hc] at h
    | some w =>
      have hf := comboHit_some board combo w hc
      cases w
      · simp only [hc] at h
        rw [List.any_cons, hf, Bool.false_or]
        exact ih h
      · simp only [hc, Option.some.injEq] at h
        rw [List.any_cons, hf, Bool.true_or]
        exact h.symm

/-- Whenever `checkWinner` returns, its flags say whether the board has a filled
line and whether it is a draw. -/
theorem checkWinner_some (board : List String) (hw dr : Bool)
    (h : checkWinner board = some (hw, dr)) :
    (hw = true ↔ HasLine board) ∧ (dr = true ↔ ¬ HasLine board ∧ NoEmptyCell board) := by
  unfold checkWinner at h
  cases hs : scanWins board wins with
  | none => simp [hs] at h
  | some v =>
    have hv := scanWins_some board wins v hs
    rw [← any_comboFilled_iff, ← boardFull_iff, ← hv]
    cases v
    · simp only [hs, Option.some.injEq, Prod.mk.injEq] at h
      obtain ⟨rfl, rfl⟩ := h
      simp
    · simp only [hs, Option.some.injEq, Prod.mk.injEq] at h
      obtain ⟨rfl, rfl⟩ := h
      simp

/-! ## Case analysis of `makeMoveHandler` -/

/-- Every call of `makeMoveHandler` either is turned down with `sendError` and
leaves the database as it was (at whatever time it is made), or panics without
touching the `games` table, or passes every validation. -/
theorem makeMove_cases (s : Store) (authUser : Option User) (body : Option MoveReq) :
    (∃ msg code, ∀ n, makeMoveHandler s n authUser body =
        { response := .error msg code, store := s, broadcast := none }) ∨
    (∀ n, (makeMoveHandler s n authUser body).response = .panic ∧
        (makeMoveHandler s n authUser body).store.games = s.games) ∨
    (∃ user req g pn sym b0 hw dr, authUser = some user ∧ body = some req ∧
        0 ≤ req.position ∧ req.position ≤ 8 ∧ s.getGame req.gameID = some g ∧
        g.status = "active" ∧ Seated g user pn sym ∧ g.currentTurn = pn ∧
        g.board = some b0 ∧ b0[req.position.toNat]? = some "" ∧
        checkWinner (b0.set req.position.toNat sym) = some (hw, dr)) := by
  cases authUser with
  | none => exact Or.inl ⟨_, _, fun _ => rfl⟩
  | some user =>
  cases body with
  | none => exact Or.inl ⟨_, _, fun _ => rfl⟩
  | some req =>
  by_cases hpos : req.position < 0 ∨ req.position > 8
  · exact Or.inl ⟨_, _, fun n => makeMove_invalidPosition s n user req hpos⟩
  have h0 : 0 ≤ req.position := by omega
  have h8 : req.position ≤ 8 := by omega
  cases hg : s.getGame req.gameID with
  | none => exact Or.inl ⟨_, _, fun n => makeMove_notFound s n user req h0 h8 hg⟩
  | some g =>
  by_cases hst : g.status = "active"
  swap
  · exact Or.inl ⟨_, _, fun n => makeMove_notActive s n user req g h0 h8 hg hst⟩
  have hseat : (∃ pn sym, Seated g user pn sym) ∨
      (user.id ≠ g.player1ID ∧ g.player2ID ≠ some user.id) := by
    by_cases h1 : user.id = g.player1ID
    · exact Or.inl ⟨1, "X", Or.inl ⟨h1, rfl, rfl⟩⟩
    · by_cases h2 : g.player2ID = some user.id
      · exact Or.inl ⟨2, "O", Or.inr ⟨h1, h2, rfl, rfl⟩⟩
      · exact Or.inr ⟨h1, h2⟩
  rcases hseat with ⟨pn, sym, hseat⟩ | ⟨h1, h2⟩
  swap
  · exact Or.inl ⟨_, _, fun n => makeMove_notInGame s n user req g h0 h8 hg hst h1 h2⟩
  by_cases hturn : g.currentTurn = pn
  swap
  · exact Or.inl ⟨_, _, fun n => makeMove_notYourTurn s n user req g pn sym h0 h8 hg hst hseat hturn⟩
  cases hb : g.board with
  | none =>
    exact Or.inl ⟨_, _, fun n => makeMove_invalidBoard s n user req g pn sym h0 h8 hg hst hseat hturn hb⟩
  | some b0 =>
  cases hcell : b0[req.position.toNat]? with
  | none =>
    refine Or.inr (Or.inl fun n => ?_)
    rw [makeMove_indexPanic s n user req g pn sym b0 h0 h8 hg hst hseat hturn hb hcell]
    exact ⟨rfl, rfl⟩
  | some cell =>
  by_cases hne : cell = ""
  swap
  · exact Or.inl ⟨_, _, fun n =>
      makeMove_positionTaken s n user req g pn sym b0 cell h0 h8 hg hst hseat hturn hb hcell hne⟩
  subst hne
  cases hcw : checkWinner (b0.set req.position.toNat sym) with
  | none =>
    refine Or.inr (Or.inl fun n => ?_)
    rw [makeMove_checkPanic s n user req g pn sym b0 h0 h8 hg hst hseat hturn hb hcell hcw]
    exact ⟨rfl, rfl⟩
  | some res =>
    obtain ⟨hw, dr⟩ := res
    exact Or.inr (Or.inr ⟨user, req, g, pn, sym, b0, hw, dr, rfl, rfl, h0, h8, hg, hst, hseat,
      hturn, hb, hcell, hcw⟩)

theorem seated_seatOf (g : Game) (user : User) (pn : Int) (sym : String)
    (h : Seated g user pn sym) :
    seatOf g user.id = some pn ∧ (pn = 1 ∨ pn = 2) ∧
      sym = (if pn = 1 then "X" else "O") := by
  unfold seatOf
  rcases h with ⟨h1, rfl, rfl⟩ | ⟨h1, h2, rfl, rfl⟩
  · simp [h1]
  · simp [h1, h2]

/-- What an accepted move looked like before it was made and what it left. -/
theorem makeMove_success_inv (s : Store) (now : Nat) (user : User) (req : MoveReq) (g : Game)
    (bd : List String) (ro so dr : Bool) (game : Option Game) (w : Option Int)
    (hg : s.getGame req.gameID = some g)
    (hr : (makeMoveHandler s now (some user) (some req)).response =
      .success bd ro so dr game w) :
    ∃ pn sym b0 hw, 0 ≤ req.position ∧ req.position ≤ 8 ∧ g.status = "active" ∧
      Seated g user pn sym ∧ g.currentTurn = pn ∧ g.board = some b0 ∧
      b0[req.position.toNat]? = some "" ∧ bd = b0.set req.position.toNat sym ∧
      checkWinner bd = some (hw, dr) ∧ ro = (hw || dr) ∧
      (makeMoveHandler s now (some user) (some req)).store.getGame req.gameID =
        some (movedGame g now pn bd hw dr) ∧
      (makeMoveHandler s now (some user) (some req)).store.moves =
        s.moves ++ [{ gameID := req.gameID, playerID := user.id, position := req.position,
                      symbol := sym, createdAt := now }] ∧
      (∀ other, other ≠ req.gameID →
        (makeMoveHandler s now (some user) (some req)).store.getGame other =
          s.getGame other) := by
  rcases makeMove_cases s (some user) (some req) with ⟨msg, code, h⟩ | h | h
  · rw [h now] at hr
    cases hr
  · rw [(h now).1] at hr
    cases hr
  · obtain ⟨user', req', g', pn, sym, b0, hw, dr', hu, hrq, h0, h8, hg', hst, hseat, hturn, hb,
      hcell, hcw⟩ := h
    cases hu
    cases hrq
    rw [hg] at hg'
    cases hg'
    obtain ⟨⟨so', w', hresp⟩, hget, hmoves, hother⟩ :=
      makeMove_accepted s now user req g pn sym b0 hw dr' h0 h8 hg hst hseat hturn hb hcell hcw
    rw [hresp] at hr
    injection hr with e1 e2 e3 e4 e5 e6
    subst e1 e2 e4
    exact ⟨pn, sym, b0, hw, h0, h8, hst, hseat, hturn, hb, hcell, rfl, hcw, rfl, hget, hmoves,
      hother⟩

/-! ## C1: which moves are accepted, and the reason given otherwise -/

/-- C1: for a stored game with a 9-cell board, `makeMoveHandler` accepts a move
(and then records it in the `moves` table) exactly when the position is within
0..8, the game is active, the user is seated in the game with `current_turn`
equal to the seat number, and the target cell is empty; otherwise it answers,
in this order of precedence, "Invalid position", "Game is not active",
"You are not in this game", "Not your turn" or "Position already taken". -/
theorem makeMoveHandler_accepts_iff (s : Store) (now : Nat) (user : User) (req : MoveReq)
    (g : Game) (b : List String)
    (hg : s.getGame req.gameID = some g) (hb : g.board = some b) (hlen : b.length = 9) :
    ((makeMoveHandler s now (some user) (some req)).response.isSuccess = true ↔
      (0 ≤ req.position ∧ req.position ≤ 8 ∧ g.status = "active" ∧
        seatOf g user.id = some g.currentTurn ∧ b[req.position.toNat]? = some "")) ∧
    ((makeMoveHandler s now (some user) (some req)).response.isSuccess = true →
      (makeMoveHandler s now (some user) (some req)).store.moves.length =
        s.moves.length + 1) ∧
    ((req.position < 0 ∨ req.position > 8) →
      (makeMoveHandler s now (some user) (some req)).response =
        .error "Invalid position" 400) ∧
    (0 ≤ req.position ∧ req.position ≤ 8 → g.status ≠ "active" →
      (makeMoveHandler s now (some user) (some req)).response =
        .error "Game is not active" 400) ∧
    (0 ≤ req.position ∧ req.position ≤ 8 → g.status = "active" →
      seatOf g user.id = none →
      (makeMoveHandler s now (some user) (some req)).response =
        .error "You are not in this game" 403) ∧
    (0 ≤ req.position ∧ req.position ≤ 8 → g.status = "active" →
      seatOf g user.id ≠ none → seatOf g user.id ≠ some g.currentTurn →
      (makeMoveHandler s now (some user) (some req)).response =
        .error "Not your turn" 400) ∧
    (0 ≤ req.position ∧ req.position ≤ 8 → g.status = "active" →
      seatOf g user.id = some g.currentTurn → b[req.position.toNat]? ≠ some "" →
      (makeMoveHandler s now (some user) (some req)).response =
        .error "Position already taken" 400) := by
  have hseatCases : (∃ pn sym, Seated g user pn sym) ∨
      (user.id ≠ g.player1ID ∧ g.player2ID ≠ some user.id) := by
    by_cases h1 : user.id = g.player1ID
    · exact Or.inl ⟨1, "X", Or.inl ⟨h1, rfl, rfl⟩⟩
    · by_cases h2 : g.player2ID = some user.id
      · exact Or.inl ⟨2, "O", Or.inr ⟨h1, h2, rfl, rfl⟩⟩
      · exact Or.inr ⟨h1, h2⟩
  have hnone : user.id ≠ g.player1ID → g.player2ID ≠ some user.id → seatOf g user.id = none := by
    intro h1 h2
    simp [seatOf, h1, h2]
  refine ⟨⟨?_, ?_⟩, ?_, ?_, ?_, ?_, ?_, ?_⟩
  · intro hs
    cases hresp : (makeMoveHandler s now (some user) (some req)).response with
    | error m c => rw [hresp] at hs; cases hs
    | panic => rw [hresp] at hs; cases hs
    | success bd ro so dr game w =>
      obtain ⟨pn, sym, b0, hw, h0, h8, hst, hseat, hturn, hb0, hcell, -⟩ :=
        makeMove_success_inv s now user req g bd ro so dr game w hg hresp
      rw [hb] at hb0
      cases hb0
      exact ⟨h0, h8, hst, by rw [hturn]; exact (seated_seatOf g user pn sym hseat).1, hcell⟩
  · rintro ⟨h0, h8, hst, hseat, hcell⟩
    rcases hseatCases with ⟨pn, sym, hs⟩ | ⟨h1, h2⟩
    · have hturn : g.currentTurn = pn := by
        have := (seated_seatOf g user pn sym hs).1
        rw [hseat] at this
        exact Option.some.inj this
      have hlen' : (b.set req.position.toNat sym).length = 9 := by simp [hlen]
      have hcw := checkWinner_eq _ hlen'
      obtain ⟨⟨so, w, hresp⟩, -⟩ :=
        makeMove_accepted s now user req g pn sym b _ _ h0 h8 hg hst hs hturn hb hcell hcw
      rw [hresp]
      rfl
    · rw [hnone h1 h2] at hseat
      cases hseat
  · intro hs
    cases hresp : (makeMoveHandler s now (some user) (some req)).response with
    | error m c => rw [hresp] at hs; cases hs
    | panic => rw [hresp] at hs; cases hs
    | success bd ro so dr game w =>
      obtain ⟨pn, sym, b0, hw, -, -, -, -, -, -, -, -, -, -, -, hmoves, -⟩ :=
        makeMove_success_inv s now user req g bd ro so dr game w hg hresp
      rw [hmoves]
      simp
  · intro hpos
    rw [makeMove_invalidPosition s now user req hpos]
  · rintro ⟨h0, h8⟩ hst
    rw [makeMove_notActive s now user req g h0 h8 hg hst]
  · rintro ⟨h0, h8⟩ hst hseat
    rcases hseatCases with ⟨pn, sym, hs⟩ | ⟨h1, h2⟩
    · rw [(seated_seatOf g user pn sym hs).1] at hseat
      cases hseat
    · rw [makeMove_notInGame s now user req g h0 h8 hg hst h1 h2]
  · rintro ⟨h0, h8⟩ hst hseat hturn
    rcases hseatCases with ⟨pn, sym, hs⟩ | ⟨h1, h2⟩
    · have hne : g.currentTurn ≠ pn := by
        intro h
        apply hturn
        rw [h]
        exact (seated_seatOf g user pn sym hs).1
      rw [makeMove_notYourTurn s now user req g pn sym h0 h8 hg hst hs hne]
    · exact absurd (hnone h1 h2) hseat
  · rintro ⟨h0, h8⟩ hst hseat hcell
    rcases hseatCases with ⟨pn, sym, hs⟩ | ⟨h1, h2⟩
    · have hturn : g.currentTurn = pn := by
        have := (seated_seatOf g user pn sym hs).1
        rw [hseat] at this
        exact Option.some.inj this
      have hlt : req.position.toNat < b.length := by omega
      have hget : b[req.position.toNat]? = some (b[req.position.toNat]) :=
        List.getElem?_eq_getElem hlt
      have hne : b[req.position.toNat] ≠ "" := by
        intro h
        apply hcell
        rw [hget, h]
      rw [makeMove_positionTaken s now user req g pn sym b _ h0 h8 hg hst hs hturn hb hget hne]
    · rw [hnone h1 h2] at hseat
      cases hseat

/-- C1 at a concrete request: A's opening move on cell 0 of the fresh game 1 is
accepted. -/
theorem makeMoveHandler_accepts_iff_witness :
    ((scenarioStore 1).getGame 1 = some (startedGame 1 userA userB "normal" 0 1 0 0) ∧
      (startedGame 1 userA userB "normal" 0 1 0 0).board = some emptyBoard ∧
      emptyBoard.length = 9) ∧
    (makeMoveHandler (scenarioStore 1) 1 (some userA)
      (some { gameID := 1, position := 0 })).response.isSuccess = true :=
  ⟨⟨by decide, by decide, by decide⟩,
   (makeMoveHandler_accepts_iff (scenarioStore 1) 1 userA { gameID := 1, position := 0 }
      (startedGame 1 userA userB "normal" 0 1 0 0) emptyBoard
      (by decide) (by decide) (by decide)).1.2 (by decide)⟩

/-! ## C2: rejected moves change nothing -/

/-- A run of the same request at the given times. -/
theorem replay_rejected (s : Store) (authUser : Option User) (body : Option MoveReq)
    (msg : String) (code : Nat)
    (h : ∀ n, makeMoveHandler s n authUser body =
      { response := .error msg code, store := s, broadcast := none })
    (times : List Nat) :
    playMoves s (times.map (fun n => (n, authUser, body))) = s := by
  induction times with
  | nil => rfl
  | cons n rest ih =>
    simp only [List.map_cons, playMoves, h n]
    exact ih

/-- C2: when `makeMoveHandler` turns a move down with `sendError` (in particular
for an invalid position, an inactive game, a non-participant, a wrong turn or a
taken cell) the whole database is unchanged, so the game row keeps its board,
turn, scores, round and status and the `moves` table gets no row; the same
request is turned down with the same answer whenever it is made again, and
replaying it any number of times leaves the database unchanged. -/
theorem makeMoveHandler_rejected_unchanged (s : Store) (now : Nat) (authUser : Option User)
    (body : Option MoveReq) (msg : String) (code : Nat)
    (h : (makeMoveHandler s now authUser body).response = .error msg code) :
    (makeMoveHandler s now authUser body).store = s ∧
    (∀ n, (makeMoveHandler s n authUser body).response = .error msg code ∧
      (makeMoveHandler s n authUser body).store = s) ∧
    (∀ times : List Nat, playMoves s (times.map (fun n => (n, authUser, body))) = s) := by
  rcases makeMove_cases s authUser body with ⟨msg', code', h'⟩ | h' | h'
  · have e := h
    rw [h' now] at e
    injection e with e1 e2
    subst e1 e2
    refine ⟨by rw [h' now], fun n => by rw [h' n]; exact ⟨rfl, rfl⟩, ?_⟩
    exact replay_rejected s authUser body msg' code' h'
  · rw [(h' now).1] at h
    cases h
  · obtain ⟨user, req, g, pn, sym, b0, hw, dr, rfl, rfl, h0, h8, hg, hst, hseat, hturn, hb,
      hcell, hcw⟩ := h'
    obtain ⟨⟨so, w, hresp⟩, -⟩ :=
      makeMove_accepted s now user req g pn sym b0 hw dr h0 h8 hg hst hseat hturn hb hcell hcw
    rw [hresp] at h
    cases h

/-- C2 at a concrete request: B moving first in the fresh game 1 is turned down
("Not your turn") and the database stays as it was. -/
theorem makeMoveHandler_rejected_unchanged_witness :
    (makeMoveHandler (scenarioStore 1) 1 (some userB)
        (some { gameID := 1, position := 4 })).response = .error "Not your turn" 400 ∧
    (makeMoveHandler (scenarioStore 1) 1 (some userB)
        (some { gameID := 1, position := 4 })).store = scenarioStore 1 :=
  ⟨by decide,
   (makeMoveHandler_rejected_unchanged (scenarioStore 1) 1 (some userB)
      (some { gameID := 1, position := 4 }) "Not your turn" 400 (by decide)).1⟩

/-! ## Fields of the updated game row -/

theorem movedGame_player1Score (g : Game) (now : Nat) (pn : Int) (bd : List String)
    (hw dr : Bool) :
    (movedGame g now pn bd hw dr).player1Score =
      if hw = true ∧ pn = 1 then g.player1Score + 1 else g.player1Score := by
  unfold movedGame
  cases hw <;> cases dr <;> simp <;> split_ifs <;> rfl

theorem movedGame_player2Score (g : Game) (now : Nat) (pn : Int) (bd : List String)
    (hw dr : Bool) :
    (movedGame g now pn bd hw dr).player2Score =
      if hw = true ∧ pn ≠ 1 then g.player2Score + 1 else g.player2Score := by
  unfold movedGame
  cases hw <;> cases dr <;> simp <;> split_ifs <;> rfl

/-- The series is decided by the move: some new score has reached `first_to`. -/
theorem movedGame_decided (g : Game) (now : Nat) (pn : Int) (bd : List String) (hw dr : Bool)
    (hro : (hw || dr) = true)
    (hdec : (movedGame g now pn bd hw dr).player1Score ≥ g.firstTo ∨
      (movedGame g now pn bd hw dr).player2Score ≥ g.firstTo) :
    (movedGame g now pn bd hw dr).status = "completed" ∧
    (movedGame g now pn bd hw dr).board = some bd ∧
    (movedGame g now pn bd hw dr).currentRound = g.currentRound ∧
    (movedGame g now pn bd hw dr).winnerID =
      some (if (movedGame g now pn bd hw dr).player1Score ≥ g.firstTo then g.player1ID
            else g.player2ID.getD 0) := by
  rw [movedGame_player1Score, movedGame_player2Score] at hdec
  rw [movedGame_player1Score]
  unfold movedGame
  simp only [hro, if_true]
  by_cases hp1 : (if hw = true ∧ pn = 1 then g.player1Score + 1 else g.player1Score) ≥ g.firstTo
  · simp only [hp1, if_true, and_self]
  · have hp2 := hdec.resolve_left hp1
    simp only [hp1, hp2, if_true, if_false, and_self]

/-- The round is over but the series is not: both new scores are below `first_to`. -/
theorem movedGame_restart (g : Game) (now : Nat) (pn : Int) (bd : List String) (hw dr : Bool)
    (hro : (hw || dr) = true)
    (h1 : (movedGame g now pn bd hw dr).player1Score < g.firstTo)
    (h2 : (movedGame g now pn bd hw dr).player2Score < g.firstTo) :
    (movedGame g now pn bd hw dr).status = g.status ∧
    (movedGame g now pn bd hw dr).winnerID = g.winnerID ∧
    (movedGame g now pn bd hw dr).board = some emptyBoard ∧
    (movedGame g now pn bd hw dr).currentRound = g.currentRound + 1 ∧
    (movedGame g now pn bd hw dr).currentTurn =
      (if Int.tmod (g.currentRound + 1) 2 = 0 then 2 else 1) := by
  rw [movedGame_player1Score] at h1
  rw [movedGame_player2Score] at h2
  have hp1 : ¬ (if hw = true ∧ pn = 1 then g.player1Score + 1 else g.player1Score) ≥ g.firstTo :=
    not_le.mpr h1
  have hp2 : ¬ (if hw = true ∧ pn ≠ 1 then g.player2Score + 1 else g.player2Score) ≥ g.firstTo :=
    not_le.mpr h2
  unfold movedGame
  simp only [hro, if_true, hp1, hp2, if_false, and_self]

/-- The move does not end the round. -/
theorem movedGame_continue (g : Game) (now : Nat) (pn : Int) (bd : List String) :
    movedGame g now pn bd false false =
      { g with board := some bd, currentTurn := 3 - pn, lastMoveAt := some now } := by
  unfold movedGame
  simp

theorem tmod_two_eq_zero_iff (n : Int) : Int.tmod n 2 = 0 ↔ 2 ∣ n := by
  constructor
  · intro h
    exact Int.dvd_of_tmod_eq_zero h
  · intro h
    exact Int.tmod_eq_zero_of_dvd h

/-! ## C3: a won round that decides the series -/

/-- C3: in a game whose scores are both below `first_to`, an accepted move that
completes a three-in-a-row and thereby brings a score to `first_to` leaves the
game `completed`, with `winner_id` the id of the player whose score reached
`first_to` (the mover), the stored board being the final board with the winning
move on it (not reset) and `current_round` not incremented. -/
theorem makeMoveHandler_series_won (s : Store) (now : Nat) (user : User) (req : MoveReq)
    (g : Game) (bd : List String) (ro so dr : Bool) (game : Option Game) (w : Option Int)
    (hg : s.getGame req.gameID = some g)
    (hr : (makeMoveHandler s now (some user) (some req)).response =
      .success bd ro so dr game w)
    (hline : HasLine bd)
    (hopen : g.player1Score < g.firstTo ∧ g.player2Score < g.firstTo) :
    ∃ g', (makeMoveHandler s now (some user) (some req)).store.getGame req.gameID = some g' ∧
      (g'.player1Score = g.firstTo ∨ g'.player2Score = g.firstTo →
        g'.status = "completed" ∧ g'.winnerID = some user.id ∧
        (g'.player1Score = g.firstTo → g'.winnerID = some g.player1ID) ∧
        (g'.player2Score = g.firstTo → g'.winnerID = g.player2ID) ∧
        g'.board = some bd ∧
        bd[req.position.toNat]? = some (if g.currentTurn = 1 then "X" else "O") ∧
        g'.currentRound = g.currentRound) := by
  obtain ⟨pn, sym, b0, hw, h0, h8, hst, hseat, hturn, hb0, hcell, hbd, hcw, hro, hget, -, -⟩ :=
    makeMove_success_inv s now user req g bd ro so dr game w hg hr
  have hwt : hw = true := (checkWinner_some bd hw dr hcw).1.mpr hline
  subst hwt
  refine ⟨_, hget, fun hreach => ?_⟩
  have hdec : (movedGame g now pn bd true dr).player1Score ≥ g.firstTo ∨
      (movedGame g now pn bd true dr).player2Score ≥ g.firstTo := by
    rcases hreach with h | h
    · exact Or.inl (le_of_eq h.symm)
    · exact Or.inr (le_of_eq h.symm)
  obtain ⟨hstatus, hboard, hround, hwin⟩ := movedGame_decided g now pn bd true dr rfl hdec
  have hsym := (seated_seatOf g user pn sym hseat).2.2
  have hlt : req.position.toNat < b0.length := by
    by_contra hcon
    rw [List.getElem?_eq_none (not_lt.mp hcon)] at hcell
    cases hcell
  have hcellbd : bd[req.position.toNat]? = some (if g.currentTurn = 1 then "X" else "O") := by
    rw [hbd, hturn, ← hsym]
    simp [hlt]
  have hp1 := movedGame_player1Score g now pn bd true dr
  have hp2 := movedGame_player2Score g now pn bd true dr
  rcases hseat with ⟨hu, rfl, rfl⟩ | ⟨hu, hu2, rfl, rfl⟩
  · simp only [true_and, if_true] at hp1
    simp only [ne_eq, not_true_eq_false, and_false, if_false] at hp2
    have hge : (movedGame g now 1 bd true dr).player1Score ≥ g.firstTo := by
      rcases hreach with h | h
      · exact le_of_eq h.symm
      · rw [hp2] at h
        omega
    rw [if_pos hge] at hwin
    refine ⟨hstatus, by rw [hwin, hu], fun _ => hwin, fun h => ?_, hboard, hcellbd, hround⟩
    rw [hp2] at h
    omega
  · have h21 : ¬ ((2 : Int) = 1) := by decide
    simp only [h21, and_false, if_false] at hp1
    simp only [ne_eq, h21, not_false_eq_true, and_self, if_true] at hp2
    have hlt1 : ¬ (movedGame g now 2 bd true dr).player1Score ≥ g.firstTo := by
      rw [hp1]
      omega
    rw [if_neg hlt1, hu2, Option.getD_some] at hwin
    refine ⟨hstatus, hwin, fun h => ?_, fun _ => by rw [hwin, hu2], hboard, hcellbd, hround⟩
    rw [hp1] at h
    omega

/-- C3 on the scenario of the specification: with `first_to = 1`, after A:0,
B:4, A:1, B:5 the move A:2 completes the top row; the game is completed with
winner A, the final board is stored and the round is still 1. -/
theorem makeMoveHandler_series_won_witness :
    ∃ g', (makeMoveHandler (playMoves (scenarioStore 1) scenarioOpening) 5 (some userA)
        (some { gameID := 1, position := 2 })).store.getGame 1 = some g' ∧
      g'.status = "completed" ∧ g'.winnerID = some userA.id ∧
      g'.board = some ["X", "X", "X", "", "O", "O", "", "", ""] ∧ g'.currentRound = 1 := by
  obtain ⟨g', hget, himp⟩ :=
    makeMoveHandler_series_won (playMoves (scenarioStore 1) scenarioOpening) 5 userA
      { gameID := 1, position := 2 }
      { startedGame 1 userA userB "normal" 0 1 0 0 with
        board := some ["X", "X", "", "", "O", "O", "", "", ""], currentTurn := 1,
        lastMoveAt := some 4 }
      ["X", "X", "X", "", "O", "O", "", "", ""] true true false
      (some { startedGame 1 userA userB "normal" 0 1 0 0 with
        board := some ["X", "X", "X", "", "O", "O", "", "", ""], status := "completed",
        winnerID := some 101, player1Score := 1, lastMoveAt := some 5, completedAt := some 5 })
      (some 101) (by decide) (by decide)
      ⟨[0, 1, 2], by decide, "X", by decide, by decide⟩ (by decide)
  have hscore : g'.player1Score = 1 := by
    have h : ((makeMoveHandler (playMoves (scenarioStore 1) scenarioOpening) 5 (some userA)
        (some { gameID := 1, position := 2 })).store.getGame 1).map (fun x => x.player1Score) =
        some 1 := by decide
    rw [hget] at h
    exact Option.some.inj h
  obtain ⟨h1, h2, -, -, h5, -, h7⟩ := himp (Or.inl hscore)
  exact ⟨g', hget, h1, h2, h5, h7⟩

/-! ## The counters of a game stay far from the top of Go's `int` -/

theorem movedGame_currentRound (g : Game) (now : Nat) (pn : Int) (bd : List String)
    (hw dr : Bool) :
    (movedGame g now pn bd hw dr).currentRound = g.currentRound ∨
      (movedGame g now pn bd hw dr).currentRound = g.currentRound + 1 := by
  unfold movedGame
  dsimp only
  split_ifs <;> simp

/-- One request adds at most 1 to each counter of a stored game and takes
nothing away. -/
theorem makeMove_counters_step (s : Store) (now : Nat) (authUser : Option User)
    (body : Option MoveReq) (gid : Int) (g : Game) (hg : s.getGame gid = some g) :
    ∃ g', (makeMoveHandler s now authUser body).store.getGame gid = some g' ∧
      g.player1Score ≤ g'.player1Score ∧ g'.player1Score ≤ g.player1Score + 1 ∧
      g.player2Score ≤ g'.player2Score ∧ g'.player2Score ≤ g.player2Score + 1 ∧
      g.currentRound ≤ g'.currentRound ∧ g'.currentRound ≤ g.currentRound + 1 := by
  have hsame : ∃ g', s.getGame gid = some g' ∧
      g.player1Score ≤ g'.player1Score ∧ g'.player1Score ≤ g.player1Score + 1 ∧
      g.player2Score ≤ g'.player2Score ∧ g'.player2Score ≤ g.player2Score + 1 ∧
      g.currentRound ≤ g'.currentRound ∧ g'.currentRound ≤ g.currentRound + 1 :=
    ⟨g, hg, le_refl _, by omega, le_refl _, by omega, le_refl _, by omega⟩
  rcases makeMove_cases s authUser body with ⟨msg, code, h'⟩ | h' | h'
  · rw [h' now]
    exact hsame
  · rw [getGame_congr _ _ (h' now).2]
    exact hsame
  · obtain ⟨user, req, g1, pn, sym, b0, hw, dr, rfl, rfl, h0, h8, hg1, hst, hseat, hturn, hb,
      hcell, hcw⟩ := h'
    obtain ⟨-, hget, -, hother⟩ :=
      makeMove_accepted s now user req g1 pn sym b0 hw dr h0 h8 hg1 hst hseat hturn hb hcell hcw
    by_cases hid : gid = req.gameID
    swap
    · rw [hother gid hid]
      exact hsame
    subst hid
    rw [hg] at hg1
    cases hg1
    refine ⟨_, hget, ?_⟩
    have h1 := movedGame_player1Score g now pn (b0.set req.position.toNat sym) hw dr
    have h2 := movedGame_player2Score g now pn (b0.set req.position.toNat sym) hw dr
    have h3 := movedGame_currentRound g now pn (b0.set req.position.toNat sym) hw dr
    rw [h1, h2]
    refine ⟨?_, ?_, ?_, ?_, ?_, ?_⟩
    · split_ifs <;> omega
    · split_ifs <;> omega
    · split_ifs <;> omega
    · split_ifs <;> omega
    · rcases h3 with h | h <;> omega
    · rcases h3 with h | h <;> omega

/-- From a newly created game (scores 0, round 1) each counter is at most the
number of requests served, so far below `maxInt` in any run that can be
served. -/
theorem playMoves_counters_bounded (reqs : List (Nat × Option User × Option MoveReq))
    (s : Store) (gid : Int) (g : Game) (hg : s.getGame gid = some g) :
    ∃ g', (playMoves s reqs).getGame gid = some g' ∧
      g.player1Score ≤ g'.player1Score ∧ g'.player1Score ≤ g.player1Score + reqs.length ∧
      g.player2Score ≤ g'.player2Score ∧ g'.player2Score ≤ g.player2Score + reqs.length ∧
      g.currentRound ≤ g'.currentRound ∧ g'.currentRound ≤ g.currentRound + reqs.length := by
  induction reqs generalizing s g with
  | nil => exact ⟨g, hg, le_refl _, by simp, le_refl _, by simp, le_refl _, by simp⟩
  | cons r rest ih =>
    obtain ⟨now, authUser, body⟩ := r
    obtain ⟨g1, hg1, a1, a2, a3, a4, a5, a6⟩ := makeMove_counters_step s now authUser body gid g hg
    obtain ⟨g', hg', b1, b2, b3, b4, b5, b6⟩ := ih _ g1 hg1
    rw [List.length_cons]
    refine ⟨g', hg', ?_, ?_, ?_, ?_, ?_, ?_⟩ <;> omega

/-! ## C6: scores after an accepted move -/

/-- C6: after an accepted move on a game whose two scores are below `maxInt`
(so that Go's `++` does not wrap) the mover is seated as player 1 or 2; if the
board now has a three-in-a-row the mover's score has grown by exactly 1 and the
opponent's score is unchanged; otherwise (draw or round not over) both scores
are unchanged. -/
theorem makeMoveHandler_scores (s : Store) (now : Nat) (user : User) (req : MoveReq)
    (g : Game) (bd : List String) (ro so dr : Bool) (game : Option Game) (w : Option Int)
    (hg : s.getGame req.gameID = some g)
    (hr : (makeMoveHandler s now (some user) (some req)).response =
      .success bd ro so dr game w)
    (hmax : g.player1Score < maxInt ∧ g.player2Score < maxInt) :
    ∃ g', (makeMoveHandler s now (some user) (some req)).store.getGame req.gameID = some g' ∧
      (seatOf g user.id = some 1 ∨ seatOf g user.id = some 2) ∧
      (HasLine bd →
        (seatOf g user.id = some 1 →
          g'.player1Score = g.player1Score + 1 ∧ g'.player2Score = g.player2Score) ∧
        (seatOf g user.id = some 2 →
          g'.player2Score = g.player2Score + 1 ∧ g'.player1Score = g.player1Score)) ∧
      (¬ HasLine bd →
        g'.player1Score = g.player1Score ∧ g'.player2Score = g.player2Score) ∧
      g'.player1Score ≤ maxInt ∧ g'.player2Score ≤ maxInt := by
  obtain ⟨pn, sym, b0, hw, h0, h8, hst, hseat, hturn, hb0, hcell, hbd, hcw, hro, hget, -, -⟩ :=
    makeMove_success_inv s now user req g bd ro so dr game w hg hr
  have hwl := (checkWinner_some bd hw dr hcw).1
  have hp1 := movedGame_player1Score g now pn bd hw dr
  have hp2 := movedGame_player2Score g now pn bd hw dr
  obtain ⟨hso, hpn, -⟩ := seated_seatOf g user pn sym hseat
  have h21 : ¬ ((2 : Int) = 1) := by decide
  have h12 : ¬ ((1 : Int) = 2) := by decide
  refine ⟨_, hget, ?_, ?_, ?_, ?_, ?_⟩
  · rcases hpn with rfl | rfl
    · exact Or.inl hso
    · exact Or.inr hso
  · intro hl
    have hwt := hwl.mpr hl
    subst hwt
    constructor
    · intro h1
      rw [hso] at h1
      have hpn1 : pn = 1 := Option.some.inj h1
      subst hpn1
      simp only [true_and, if_true] at hp1
      simp only [ne_eq, not_true_eq_false, and_false, if_false] at hp2
      exact ⟨hp1, hp2⟩
    · intro h2
      rw [hso] at h2
      have hpn2 : pn = 2 := Option.some.inj h2
      subst hpn2
      simp only [h21, and_false, if_false] at hp1
      simp only [ne_eq, h21, not_false_eq_true, and_self, if_true] at hp2
      exact ⟨hp2, hp1⟩
  · intro hl
    have hwf : hw = false := by
      cases hw
      · rfl
      · exact absurd (hwl.mp rfl) hl
    subst hwf
    simp only [Bool.false_eq_true, false_and, if_false] at hp1 hp2
    exact ⟨hp1, hp2⟩
  · rw [hp1]
    split_ifs <;> omega
  · rw [hp2]
    split_ifs <;> omega

/-- C6 on the scenario: A's winning move A:2 is accepted, A is seated as
player 1, and the stored scores follow the rule. -/
theorem makeMoveHandler_scores_witness :
    ∃ g', (makeMoveHandler (playMoves (scenarioStore 2) scenarioOpening) 5 (some userA)
        (some { gameID := 1, position := 2 })).store.getGame 1 = some g' ∧
      g'.player1Score = 1 ∧ g'.player2Score = 0 := by
  obtain ⟨g', hget, -, hline, -⟩ :=
    makeMoveHandler_scores (playMoves (scenarioStore 2) scenarioOpening) 5 userA
      { gameID := 1, position := 2 }
      { startedGame 1 userA userB "normal" 0 2 0 0 with
        board := some ["X", "X", "", "", "O", "O", "", "", ""], currentTurn := 1,
        lastMoveAt := some 4 }
      ["X", "X", "X", "", "O", "O", "", "", ""] true false false
      (some { startedGame 1 userA userB "normal" 0 2 0 0 with
        board := some emptyBoard, currentTurn := 2, currentRound := 2,
        player1Score := 1, lastMoveAt := some 5 })
      none (by decide) (by decide) (by decide)
  exact ⟨g', hget, (hline ⟨[0, 1, 2], by decide, "X", by decide, by decide⟩).1 (by decide)⟩

/-! ## C4: a round that ends without deciding the series -/

/-- C4: take a game whose scores and round number are below `maxInt` (so that
Go's `++` and `+ 1` do not wrap).  After an accepted move that ends the round
(the board has a three-in-a-row or no empty cell) with both stored scores still
below `first_to`, the stored board is nine empty cells, `current_round` is the
old round plus 1, the status is still `active`, and `current_turn` is 2 when the
new round number is even and 1 when it is odd, whoever moved last and whoever
won the round. -/
theorem makeMoveHandler_round_restart (s : Store) (now : Nat) (user : User) (req : MoveReq)
    (g : Game) (bd : List String) (ro so dr : Bool) (game : Option Game) (w : Option Int)
    (hg : s.getGame req.gameID = some g)
    (hr : (makeMoveHandler s now (some user) (some req)).response =
      .success bd ro so dr game w)
    (hmax : g.player1Score < maxInt ∧ g.player2Score < maxInt ∧ g.currentRound < maxInt) :
    ∃ g', (makeMoveHandler s now (some user) (some req)).store.getGame req.gameID = some g' ∧
      (HasLine bd ∨ NoEmptyCell bd →
        g'.player1Score < g.firstTo → g'.player2Score < g.firstTo →
        g'.board = some ["", "", "", "", "", "", "", "", ""] ∧
        g'.currentRound = g.currentRound + 1 ∧
        g'.currentRound ≤ maxInt ∧
        g'.status = "active" ∧
        (2 ∣ g'.currentRound → g'.currentTurn = 2) ∧
        (¬ 2 ∣ g'.currentRound → g'.currentTurn = 1)) := by
  obtain ⟨pn, sym, b0, hw, h0, h8, hst, hseat, hturn, hb0, hcell, hbd, hcw, hro, hget, -, -⟩ :=
    makeMove_success_inv s now user req g bd ro so dr game w hg hr
  obtain ⟨hwl, hdl⟩ := checkWinner_some bd hw dr hcw
  refine ⟨_, hget, fun hend h1 h2 => ?_⟩
  have hover : (hw || dr) = true := by
    by_cases hl : HasLine bd
    · rw [hwl.mpr hl]
      rfl
    · rw [hdl.mpr ⟨hl, hend.resolve_left hl⟩]
      exact Bool.or_true hw
  obtain ⟨hstatus, -, hboard, hround, hturn'⟩ := movedGame_restart g now pn bd hw dr hover h1 h2
  refine ⟨hboard, hround, by rw [hround]; omega, by rw [hstatus, hst], ?_, ?_⟩
  · intro hdvd
    rw [hround] at hdvd
    rw [hturn', if_pos ((tmod_two_eq_zero_iff _).mpr hdvd)]
  · intro hdvd
    rw [hround] at hdvd
    rw [hturn', if_neg (fun h => hdvd ((tmod_two_eq_zero_iff _).mp h))]

/-- C4 on the scenario of the specification: with `first_to = 2`, A wins round 1
with A:2; the board is reset, the round becomes 2, B (seat 2) starts and the
game stays active. -/
theorem makeMoveHandler_round_restart_witness :
    ∃ g', (makeMoveHandler (playMoves (scenarioStore 2) scenarioOpening) 5 (some userA)
        (some { gameID := 1, position := 2 })).store.getGame 1 = some g' ∧
      g'.board = some ["", "", "", "", "", "", "", "", ""] ∧ g'.currentRound = 2 ∧
      g'.status = "active" ∧ g'.currentTurn = 2 := by
  obtain ⟨g', hget, himp⟩ :=
    makeMoveHandler_round_restart (playMoves (scenarioStore 2) scenarioOpening) 5 userA
      { gameID := 1, position := 2 }
      { startedGame 1 userA userB "normal" 0 2 0 0 with
        board := some ["X", "X", "", "", "O", "O", "", "", ""], currentTurn := 1,
        lastMoveAt := some 4 }
      ["X", "X", "X", "", "O", "O", "", "", ""] true false false
      (some { startedGame 1 userA userB "normal" 0 2 0 0 with
        board := some emptyBoard, currentTurn := 2, currentRound := 2,
        player1Score := 1, lastMoveAt := some 5 })
      none (by decide) (by decide) (by decide)
  have hscores : ((makeMoveHandler (playMoves (scenarioStore 2) scenarioOpening) 5 (some userA)
      (some { gameID := 1, position := 2 })).store.getGame 1).map
        (fun x => (x.player1Score, x.player2Score)) = some (1, 0) := by decide
  rw [hget] at hscores
  have hs := Option.some.inj hscores
  have hs1 : g'.player1Score = 1 := congrArg Prod.fst hs
  have hs2 : g'.player2Score = 0 := congrArg Prod.snd hs
  obtain ⟨h1, h2, -, h3, h4, -⟩ :=
    himp (Or.inl ⟨[0, 1, 2], by decide, "X", by decide, by decide⟩)
      (by rw [hs1]; decide) (by rw [hs2]; decide)
  exact ⟨g', hget, h1, h2, h3, h4 (by rw [h2]; decide)⟩

/-! ## C7: a draw never ends the series -/

/-- C7: in a game whose scores are both below `first_to`, an accepted move that
produces a draw (no three-in-a-row, no empty cell) leaves the status `active`,
leaves `winner_id` as it was (unset stays unset) and changes neither score; and
whenever an accepted move leaves the game `completed`, the board has a
three-in-a-row and a score has reached `first_to`. -/
theorem makeMoveHandler_draw_keeps_series (s : Store) (now : Nat) (user : User)
    (req : MoveReq) (g : Game) (bd : List String) (ro so dr : Bool) (game : Option Game)
    (w : Option Int)
    (hg : s.getGame req.gameID = some g)
    (hr : (makeMoveHandler s now (some user) (some req)).response =
      .success bd ro so dr game w)
    (hopen : g.player1Score < g.firstTo ∧ g.player2Score < g.firstTo) :
    ∃ g', (makeMoveHandler s now (some user) (some req)).store.getGame req.gameID = some g' ∧
      (¬ HasLine bd ∧ NoEmptyCell bd →
        g'.status = "active" ∧ g'.winnerID = g.winnerID ∧
        (g.winnerID = none → g'.winnerID = none) ∧
        g'.player1Score = g.player1Score ∧ g'.player2Score = g.player2Score) ∧
      (g'.status = "completed" →
        HasLine bd ∧ (g'.player1Score = g.firstTo ∨ g'.player2Score = g.firstTo)) := by
  obtain ⟨pn, sym, b0, hw, h0, h8, hst, hseat, hturn, hb0, hcell, hbd, hcw, hro, hget, -, -⟩ :=
    makeMove_success_inv s now user req g bd ro so dr game w hg hr
  obtain ⟨hwl, hdl⟩ := checkWinner_some bd hw dr hcw
  have hp1 := movedGame_player1Score g now pn bd hw dr
  have hp2 := movedGame_player2Score g now pn bd hw dr
  have hne : ¬ ("active" = "completed") := by decide
  refine ⟨_, hget, ?_, ?_⟩
  · intro hdraw
    have hwf : hw = false := by
      cases hw
      · rfl
      · exact absurd (hwl.mp rfl) hdraw.1
    have hdt : dr = true := hdl.mpr hdraw
    subst hwf hdt
    simp only [Bool.false_eq_true, false_and, if_false] at hp1 hp2
    obtain ⟨hstatus, hwin, -⟩ :=
      movedGame_restart g now pn bd false true rfl (by rw [hp1]; exact hopen.1)
        (by rw [hp2]; exact hopen.2)
    exact ⟨by rw [hstatus, hst], hwin, fun h => by rw [hwin, h], hp1, hp2⟩
  · intro hcomp
    cases hw with
    | false =>
      simp only [Bool.false_eq_true, false_and, if_false] at hp1 hp2
      cases dr with
      | false =>
        rw [movedGame_continue] at hcomp
        simp only [hst] at hcomp
        exact absurd hcomp hne
      | true =>
        obtain ⟨hstatus, -⟩ :=
          movedGame_restart g now pn bd false true rfl (by rw [hp1]; exact hopen.1)
            (by rw [hp2]; exact hopen.2)
        rw [hstatus, hst] at hcomp
        exact absurd hcomp hne
    | true =>
      refine ⟨hwl.mp rfl, ?_⟩
      by_cases h1 : (movedGame g now pn bd true dr).player1Score < g.firstTo
      · by_cases h2 : (movedGame g now pn bd true dr).player2Score < g.firstTo
        · obtain ⟨hstatus, -⟩ := movedGame_restart g now pn bd true dr rfl h1 h2
          rw [hstatus, hst] at hcomp
          exact absurd hcomp hne
        · right
          rw [hp2] at h2 ⊢
          split_ifs at h2 ⊢ <;> omega
      · left
        rw [hp1] at h1 ⊢
        split_ifs at h1 ⊢ <;> omega

/-- C7 on a drawn round: with `first_to = 2`, after the eight moves of
`drawOpening` A's move on cell 8 fills the board without a line; the game stays
active, no winner is set and both scores stay 0. -/
theorem makeMoveHandler_draw_keeps_series_witness :
    ∃ g', (makeMoveHandler (playMoves (scenarioStore 2) drawOpening) 9 (some userA)
        (some { gameID := 1, position := 8 })).store.getGame 1 = some g' ∧
      g'.status = "active" ∧ g'.winnerID = none ∧
      g'.player1Score = 0 ∧ g'.player2Score = 0 := by
  obtain ⟨g', hget, hdraw, -⟩ :=
    makeMoveHandler_draw_keeps_series (playMoves (scenarioStore 2) drawOpening) 9 userA
      { gameID := 1, position := 8 }
      { startedGame 1 userA userB "normal" 0 2 0 0 with
        board := some ["X", "O", "X", "X", "O", "O", "O", "X", ""], currentTurn := 1,
        lastMoveAt := some 8 }
      ["X", "O", "X", "X", "O", "O", "O", "X", "X"] true false true
      (some { startedGame 1 userA userB "normal" 0 2 0 0 with
        board := some emptyBoard, currentTurn := 2, currentRound := 2,
        lastMoveAt := some 9 })
      none (by decide) (by decide) (by decide)
  have hno : ¬ HasLine ["X", "O", "X", "X", "O", "O", "O", "X", "X"] := by
    rw [← any_comboFilled_iff]
    decide
  obtain ⟨h1, h2, -, h4, h5⟩ := hdraw ⟨hno, (boardFull_iff _).mp (by decide)⟩
  exact ⟨g', hget, h1, h2, h4, h5⟩

/-! ## C8: the board along any run of moves -/

theorem boardOK_emptyBoard : BoardOK emptyBoard := by
  constructor
  · rfl
  · intro cell hc
    simp only [emptyBoard, List.mem_cons, List.mem_singleton, List.not_mem_nil, or_false,
      or_self] at hc
    exact Or.inl hc

theorem boardOK_set (b : List String) (i : Nat) (sym : String) (hb : BoardOK b)
    (hsym : sym = "X" ∨ sym = "O") : BoardOK (b.set i sym) := by
  constructor
  · rw [List.length_set]
    exact hb.1
  · intro cell hc
    rcases List.mem_or_eq_of_mem_set hc with h | h
    · exact hb.2 cell h
    · rw [h]
      exact Or.inr hsym

theorem movedGame_board (g : Game) (now : Nat) (pn : Int) (bd : List String) (hw dr : Bool) :
    (movedGame g now pn bd hw dr).board = some bd ∨
      (movedGame g now pn bd hw dr).board = some emptyBoard := by
  unfold movedGame
  dsimp only
  split_ifs <;> simp

/-- One call of `makeMoveHandler` keeps the board of every stored game well formed. -/
theorem makeMove_preserves_boardOK (s : Store) (now : Nat) (authUser : Option User)
    (body : Option MoveReq) (gid : Int)
    (h : ∃ g b, s.getGame gid = some g ∧ g.board = some b ∧ BoardOK b) :
    ∃ g b, (makeMoveHandler s now authUser body).store.getGame gid = some g ∧
      g.board = some b ∧ BoardOK b := by
  rcases makeMove_cases s authUser body with ⟨msg, code, h'⟩ | h' | h'
  · rw [h' now]
    exact h
  · rw [getGame_congr _ _ (h' now).2]
    exact h
  · obtain ⟨user, req, g, pn, sym, b0, hw, dr, rfl, rfl, h0, h8, hg, hst, hseat, hturn, hb,
      hcell, hcw⟩ := h'
    obtain ⟨-, hget, -, hother⟩ :=
      makeMove_accepted s now user req g pn sym b0 hw dr h0 h8 hg hst hseat hturn hb hcell hcw
    by_cases hid : gid = req.gameID
    · subst hid
      obtain ⟨g1, b1, hg1, hb1, hok⟩ := h
      rw [hg] at hg1
      cases hg1
      rw [hb] at hb1
      cases hb1
      have hsym : sym = "X" ∨ sym = "O" := by
        rcases hseat with ⟨-, -, rfl⟩ | ⟨-, -, -, rfl⟩
        · exact Or.inl rfl
        · exact Or.inr rfl
      rcases movedGame_board g now pn (b0.set req.position.toNat sym) hw dr with hbd | hbd
      · exact ⟨_, _, hget, hbd, boardOK_set b0 _ sym hok hsym⟩
      · exact ⟨_, _, hget, hbd, boardOK_emptyBoard⟩
    · rw [hother gid hid]
      exact h

theorem playMoves_preserves_boardOK (reqs : List (Nat × Option User × Option MoveReq))
    (s : Store) (gid : Int)
    (h : ∃ g b, s.getGame gid = some g ∧ g.board = some b ∧ BoardOK b) :
    ∃ g b, (playMoves s reqs).getGame gid = some g ∧ g.board = some b ∧ BoardOK b := by
  induction reqs generalizing s with
  | nil => exact h
  | cons r rest ih =>
    obtain ⟨now, authUser, body⟩ := r
    exact ih _ (makeMove_preserves_boardOK s now authUser body gid h)

/-- C8: start from a database in which game `gid` has the empty 9-cell board of
a newly created game and run any sequence of requests through
`makeMoveHandler`.  The stored board of the game then has exactly 9 cells, each
"", "X" or "O".  Any move accepted next for the game goes to an empty cell and
writes only that cell, with "X" when `current_turn` was 1 and "O" when it was 2
(and it is 1 or 2); and if that move does not end the round, the new board is
stored, `current_turn` becomes the other seat (3 minus the mover's seat) and the
scores and `current_round` are unchanged. -/
theorem accepted_moves_board_invariant (s0 : Store) (gid : Int) (g0 : Game)
    (reqs : List (Nat × Option User × Option MoveReq))
    (hg0 : s0.getGame gid = some g0) (hb0 : g0.board = some emptyBoard) :
    ∃ g b, (playMoves s0 reqs).getGame gid = some g ∧ g.board = some b ∧
      b.length = 9 ∧ (∀ cell ∈ b, cell = "" ∨ cell = "X" ∨ cell = "O") ∧
      ∀ (now : Nat) (user : User) (req : MoveReq) (bd : List String) (ro so dr : Bool)
        (game : Option Game) (w : Option Int),
        req.gameID = gid →
        (makeMoveHandler (playMoves s0 reqs) now (some user) (some req)).response =
          .success bd ro so dr game w →
        b[req.position.toNat]? = some "" ∧
        ((g.currentTurn = 1 ∧ bd = b.set req.position.toNat "X") ∨
          (g.currentTurn = 2 ∧ bd = b.set req.position.toNat "O")) ∧
        seatOf g user.id = some g.currentTurn ∧
        (¬ HasLine bd → ¬ NoEmptyCell bd →
          ∃ g', (makeMoveHandler (playMoves s0 reqs) now (some user) (some req)).store.getGame
              gid = some g' ∧
            g'.board = some bd ∧ g'.currentTurn = 3 - g.currentTurn ∧
            g'.player1Score = g.player1Score ∧ g'.player2Score = g.player2Score ∧
            g'.currentRound = g.currentRound) := by
  obtain ⟨g, b, hg, hb, hok⟩ :=
    playMoves_preserves_boardOK reqs s0 gid ⟨g0, emptyBoard, hg0, hb0, boardOK_emptyBoard⟩
  refine ⟨g, b, hg, hb, hok.1, hok.2, ?_⟩
  intro now user req bd ro so dr game w hid hr
  subst hid
  obtain ⟨pn, sym, b1, hw, h0, h8, hst, hseat, hturn, hb1, hcell, hbd, hcw, hro, hget, -, -⟩ :=
    makeMove_success_inv _ now user req g bd ro so dr game w hg hr
  rw [hb] at hb1
  cases hb1
  obtain ⟨hwl, hdl⟩ := checkWinner_some bd hw dr hcw
  refine ⟨hcell, ?_, by rw [hturn]; exact (seated_seatOf g user pn sym hseat).1, ?_⟩
  · rcases hseat with ⟨-, rfl, rfl⟩ | ⟨-, -, rfl, rfl⟩
    · exact Or.inl ⟨hturn, hbd⟩
    · exact Or.inr ⟨hturn, hbd⟩
  · intro hnl hne
    have hwf : hw = false := by
      cases hw
      · rfl
      · exact absurd (hwl.mp rfl) hnl
    have hdf : dr = false := by
      cases dr
      · rfl
      · exact absurd (hdl.mp rfl).2 hne
    subst hwf hdf
    rw [movedGame_continue] at hget
    exact ⟨_, hget, rfl, by rw [hturn], rfl, rfl, rfl⟩

/-- C8 on the scenario: after A:0, B:4, A:1, B:5 the stored board of game 1 is
well formed, and A's next move on cell 3 (which does not end the round) writes
"X" into cell 3 only and hands the turn to seat 2. -/
theorem accepted_moves_board_invariant_witness :
    ∃ g b, (playMoves (scenarioStore 2) scenarioOpening).getGame 1 = some g ∧
      g.board = some b ∧ b.length = 9 ∧ (∀ cell ∈ b, cell = "" ∨ cell = "X" ∨ cell = "O") ∧
      ∃ g', (makeMoveHandler (playMoves (scenarioStore 2) scenarioOpening) 5 (some userA)
          (some { gameID := 1, position := 3 })).store.getGame 1 = some g' ∧
        g'.board = some (b.set 3 "X") ∧ g'.currentTurn = 2 := by
  obtain ⟨g, b, hg, hb, hlen, hcells, hnext⟩ :=
    accepted_moves_board_invariant (scenarioStore 2) 1
      (startedGame 1 userA userB "normal" 0 2 0 0) scenarioOpening (by decide) (by decide)
  have hgb : ((playMoves (scenarioStore 2) scenarioOpening).getGame 1).map
      (fun x => (x.board, x.currentTurn)) =
      some (some ["X", "X", "", "", "O", "O", "", "", ""], 1) := by decide
  rw [hg] at hgb
  have hpair := Option.some.inj hgb
  have hboard : g.board = some ["X", "X", "", "", "O", "O", "", "", ""] := congrArg Prod.fst hpair
  have hturn : g.currentTurn = 1 := congrArg Prod.snd hpair
  rw [hb] at hboard
  have hbeq := Option.some.inj hboard
  obtain ⟨-, hsym, -, hcont⟩ :=
    hnext 5 userA { gameID := 1, position := 3 }
      ["X", "X", "", "X", "O", "O", "", "", ""] false false false
      (some { startedGame 1 userA userB "normal" 0 2 0 0 with
        board := some ["X", "X", "", "X", "O", "O", "", "", ""], currentTurn := 2,
        lastMoveAt := some 5 })
      none rfl (by decide)
  have hno : ¬ HasLine ["X", "X", "", "X", "O", "O", "", "", ""] := by
    rw [← any_comboFilled_iff]
    decide
  have hnf : ¬ NoEmptyCell ["X", "X", "", "X", "O", "O", "", "", ""] := by
    rw [← boardFull_iff]
    decide
  obtain ⟨g', hget', hb', ht', -⟩ := hcont hno hnf
  refine ⟨g, b, hg, hb, hlen, hcells, g', hget', ?_, ?_⟩
  · rw [hb', hbeq]
    rfl
  · rw [ht', hturn]
    rfl

/-! ## Go maps -/

theorem GoMap.get_put_self {V : Type} (m : GoMap V) (k : Int) (v : V) :
    (m.put k v).get k = some v := by
  unfold GoMap.put GoMap.get
  split
  · next hany =>
    induction m with
    | nil => simp at hany
    | cons e rest ih =>
      by_cases he : e.1 = k
      · simp [List.find?, he]
      · have hrest : rest.any (fun e => decide (e.1 = k)) = true := by
          simpa [he] using hany
        simp only [List.map_cons, he, if_false, List.find?_cons, decide_False]
        exact ih hrest
  · next hany =>
    rw [List.find?_append]
    have hnone : m.find? (fun e => decide (e.1 = k)) = none := by
      rw [List.find?_eq_none]
      intro e he
      simp only [List.any_eq_true, not_exists, not_and] at hany
      exact hany e he
    simp [hnone]

/-! ## C9: a second connection for the same (game, user) pair -/

/-- The function `registerConnection` stores the connection it is given under the pair,
whatever was registered before. -/
theorem registerConnection_lookup (cm : ConnectionManager) (gameID userID : Int)
    (conn : ConnID) :
    (registerConnection cm gameID userID conn).lookup gameID userID = some conn := by
  unfold registerConnection ConnectionManager.lookup
  simp only [GoMap.get_put_self, Option.some_bind]

/-- C9, as stated, fails: `registerConnection` for an already registered pair
reports nothing and replaces the first connection (7) by the second (8). -/
theorem registerConnection_overwrites :
    hasExistingConnection (registerConnection { connections := [] } 1 101 7) 101 1 = true ∧
    (registerConnection { connections := [] } 1 101 7).lookup 1 101 = some 7 ∧
    (registerConnection (registerConnection { connections := [] } 1 101 7) 1 101 8).lookup
      1 101 = some 8 ∧
    (registerConnection (registerConnection { connections := [] } 1 101 7) 1 101 8).lookup
      1 101 ≠ (registerConnection { connections := [] } 1 101 7).lookup 1 101 := by
  decide

/-- C9, amended: the conflict is detected by `gameWebSocketHandler`, not by
`registerConnection`.  A request of a user for a game for which
`hasExistingConnection` holds is refused with an HTTP error before the upgrade
and without `registerConnection` being called, so the registry (and with it the
first connection of the pair) is unchanged, during and after the request; when
the token is present and the user is in the game the answer is
409 "Game already open in another tab".  `registerConnection` itself stores the
connection it is given under the pair. -/
theorem gameWebSocketHandler_conflict (s : Store) (cm : ConnectionManager) (r : WSRequest)
    (user : User) (gameID : Int)
    (hid : r.identity = some user) (hgid : r.gameIdVar = some gameID)
    (hreg : hasExistingConnection cm user.id gameID = true) :
    (gameWebSocketHandler s cm r).httpError.isSome = true ∧
    (gameWebSocketHandler s cm r).upgraded = false ∧
    (gameWebSocketHandler s cm r).live = cm ∧
    (gameWebSocketHandler s cm r).final = cm ∧
    (gameWebSocketHandler s cm r).final.lookup gameID user.id = cm.lookup gameID user.id ∧
    (r.token ≠ "" → isUserInGame s user.id gameID = true →
      (gameWebSocketHandler s cm r).httpError =
        some ("Game already open in another tab", 409)) ∧
    (∀ (cm' : ConnectionManager) (g u : Int) (conn : ConnID),
      (registerConnection cm' g u conn).lookup g u = some conn) := by
  have key : (gameWebSocketHandler s cm r).httpError.isSome = true ∧
      (gameWebSocketHandler s cm r).upgraded = false ∧
      (gameWebSocketHandler s cm r).live = cm ∧
      (gameWebSocketHandler s cm r).final = cm ∧
      (r.token ≠ "" → isUserInGame s user.id gameID = true →
        (gameWebSocketHandler s cm r).httpError =
          some ("Game already open in another tab", 409)) := by
    unfold gameWebSocketHandler
    by_cases htok : r.token = ""
    · simp [htok]
    · by_cases hin : isUserInGame s user.id gameID = true
      · simp [htok, hid, hgid, hin, hreg]
      · simp [htok, hid, hgid, hin]
  obtain ⟨h1, h2, h3, h4, h5⟩ := key
  exact ⟨h1, h2, h3, h4, by rw [h4], h5, registerConnection_lookup⟩

/-- C9 amended, at a concrete request: A already has connection 7 for game 1;
a second request by A for game 1 is answered 409 and connection 7 stays. -/
theorem gameWebSocketHandler_conflict_witness :
    hasExistingConnection (registerConnection { connections := [] } 1 101 7) userA.id 1 = true ∧
    (gameWebSocketHandler (scenarioStore 1) (registerConnection { connections := [] } 1 101 7)
      { token := "t", identity := some userA, gameIdVar := some 1,
        upgrade := some { id := 8, inbox := [], writeErrs := [], sent := [] } }).httpError =
      some ("Game already open in another tab", 409) ∧
    (gameWebSocketHandler (scenarioStore 1) (registerConnection { connections := [] } 1 101 7)
      { token := "t", identity := some userA, gameIdVar := some 1,
        upgrade := some { id := 8, inbox := [], writeErrs := [], sent := [] } }).final.lookup
      1 userA.id = some 7 := by
  obtain ⟨-, -, -, -, h5, h6, -⟩ :=
    gameWebSocketHandler_conflict (scenarioStore 1)
      (registerConnection { connections := [] } 1 101 7)
      { token := "t", identity := some userA, gameIdVar := some 1,
        upgrade := some { id := 8, inbox := [], writeErrs := [], sent := [] } }
      userA 1 rfl rfl (by decide)
  exact ⟨by decide, h6 (by decide) (by decide), by rw [h5]; decide⟩

/-! ## C10: the handshake -/

/-- C10: `performHandshake` succeeds exactly when the first inbound message has
type "ping", the second has type "ack", the game state can be fetched and both
writes succeed; on success the messages written are exactly `pong` followed by
one `ready` carrying the fetched game state; if the first message is not a
"ping" nothing is written; if the second is not an "ack" nothing but `pong` is
written (exactly `pong` when the first was a "ping" and its answer could be
written); and a failed handshake never writes `ready`. -/
theorem performHandshake_spec (s : Store) (conn : Conn) (gameID userID : Int) :
    ((performHandshake s conn gameID userID).1 = true ↔
      (conn.inbox[0]? = some (.frame (some "ping")) ∧
       conn.inbox[1]? = some (.frame (some "ack")) ∧
       (getFullGameState s gameID).isSome = true ∧
       conn.writeErrs[0]? ≠ some true ∧ conn.writeErrs[1]? ≠ some true)) ∧
    (∀ game, (performHandshake s conn gameID userID).1 = true →
      getFullGameState s gameID = some game →
      (performHandshake s conn gameID userID).2.sent = conn.sent ++ [pongMsg, readyMsg game]) ∧
    (conn.inbox[0]? ≠ some (.frame (some "ping")) →
      (performHandshake s conn gameID userID).1 = false ∧
      (performHandshake s conn gameID userID).2.sent = conn.sent) ∧
    (conn.inbox[1]? ≠ some (.frame (some "ack")) →
      (performHandshake s conn gameID userID).1 = false ∧
      ((performHandshake s conn gameID userID).2.sent = conn.sent ∨
        (performHandshake s conn gameID userID).2.sent = conn.sent ++ [pongMsg]) ∧
      (conn.inbox[0]? = some (.frame (some "ping")) → conn.writeErrs[0]? ≠ some true →
        (performHandshake s conn gameID userID).2.sent = conn.sent ++ [pongMsg])) ∧
    ((performHandshake s conn gameID userID).1 = false →
      (performHandshake s conn gameID userID).2.sent = conn.sent ∨
        (performHandshake s conn gameID userID).2.sent = conn.sent ++ [pongMsg]) := by
  obtain ⟨id, inbox, writeErrs, sent⟩ := conn
  unfold performHandshake Conn.readJSON Conn.writeJSON pongMsg readyMsg
  rcases inbox with _ | ⟨_ | t1, inbox⟩
  · simp
  · simp
  by_cases h1 : t1 = some "ping"
  swap
  · have h1' : ¬ t1.getD "" = "ping" := by
      cases t1 with
      | none => simp
      | some x => simpa using h1
    simp [h1, h1']
  subst h1
  rcases writeErrs with _ | ⟨_ | _, writeErrs⟩
  · rcases inbox with _ | ⟨_ | t2, inbox⟩
    · simp
    · simp
    by_cases h2 : t2 = some "ack"
    · subst h2
      cases hf : getFullGameState s gameID <;> simp [hf]
    · have h2' : ¬ t2.getD "ping" = "ack" := by
        cases t2 with
        | none => simp
        | some x => simpa using h2
      simp [h2, h2']
  · rcases inbox with _ | ⟨_ | t2, inbox⟩
    · simp
    · simp
    by_cases h2 : t2 = some "ack"
    · subst h2
      cases hf : getFullGameState s gameID with
      | none => simp [hf]
      | some game => rcases writeErrs with _ | ⟨_ | _, writeErrs⟩ <;> simp [hf]
    · have h2' : ¬ t2.getD "ping" = "ack" := by
        cases t2 with
        | none => simp
        | some x => simpa using h2
      simp [h2, h2']
  · simp

/-- C10 at a concrete exchange: the client sends "ping" then "ack" for game 1;
the handshake succeeds and the server has written `pong` and then `ready` with
the stored state of game 1. -/
theorem performHandshake_spec_witness :
    (performHandshake (scenarioStore 1)
      { id := 7, inbox := [.frame (some "ping"), .frame (some "ack")], writeErrs := [],
        sent := [] } 1 101).1 = true ∧
    (performHandshake (scenarioStore 1)
      { id := 7, inbox := [.frame (some "ping"), .frame (some "ack")], writeErrs := [],
        sent := [] } 1 101).2.sent =
      [pongMsg, readyMsg (startedGame 1 userA userB "normal" 0 1 0 0)] := by
  have h := performHandshake_spec (scenarioStore 1)
    { id := 7, inbox := [.frame (some "ping"), .frame (some "ack")], writeErrs := [],
      sent := [] } 1 101
  have hok := h.1.mpr ⟨by decide, by decide, by decide, by decide, by decide⟩
  exact ⟨hok, h.2.1 _ hok (by decide)⟩

/-! ## More on Go maps and the registry -/

theorem GoMap.get_delete_self {V : Type} (m : GoMap V) (k : Int) :
    (m.delete k).get k = none := by
  unfold GoMap.delete GoMap.get
  have h : (m.filter (fun e => !decide (e.1 = k))).find? (fun e => decide (e.1 = k)) = none := by
    rw [List.find?_eq_none]
    intro e he
    have := (List.mem_filter.mp he).2
    simpa using this
  rw [h]
  rfl

/-- After `unregisterConnection` the pair is not registered. -/
theorem unregisterConnection_lookup (cm : ConnectionManager) (gameID userID : Int) :
    (unregisterConnection cm gameID userID).lookup gameID userID = none := by
  unfold unregisterConnection ConnectionManager.lookup
  cases hget : cm.connections.get gameID with
  | none => simp [hget]
  | some gameConns =>
    simp only []
    split
    · simp [GoMap.get_delete_self]
    · simp [GoMap.get_put_self, GoMap.get_delete_self]

theorem isUserInGame_iff (s : Store) (userID gameID : Int) :
    isUserInGame s userID gameID = true ↔
      ∃ g ∈ s.games, g.id = gameID ∧ (g.player1ID = userID ∨ g.player2ID = some userID) ∧
        (g.status = "active" ∨ g.status = "waiting") := by
  unfold isUserInGame
  rw [decide_eq_true_iff, gt_iff_lt, List.length_pos_iff_exists_mem]
  constructor
  · rintro ⟨g, hg⟩
    obtain ⟨hmem, hp⟩ := List.mem_filter.mp hg
    exact ⟨g, hmem, of_decide_eq_true hp⟩
  · rintro ⟨g, hmem, hp⟩
    exact ⟨g, List.mem_filter.mpr ⟨hmem, decide_eq_true hp⟩⟩

/-- The ways `gameWebSocketHandler` can go. -/
theorem gameWebSocketHandler_cases (s : Store) (cm : ConnectionManager) (r : WSRequest) :
    ((gameWebSocketHandler s cm r).upgraded = false ∧
      (gameWebSocketHandler s cm r).live = cm ∧ (gameWebSocketHandler s cm r).final = cm ∧
      (gameWebSocketHandler s cm r).handshake = false ∧
      (gameWebSocketHandler s cm r).conn = none) ∨
    (∃ user gameID conn, r.token ≠ "" ∧ r.identity = some user ∧ r.gameIdVar = some gameID ∧
      r.upgrade = some conn ∧ isUserInGame s user.id gameID = true ∧
      hasExistingConnection cm user.id gameID = false ∧
      gameWebSocketHandler s cm r =
        { httpError := none, upgraded := true,
          live := registerConnection cm gameID user.id conn.id,
          handshake := (performHandshake s conn gameID user.id).1,
          conn := some (performHandshake s conn gameID user.id).2,
          final := unregisterConnection (registerConnection cm gameID user.id conn.id)
            gameID user.id }) := by
  unfold gameWebSocketHandler
  by_cases htok : r.token = ""
  · simp [htok]
  cases hid : r.identity with
  | none => simp [htok]
  | some user =>
  cases hgid : r.gameIdVar with
  | none => simp [htok]
  | some gameID =>
  by_cases hin : isUserInGame s user.id gameID = true
  swap
  · simp [htok, hin]
  by_cases hreg : hasExistingConnection cm user.id gameID = true
  · simp [htok, hin, hreg]
  cases hup : r.upgrade with
  | none => simp [htok, hin, hreg]
  | some conn =>
    right
    refine ⟨user, gameID, conn, htok, rfl, rfl, rfl, hin, by simpa using hreg, ?_⟩
    simp [htok, hin, hreg]

/-! ## C12: third parties -/

/-- C12: a validated user who is neither player1 nor player2 of any stored game
with id `gameID` is refused by `gameWebSocketHandler` with 403 before the
upgrade, and the registry is unchanged during and after the request; and
whenever the handler does upgrade (and register) a connection, its user is a
player of a stored game with that id. -/
theorem gameWebSocketHandler_third_party (s : Store) (cm : ConnectionManager) (r : WSRequest)
    (user : User) (gameID : Int)
    (htok : r.token ≠ "") (hid : r.identity = some user) (hgid : r.gameIdVar = some gameID)
    (hnot : ∀ g ∈ s.games, g.id = gameID →
      g.player1ID ≠ user.id ∧ g.player2ID ≠ some user.id) :
    (gameWebSocketHandler s cm r).httpError = some ("Not authorized for this game", 403) ∧
    (gameWebSocketHandler s cm r).upgraded = false ∧
    (gameWebSocketHandler s cm r).live = cm ∧
    (gameWebSocketHandler s cm r).final = cm ∧
    (∀ (s' : Store) (cm' : ConnectionManager) (r' : WSRequest),
      (gameWebSocketHandler s' cm' r').upgraded = true →
      ∃ u gid g, r'.identity = some u ∧ r'.gameIdVar = some gid ∧ g ∈ s'.games ∧ g.id = gid ∧
        (g.player1ID = u.id ∨ g.player2ID = some u.id)) := by
  have hin : ¬ isUserInGame s user.id gameID = true := by
    rw [isUserInGame_iff]
    rintro ⟨g, hmem, hgid', hp, -⟩
    obtain ⟨h1, h2⟩ := hnot g hmem hgid'
    rcases hp with hp | hp
    · exact h1 hp
    · exact h2 hp
  refine ⟨?_, ?_, ?_, ?_, ?_⟩
  · unfold gameWebSocketHandler
    simp [htok, hid, hgid, hin]
  · unfold gameWebSocketHandler
    simp [htok, hid, hgid, hin]
  · unfold gameWebSocketHandler
    simp [htok, hid, hgid, hin]
  · unfold gameWebSocketHandler
    simp [htok, hid, hgid, hin]
  · intro s' cm' r' hup
    rcases gameWebSocketHandler_cases s' cm' r' with ⟨hno, -⟩ | ⟨u, gid, conn, -, hu, hg, -, hin', -, -⟩
    · rw [hno] at hup
      cases hup
    · obtain ⟨g, hmem, hgid', hp, -⟩ := (isUserInGame_iff s' u.id gid).mp hin'
      exact ⟨u, gid, g, hu, hg, hmem, hgid', hp⟩

/-- C12 at a concrete request: C asks for the socket of game 1 (A against B)
and is answered 403; the registry, holding A's connection 7, is unchanged. -/
theorem gameWebSocketHandler_third_party_witness :
    (gameWebSocketHandler (scenarioStore 1) (registerConnection { connections := [] } 1 101 7)
      { token := "t", identity := some userC, gameIdVar := some 1,
        upgrade := some (silentConn 9) }).httpError =
      some ("Not authorized for this game", 403) ∧
    (gameWebSocketHandler (scenarioStore 1) (registerConnection { connections := [] } 1 101 7)
      { token := "t", identity := some userC, gameIdVar := some 1,
        upgrade := some (silentConn 9) }).final =
      registerConnection { connections := [] } 1 101 7 := by
  obtain ⟨h1, -, -, h4, -⟩ :=
    gameWebSocketHandler_third_party (scenarioStore 1)
      (registerConnection { connections := [] } 1 101 7)
      { token := "t", identity := some userC, gameIdVar := some 1,
        upgrade := some (silentConn 9) }
      userC 1 (by decide) rfl rfl (by decide)
  exact ⟨h1, h4⟩

/-! ## C11: when a connection is in the registry -/

theorem hasExistingConnection_eq_lookup (cm : ConnectionManager) (userID gameID : Int) :
    hasExistingConnection cm userID gameID = (cm.lookup gameID userID).isSome := by
  unfold hasExistingConnection ConnectionManager.lookup
  cases cm.connections.get gameID <;> rfl

/-- C11, as stated, fails: A's client connects to game 1 and then stays silent,
so the handshake fails; yet while the handshake was running the connection was
in the registry. -/
theorem registered_before_ready :
    (gameWebSocketHandler (scenarioStore 1) { connections := [] }
      { token := "t", identity := some userA, gameIdVar := some 1,
        upgrade := some (silentConn 7) }).handshake = false ∧
    hasExistingConnection
      (gameWebSocketHandler (scenarioStore 1) { connections := [] }
        { token := "t", identity := some userA, gameIdVar := some 1,
          upgrade := some (silentConn 7) }).live 101 1 = true ∧
    (gameWebSocketHandler (scenarioStore 1) { connections := [] }
      { token := "t", identity := some userA, gameIdVar := some 1,
        upgrade := some (silentConn 7) }).live.lookup 1 101 = some 7 := by
  decide

/-- C11, amended: `gameWebSocketHandler` enters an upgraded connection in the
registry before its handshake starts; it is registered while the handshake
runs, whatever the outcome, and the deferred `unregisterConnection` removes it
when the handler returns, so a connection whose handshake failed is not
registered once its handler has returned.  A request that is not upgraded
leaves the registry as it was. -/
theorem gameWebSocketHandler_registration (s : Store) (cm : ConnectionManager)
    (r : WSRequest) :
    ((gameWebSocketHandler s cm r).upgraded = false →
      (gameWebSocketHandler s cm r).live = cm ∧ (gameWebSocketHandler s cm r).final = cm) ∧
    ((gameWebSocketHandler s cm r).upgraded = true →
      ∃ user gameID conn, r.identity = some user ∧ r.gameIdVar = some gameID ∧
        r.upgrade = some conn ∧
        (gameWebSocketHandler s cm r).live = registerConnection cm gameID user.id conn.id ∧
        (gameWebSocketHandler s cm r).live.lookup gameID user.id = some conn.id ∧
        hasExistingConnection (gameWebSocketHandler s cm r).live user.id gameID = true ∧
        (gameWebSocketHandler s cm r).handshake = (performHandshake s conn gameID user.id).1 ∧
        (gameWebSocketHandler s cm r).final.lookup gameID user.id = none) := by
  rcases gameWebSocketHandler_cases s cm r with ⟨h1, h2, h3, -, -⟩ | ⟨u, gid, conn, -, hu, hg, hc, -, -, heq⟩
  · refine ⟨fun _ => ⟨h2, h3⟩, fun hup => ?_⟩
    rw [h1] at hup
    cases hup
  · refine ⟨fun hno => ?_, fun _ => ⟨u, gid, conn, hu, hg, hc, ?_⟩⟩
    · rw [heq] at hno
      cases hno
    · rw [heq]
      refine ⟨rfl, registerConnection_lookup _ _ _ _, ?_, rfl, unregisterConnection_lookup _ _ _⟩
      rw [hasExistingConnection_eq_lookup, registerConnection_lookup]
      rfl

/-- C11 amended, at a concrete request: A's silent client is registered for
game 1 during the failed handshake and no longer once the handler has
returned. -/
theorem gameWebSocketHandler_registration_witness :
    (gameWebSocketHandler (scenarioStore 1) { connections := [] }
      { token := "t", identity := some userA, gameIdVar := some 1,
        upgrade := some (silentConn 7) }).handshake = false ∧
    (gameWebSocketHandler (scenarioStore 1) { connections := [] }
      { token := "t", identity := some userA, gameIdVar := some 1,
        upgrade := some (silentConn 7) }).live.lookup 1 101 = some 7 ∧
    (gameWebSocketHandler (scenarioStore 1) { connections := [] }
      { token := "t", identity := some userA, gameIdVar := some 1,
        upgrade := some (silentConn 7) }).final.lookup 1 101 = none := by
  obtain ⟨u, gid, conn, hu, hg, hc, -, hlive, -, -, hfinal⟩ :=
    (gameWebSocketHandler_registration (scenarioStore 1) { connections := [] }
      { token := "t", identity := some userA, gameIdVar := some 1,
        upgrade := some (silentConn 7) }).2 (by decide)
  cases hu
  cases hg
  cases hc
  exact ⟨by decide, hlive, hfinal⟩

/-! ## C19: the start-up sweep -/

/-- C19: after `cleanupOnServerRestart` no game is `active` or `waiting`; every
game that was `active` is there as `abandoned`; every game that was `completed`,
`abandoned` or `declined` is there unchanged, and every game there is an old
game, unchanged or turned from `active` to `abandoned`; no rematch request is
`pending`, every request that was `pending` is there as `expired`, every request
that was `accepted`, `declined` or `expired` is there unchanged, and no request
row is added or removed. -/
theorem cleanupOnServerRestart_spec (s : Store) :
    (∀ g ∈ (cleanupOnServerRestart s).games, g.status ≠ "active" ∧ g.status ≠ "waiting") ∧
    (∀ g ∈ s.games, g.status = "active" →
      { g with status := "abandoned" } ∈ (cleanupOnServerRestart s).games) ∧
    (∀ g ∈ s.games, g.status = "completed" ∨ g.status = "abandoned" ∨ g.status = "declined" →
      g ∈ (cleanupOnServerRestart s).games) ∧
    (∀ g' ∈ (cleanupOnServerRestart s).games, g' ∈ s.games ∨
      ∃ g ∈ s.games, g.status = "active" ∧ g' = { g with status := "abandoned" }) ∧
    (∀ r ∈ (cleanupOnServerRestart s).rematchRequests, r.status ≠ "pending") ∧
    (∀ r ∈ s.rematchRequests, r.status = "pending" →
      { r with status := "expired" } ∈ (cleanupOnServerRestart s).rematchRequests) ∧
    (∀ r ∈ s.rematchRequests,
      r.status = "accepted" ∨ r.status = "declined" ∨ r.status = "expired" →
      r ∈ (cleanupOnServerRestart s).rematchRequests) ∧
    (cleanupOnServerRestart s).rematchRequests.length = s.rematchRequests.length := by
  have hab : ¬ ("abandoned" = "active") := by decide
  have habw : ¬ ("abandoned" = "waiting") := by decide
  have hep : ¬ ("expired" = "pending") := by decide
  simp only [cleanupOnServerRestart]
  refine ⟨?_, ?_, ?_, ?_, ?_, ?_, ?_, ?_⟩
  · intro g hg
    obtain ⟨hmem, hw⟩ := List.mem_filter.mp hg
    obtain ⟨g0, -, rfl⟩ := List.mem_map.mp hmem
    constructor
    · by_cases h : g0.status = "active"
      · simp [h]
      · simp [h]
    · simpa using hw
  · intro g hg hact
    apply List.mem_filter.mpr
    refine ⟨List.mem_map.mpr ⟨g, hg, by simp [hact]⟩, ?_⟩
    simp
  · intro g hg hst
    have hna : ¬ g.status = "active" := by
      rcases hst with h | h | h <;> rw [h] <;> decide
    have hnw : ¬ g.status = "waiting" := by
      rcases hst with h | h | h <;> rw [h] <;> decide
    apply List.mem_filter.mpr
    refine ⟨List.mem_map.mpr ⟨g, hg, by simp [hna]⟩, ?_⟩
    simpa using hnw
  · intro g' hg'
    obtain ⟨hmem, -⟩ := List.mem_filter.mp hg'
    obtain ⟨g0, hg0, rfl⟩ := List.mem_map.mp hmem
    by_cases h : g0.status = "active"
    · right
      exact ⟨g0, hg0, h, by simp [h]⟩
    · left
      simpa [h] using hg0
  · intro r hr
    obtain ⟨r0, -, rfl⟩ := List.mem_map.mp hr
    by_cases h : r0.status = "pending"
    · simp [h]
    · simp [h]
  · intro r hr hp
    exact List.mem_map.mpr ⟨r, hr, by simp [hp]⟩
  · intro r hr hst
    have hnp : ¬ r.status = "pending" := by
      rcases hst with h | h | h <;> rw [h] <;> decide
    exact List.mem_map.mpr ⟨r, hr, by simp [hnp]⟩
  · simp

/-! ## Rematch requests -/

theorem updateRematchStatus_games (s : Store) (rematchID : Int) (status : String) :
    (updateRematchStatus s rematchID status).games = s.games := rfl

theorem markUserOnline_rematchRequests (s : Store) (now : Nat) (userID : Int)
    (userName : String) (inGame : Bool) :
    (markUserOnline s now userID userName inGame).rematchRequests = s.rematchRequests := by
  unfold markUserOnline
  dsimp only
  split_ifs <;> rfl

theorem getGame_append (s : Store) (extra : List Game) (gameID : Int) (g : Game)
    (hg : s.getGame gameID = some g) :
    ({ s with games := s.games ++ extra } : Store).getGame gameID = some g := by
  unfold Store.getGame at hg ⊢
  rw [List.find?_append, hg]
  rfl

/-- The outcome of an acceptance by the named opponent of a pending request
whose game is stored with a second player. -/
theorem respondToRematch_accept (s : Store) (now : Nat) (newGameID : Int) (user : User)
    (rematchID : Int) (rm : RematchRequest) (g : Game) (p2 : Int)
    (hrm : s.rematchRequests.find? (fun (r : RematchRequest) => decide (r.id = rematchID)) =
      some rm)
    (hopp : rm.opponentID = user.id) (hpend : rm.status = "pending")
    (hg : s.getGame rm.gameID = some g) (hp2 : g.player2ID = some p2) :
    respondToRematchHandler s now newGameID (some user) rematchID (some true) =
      some { response := .responded "accepted",
             store := updateRematchStatus
               (markUserOnline
                 (markUserOnline
                   { s with games := s.games ++
                       [insertedGame newGameID g.player1ID g.player1Name p2 g.player2Name
                         g.mode "active" g.moveTimeLimit g.firstTo now] }
                   now g.player1ID g.player1Name true)
                 now p2 g.player2Name true)
               rematchID "accepted" } := by
  unfold respondToRematchHandler
  simp [hrm, hopp, hpend, hg, hp2]

/-- C17: when the named opponent accepts a pending rematch request (of a stored
game with a second player), `respondToRematchHandler` appends exactly one game
row, with the new id, the players, mode, move time limit and first-to of the
prior game, status `active`, turn 1, both scores 0, round 1, the empty board and
no winner; the prior game row is unchanged and the request is now `accepted`
(no other request changes).  When the responder is not the named opponent or
the request is not pending, the request is turned down and nothing changes. -/
theorem respondToRematchHandler_spec (s : Store) (now : Nat) (newGameID : Int) (user : User)
    (rematchID : Int) (accept : Bool) (rm : RematchRequest)
    (hrm : s.rematchRequests.find? (fun (r : RematchRequest) => decide (r.id = rematchID)) =
      some rm) :
    ((rm.opponentID ≠ user.id ∨ rm.status ≠ "pending") →
      ∃ m c, respondToRematchHandler s now newGameID (some user) rematchID (some accept) =
        some { response := .error m c, store := s }) ∧
    (rm.opponentID = user.id → rm.status = "pending" →
      ∀ g p2, s.getGame rm.gameID = some g → g.player2ID = some p2 →
      ∃ res newGame,
        respondToRematchHandler s now newGameID (some user) rematchID (some true) = some res ∧
        res.response = .responded "accepted" ∧
        res.store.games = s.games ++ [newGame] ∧
        newGame.id = newGameID ∧
        newGame.player1ID = g.player1ID ∧ newGame.player2ID = g.player2ID ∧
        newGame.mode = g.mode ∧ newGame.moveTimeLimit = g.moveTimeLimit ∧
        newGame.firstTo = g.firstTo ∧
        newGame.status = "active" ∧ newGame.currentTurn = 1 ∧
        newGame.player1Score = 0 ∧ newGame.player2Score = 0 ∧ newGame.currentRound = 1 ∧
        newGame.board = some ["", "", "", "", "", "", "", "", ""] ∧ newGame.winnerID = none ∧
        res.store.getGame rm.gameID = some g ∧
        res.store.rematchRequests = s.rematchRequests.map (fun (r : RematchRequest) =>
          if r.id = rematchID then { r with status := "accepted" } else r) ∧
        { rm with status := "accepted" } ∈ res.store.rematchRequests) := by
  constructor
  · intro h
    unfold respondToRematchHandler
    by_cases hopp : rm.opponentID = user.id
    · have hpend : ¬ rm.status = "pending" := h.resolve_left (fun hh => hh hopp)
      exact ⟨"Rematch already responded to", 400, by simp [hrm, hopp, hpend]⟩
    · exact ⟨"Not your rematch request", 403, by simp [hrm, hopp]⟩
  · intro hopp hpend g p2 hg hp2
    have heq := respondToRematch_accept s now newGameID user rematchID rm g p2 hrm hopp hpend
      hg hp2
    have hmem : rm ∈ s.rematchRequests := List.mem_of_find?_eq_some hrm
    have hid : rm.id = rematchID := by
      have := List.find?_some hrm
      exact of_decide_eq_true this
    refine ⟨_, insertedGame newGameID g.player1ID g.player1Name p2 g.player2Name g.mode
      "active" g.moveTimeLimit g.firstTo now, heq, rfl, ?_, rfl, rfl, hp2.symm, rfl, rfl, rfl,
      rfl, rfl, rfl, rfl, rfl, rfl, rfl, ?_, ?_, ?_⟩
    · simp only [updateRematchStatus_games, markUserOnline_games]
    · rw [getGame_congr _ _ (updateRematchStatus_games _ _ _), getGame_markUserOnline,
        getGame_markUserOnline]
      exact getGame_append s _ rm.gameID g hg
    · unfold updateRematchStatus
      simp only [markUserOnline_rematchRequests]
    · unfold updateRematchStatus
      simp only [markUserOnline_rematchRequests]
      exact List.mem_map.mpr ⟨rm, hmem, by simp [hid]⟩

/-- C17 on the scenario: B accepts A's pending request for a rematch of game 1;
game 2 is appended as an active game between A and B with `first_to` 1, game 1
stays as it was and the request is `accepted`. -/
theorem respondToRematchHandler_spec_witness :
    ∃ res newGame,
      respondToRematchHandler rematchAskedStore 30 2 (some userB) 1 (some true) = some res ∧
      res.store.games = rematchAskedStore.games ++ [newGame] ∧
      newGame.id = 2 ∧ newGame.player1ID = 101 ∧ newGame.player2ID = some 102 ∧
      newGame.firstTo = 1 ∧ newGame.status = "active" ∧
      res.store.getGame 1 = rematchAskedStore.getGame 1 ∧
      { requestByA with status := "accepted" } ∈ res.store.rematchRequests := by
  have hg : rematchAskedStore.getGame requestByA.gameID =
      some { startedGame 1 userA userB "normal" 0 1 0 0 with
        board := some ["X", "X", "X", "", "O", "O", "", "", ""], status := "completed",
        winnerID := some 101, player1Score := 1, lastMoveAt := some 5,
        completedAt := some 5 } := by decide
  obtain ⟨res, newGame, h1, -, h3, h4, h5, h6, -, -, h9, h10, -, -, -, -, -, -, h17, -, h19⟩ :=
    (respondToRematchHandler_spec rematchAskedStore 30 2 userB 1 true requestByA
      (by decide)).2 (by decide) (by decide) _ 102 hg (by decide)
  exact ⟨res, newGame, h1, h3, h4, h5, h6, h9, h10, h17.trans hg.symm, h19⟩

/-! ## C16: requests past their expiry -/

/-- C16 at the failing input: A's request for game 1 was created at time 10 and
expired at time 90.  At time 1000 `getRematchHandler` sweeps it and returns no
request, but without that sweep `respondToRematchHandler` still lets B accept it
(a new game is created) and `createRematchHandler` still turns B's own request
down as "already pending". -/
theorem expired_request_still_pending :
    requestByA ∈ rematchAskedStore.rematchRequests ∧
    requestByA.expiresAt = some 90 ∧
    (getRematchHandler rematchAskedStore 1000 (some userB) 1).response = .rematch none ∧
    (respondToRematchHandler rematchAskedStore 1000 2 (some userB) 1 (some true)).map
      (fun res => (res.response, res.store.games.length)) =
      some (.responded "accepted", rematchAskedStore.games.length + 1) ∧
    (createRematchHandler rematchAskedStore 1000 2 (some userB) (some 1)).response =
      .error "Rematch request already pending" 400 := by
  decide

/-! ## C15: how many open requests a game can have -/

/-- C18 at the failing input: game 1 (A against B) is completed, A has a
pending rematch request for it and meanwhile a waiting challenge against C
(game 2); each user is in at most one waiting or active game.  A further
challenge by A is turned down by `createChallengeHandler` because A is already
in a game, but when B accepts the rematch `respondToRematchHandler` inserts the
active game 3 without such a check, and A is then a player of the two live
games 2 and 3. -/
theorem rematch_breaks_one_live_game :
    OneLiveGamePerUser rematchAndChallengeStore ∧
    (createChallengeHandler rematchAndChallengeStore 14 3 (some userA)
      (some { opponentID := 102, mode := "normal", moveTimeLimit := 0, firstTo := 1 })).response =
      .error "One of the players is already in a game" 400 ∧
    (respondToRematchHandler rematchAndChallengeStore 14 3 (some userB) 1 (some true)).map
      (fun res => (res.response,
        (liveGamesOf res.store 101).map (fun g => (g.id, g.status)))) =
      some (.responded "accepted", [(2, "waiting"), (3, "active")]) ∧
    ¬ (∀ res, respondToRematchHandler rematchAndChallengeStore 14 3 (some userB) 1 (some true) =
        some res → OneLiveGamePerUser res.store) := by
  refine ⟨?_, by decide, by decide, ?_⟩
  · intro u
    have h : rematchAndChallengeStore.games.map (fun g => g.status) =
        ["completed", "waiting"] := by decide
    unfold liveGamesOf
    cases hl : rematchAndChallengeStore.games with
    | nil => simp
    | cons g1 rest =>
      cases rest with
      | nil => simp [List.filter]; split <;> simp
      | cons g2 rest2 =>
        rw [hl] at h
        simp only [List.map_cons, List.cons.injEq] at h
        obtain ⟨h1, h2, h3⟩ := h
        have hrest : rest2 = [] := List.map_eq_nil_iff.mp h3
        subst hrest
        have hc1 : ¬ ("completed" = "waiting") := by decide
        have hc2 : ¬ ("completed" = "active") := by decide
        simp only [List.filter, h1, hc1, hc2, or_self, and_false, decide_False]
        split <;> simp
  · intro hall
    cases hres : respondToRematchHandler rematchAndChallengeStore 14 3 (some userB) 1 (some true) with
    | none =>
      have : (respondToRematchHandler rematchAndChallengeStore 14 3 (some userB) 1
          (some true)).isSome = true := by decide
      rw [hres] at this
      cases this
    | some res =>
      have hlen : ((respondToRematchHandler rematchAndChallengeStore 14 3 (some userB) 1
          (some true)).map (fun r => (liveGamesOf r.store 101).length)) = some 2 := by decide
      rw [hres] at hlen
      have h2 : (liveGamesOf res.store 101).length = 2 := Option.some.inj hlen
      have := hall res hres 101
      omega

/-- The check of `createChallengeHandler` keeps the invariant: a challenge that
is created leaves each user in at most one waiting or active game. -/
theorem createChallengeHandler_preserves (s : Store) (now : Nat) (newID : Int)
    (authUser : Option User) (body : Option ChallengeSettings)
    (h : OneLiveGamePerUser s) :
    OneLiveGamePerUser (createChallengeHandler s now newID authUser body).store := by
  unfold createChallengeHandler
  cases authUser with
  | none => exact h
  | some user =>
  cases body with
  | none => exact h
  | some settings =>
  simp only
  split
  · exact h
  · split
    · exact h
    · next opponent _ =>
      split
      · exact h
      · next hcount =>
        intro u
        have hnone : ∀ g ∈ s.games,
            ¬ ((g.player1ID = user.id ∨ g.player2ID = some user.id ∨
                g.player1ID = settings.opponentID ∨ g.player2ID = some settings.opponentID) ∧
              (g.status = "waiting" ∨ g.status = "active")) := by
          intro g hg hp
          apply hcount
          exact List.length_pos_of_mem (List.mem_filter.mpr ⟨hg, decide_eq_true hp⟩)
        unfold liveGamesOf
        simp only [List.filter_append, List.length_append]
        by_cases hu : u = user.id ∨ u = settings.opponentID
        · have hempty : s.games.filter (fun (g : Game) =>
              decide ((g.player1ID = u ∨ g.player2ID = some u) ∧
                (g.status = "waiting" ∨ g.status = "active"))) = [] := by
            rw [List.filter_eq_nil_iff]
            intro g hg hp
            have hp' := of_decide_eq_true hp
            apply hnone g hg
            refine ⟨?_, hp'.2⟩
            rcases hu with hu | hu <;> rcases hp'.1 with h1 | h1
            · exact Or.inl (hu ▸ h1)
            · exact Or.inr (Or.inl (hu ▸ h1))
            · exact Or.inr (Or.inr (Or.inl (hu ▸ h1)))
            · exact Or.inr (Or.inr (Or.inr (hu ▸ h1)))
          rw [hempty]
          simp only [List.length_nil, zero_add]
          exact List.length_filter_le _ _
        · have hnew : [insertedGame newID user.id user.name settings.opponentID
              opponent.userName settings.mode "waiting" settings.moveTimeLimit
              settings.firstTo now].filter (fun (g : Game) =>
              decide ((g.player1ID = u ∨ g.player2ID = some u) ∧
                (g.status = "waiting" ∨ g.status = "active"))) = [] := by
            rw [List.filter_eq_nil_iff]
            intro g hg hp
            rw [List.mem_singleton] at hg
            subst hg
            have hp' := (of_decide_eq_true hp).1
            apply hu
            rcases hp' with h1 | h1
            · exact Or.inl h1.symm
            · exact Or.inr (Option.some.inj h1).symm
          rw [hnew]
          exact h u

theorem filter_map_length_le (l : List Game) (f : Game → Game) (p : Game → Bool)
    (h : ∀ g ∈ l, p (f g) = true → p g = true) :
    ((l.map f).filter p).length ≤ (l.filter p).length := by
  induction l with
  | nil => simp
  | cons a rest ih =>
    have ih' := ih (fun g hg => h g (List.mem_cons_of_mem _ hg))
    have ha := h a (List.mem_cons_self _ _)
    simp only [List.map_cons, List.filter_cons]
    by_cases hfa : p (f a) = true
    · simp only [hfa, ha hfa, if_true, List.length_cons]
      omega
    · simp only [hfa, Bool.false_eq_true, if_false]
      split
      · simp only [List.length_cons]
        omega
      · exact ih'

theorem liveGamesOf_update_le (s t : Store) (gameID : Int) (f : Game → Game) (game : Game)
    (ht : t.games = s.games.map (fun g => if g.id = gameID then f g else g))
    (hnd : (s.games.map (fun g => g.id)).Nodup)
    (hg : s.getGame gameID = some game) (hlive : game.status = "waiting")
    (hf1 : (f game).player1ID = game.player1ID) (hf2 : (f game).player2ID = game.player2ID)
    (u : Int) :
    (liveGamesOf t u).length ≤ (liveGamesOf s u).length := by
  unfold liveGamesOf
  rw [ht]
  apply filter_map_length_le
  intro g hmem hp
  by_cases hid : g.id = gameID
  · have hgame : g = game := by
      have hg' : s.games.find? (fun g => decide (g.id = gameID)) = some game := hg
      have hmem' : game ∈ s.games := List.mem_of_find?_eq_some hg'
      have hsome := List.find?_some hg'
      have hid' : game.id = gameID := of_decide_eq_true hsome
      exact List.inj_on_of_nodup_map hnd hmem hmem' (hid.trans hid'.symm)
    subst hgame
    simp only [hid, if_true] at hp
    have hp' := of_decide_eq_true hp
    rw [hf1, hf2] at hp'
    exact decide_eq_true ⟨hp'.1, Or.inl hlive⟩
  · simpa only [hid, if_false] using hp

/-- Answering a challenge keeps the invariant (game ids being unique): the game
only goes from `waiting` to `active` or `declined`. -/
theorem respondToChallengeHandler_preserves (s : Store) (now : Nat) (authUser : Option User)
    (gameID : Int) (body : Option Bool)
    (hnd : (s.games.map (fun g => g.id)).Nodup)
    (h : OneLiveGamePerUser s) :
    OneLiveGamePerUser (respondToChallengeHandler s now authUser gameID body).store := by
  cases authUser with
  | none => exact h
  | some user =>
  cases body with
  | none => exact h
  | some accept =>
  cases hg : s.getGame gameID with
  | none =>
    simp only [respondToChallengeHandler, hg]
    exact h
  | some game =>
  cases hp2 : game.player2ID with
  | none =>
    simp only [respondToChallengeHandler, hg, hp2]
    exact h
  | some p2 =>
  by_cases hu : p2 = user.id
  swap
  · simp only [respondToChallengeHandler, hg, hp2, ne_eq, hu, not_false_eq_true, if_true]
    exact h
  by_cases hwait : game.status = "waiting"
  swap
  · simp only [respondToChallengeHandler, hg, hp2, ne_eq, hu, not_true_eq_false, if_false,
      hwait, not_false_eq_true, if_true]
    exact h
  cases accept with
  | true =>
    simp only [respondToChallengeHandler, hg, hp2, ne_eq, hu, not_true_eq_false, if_false,
      hwait, if_true]
    intro u
    refine le_trans (liveGamesOf_update_le s _ gameID
      (fun g => { g with status := "active", lastMoveAt := some now }) game ?_ hnd hg hwait
      rfl rfl u) (h u)
    simp only [Store.updateGame, markUserOnline_games]
  | false =>
    simp only [respondToChallengeHandler, hg, hp2, ne_eq, hu, not_true_eq_false, if_false,
      hwait, Bool.false_eq_true]
    intro u
    refine le_trans (liveGamesOf_update_le s _ gameID
      (fun g => { g with status := "declined", lastMoveAt := some now }) game ?_ hnd hg
      hwait rfl rfl u) (h u)
    simp only [Store.updateGame]

/-! ## C13: a second lobby connection of the same user -/

/-- C13, as stated, fails: `registerLobbyConnection` for a user who already has
a lobby connection (socket 7, timer 0) stores the new socket 8 but neither
closes socket 7 nor stops timer 0. -/
theorem registerLobby_keeps_prior_timer :
    getLobbyConnection lobbyWithA 101 =
      some { conn := 7, timer := 0, userID := 101, connected := 0 } ∧
    (getLobbyConnection (registerLobbyConnection lobbyWithA 5 101 8) 101).map
      (fun lc => lc.conn) = some 8 ∧
    7 ∉ (registerLobbyConnection lobbyWithA 5 101 8).closed ∧
    { id := 0, userID := 101, fireAt := 30 } ∈
      (registerLobbyConnection lobbyWithA 5 101 8).timers := by
  decide

theorem GoMap.put_delete {V : Type} (m : GoMap V) (k : Int) (v : V) :
    (m.delete k).put k v = m.delete k ++ [(k, v)] := by
  have hany : (m.delete k).any (fun e => decide (e.1 = k)) = false := by
    rw [List.any_eq_false]
    intro e he
    have := (List.mem_filter.mp he).2
    simpa using this
  unfold GoMap.put
  rw [hany]
  rfl

theorem GoMap.entries_put_delete {V : Type} (m : GoMap V) (k : Int) (v : V) :
    ((m.delete k).put k v).filter (fun e => decide (e.1 = k)) = [(k, v)] := by
  rw [GoMap.put_delete, List.filter_append]
  have hnil : (m.delete k).filter (fun e => decide (e.1 = k)) = [] := by
    rw [List.filter_eq_nil_iff]
    intro e he
    have := (List.mem_filter.mp he).2
    simpa using this
  rw [hnil]
  simp

/-- What `registerLobbyConnection` does: the entry of the user is the new
socket with a fresh timer, that timer is armed for 30 seconds from now, and no
socket is closed and no timer stopped. -/
theorem registerLobbyConnection_spec (lm : LobbyConnectionManager) (now : Nat) (userID : Int)
    (conn : ConnID) :
    getLobbyConnection (registerLobbyConnection lm now userID conn) userID =
      some { conn := conn, timer := lm.nextTimer, userID := userID, connected := now } ∧
    (registerLobbyConnection lm now userID conn).timers =
      lm.timers ++ [{ id := lm.nextTimer, userID := userID, fireAt := now + 30 }] ∧
    (registerLobbyConnection lm now userID conn).closed = lm.closed := by
  refine ⟨?_, rfl, rfl⟩
  unfold getLobbyConnection registerLobbyConnection
  exact GoMap.get_put_self _ _ _

/-- C13, amended: it is `lobbyWebSocketHandler` that replaces a prior lobby
connection.  When the user already has one, the handler closes its socket and
unregisters it, which stops its timer, before upgrading; the connection it then
registers gets a new timer armed for 30 seconds, and the registry holds exactly
one entry for the user, the new socket.  (Timer identities are handed out in
increasing order, so the prior timer is none of the armed ones.)
`registerLobbyConnection` itself only stores the new entry and arms the new
timer. -/
theorem lobbyWebSocketHandler_replaces (lm : LobbyConnectionManager) (now : Nat)
    (r : LobbyRequest) (user : User) (old : LobbyConnection) (conn : Conn)
    (htok : r.token ≠ "") (hid : r.identity = some user) (hup : r.upgrade = some conn)
    (hold : getLobbyConnection lm user.id = some old) :
    old.conn ∈ (lobbyWebSocketHandler lm now r).live.closed ∧
    (lobbyWebSocketHandler lm now r).live.timers =
      lm.timers.filter (fun (t : LobbyTimer) => !decide (t.id = old.timer)) ++
        [{ id := lm.nextTimer, userID := user.id, fireAt := now + 30 }] ∧
    (old.timer < lm.nextTimer →
      ∀ t ∈ (lobbyWebSocketHandler lm now r).live.timers, t.id ≠ old.timer) ∧
    getLobbyConnection (lobbyWebSocketHandler lm now r).live user.id =
      some { conn := conn.id, timer := lm.nextTimer, userID := user.id, connected := now } ∧
    (lobbyWebSocketHandler lm now r).live.connections.filter
        (fun e => decide (e.1 = user.id)) =
      [(user.id, { conn := conn.id, timer := lm.nextTimer, userID := user.id,
                   connected := now })] ∧
    (∀ (lm' : LobbyConnectionManager) (n : Nat) (u : Int) (c : ConnID),
      (registerLobbyConnection lm' n u c).timers =
        lm'.timers ++ [{ id := lm'.nextTimer, userID := u, fireAt := n + 30 }] ∧
      (registerLobbyConnection lm' n u c).closed = lm'.closed) := by
  have hget : lm.connections.get user.id = some old := hold
  have hlive : (lobbyWebSocketHandler lm now r).live =
      registerLobbyConnection
        { connections := lm.connections.delete user.id,
          timers := lm.timers.filter (fun (t : LobbyTimer) => !decide (t.id = old.timer)),
          closed := lm.closed ++ [old.conn],
          nextTimer := lm.nextTimer } now user.id conn.id := by
    unfold lobbyWebSocketHandler
    simp only [htok, if_false, hid, hup, hold]
    unfold unregisterLobbyConnection
    simp only [hget]
  rw [hlive]
  refine ⟨?_, rfl, ?_, ?_, ?_, fun lm' n u c => ⟨rfl, rfl⟩⟩
  · simp [registerLobbyConnection]
  · intro hlt t ht
    simp only [registerLobbyConnection, List.mem_append, List.mem_filter, List.mem_singleton]
      at ht
    rcases ht with ⟨-, hne⟩ | rfl
    · simpa using hne
    · exact Nat.ne_of_gt hlt
  · exact (registerLobbyConnection_spec _ now user.id conn.id).1
  · simp only [registerLobbyConnection]
    exact GoMap.entries_put_delete _ _ _

/-- C13 amended, at a concrete request: A, connected with socket 7 and timer 0,
connects again at time 5 with socket 8; socket 7 is closed, timer 0 is no longer
armed, timer 1 is armed until time 35 and A's only entry is socket 8. -/
theorem lobbyWebSocketHandler_replaces_witness :
    (lobbyWebSocketHandler lobbyWithA 5
      { token := "t", identity := some userA, upgrade := some (silentConn 8) }).live =
      { connections := [(101, { conn := 8, timer := 1, userID := 101, connected := 5 })],
        timers := [{ id := 1, userID := 101, fireAt := 35 }],
        closed := [7], nextTimer := 2 } ∧
    7 ∈ (lobbyWebSocketHandler lobbyWithA 5
      { token := "t", identity := some userA, upgrade := some (silentConn 8) }).live.closed ∧
    ∀ t ∈ (lobbyWebSocketHandler lobbyWithA 5
      { token := "t", identity := some userA, upgrade := some (silentConn 8) }).live.timers,
      t.id ≠ 0 := by
  obtain ⟨h1, -, h3, -⟩ :=
    lobbyWebSocketHandler_replaces lobbyWithA 5
      { token := "t", identity := some userA, upgrade := some (silentConn 8) }
      userA { conn := 7, timer := 0, userID := 101, connected := 0 } (silentConn 8)
      (by decide) rfl rfl (by decide)
  exact ⟨by decide, h1, h3 (by decide)⟩

/-- Run sequentially, with nothing served between its read and its writes,
`makeMoveHandlerAt` is `makeMoveHandler`. -/
theorem makeMoveHandlerAt_self (s : Store) (now : Nat) (authUser : Option User)
    (body : Option MoveReq) :
    makeMoveHandlerAt s s now authUser body = makeMoveHandler s now authUser body := rfl

/-! ## `makeMoveHandler` between its read and its write -/

theorem writtenGame_self (g : Game) (now : Nat) (pn : Int) (board : List String)
    (hw dr : Bool) : writtenGame g g now pn board hw dr = movedGame g now pn board hw dr :=
  rfl

theorem writtenGame_board (g stored : Game) (now : Nat) (pn : Int) (board : List String)
    (hw dr : Bool) :
    (writtenGame g stored now pn board hw dr).board = (movedGame g now pn board hw dr).board := by
  unfold writtenGame movedGame
  dsimp only
  split_ifs <;> rfl

/-- Every call of `makeMoveHandlerAt` either is turned down with `sendError`
and writes nothing, or panics, or passes every validation on the state read. -/
theorem makeMoveAt_cases (read : Store) (authUser : Option User) (body : Option MoveReq) :
    (∃ msg code, ∀ w n, makeMoveHandlerAt read w n authUser body =
        { response := .error msg code, store := w, broadcast := none }) ∨
    (∀ w n, (makeMoveHandlerAt read w n authUser body).response = .panic) ∨
    (∃ user req g pn sym b0 hw dr, authUser = some user ∧ body = some req ∧
        0 ≤ req.position ∧ req.position ≤ 8 ∧ read.getGame req.gameID = some g ∧
        g.status = "active" ∧ Seated g user pn sym ∧ g.currentTurn = pn ∧
        g.board = some b0 ∧ b0[req.position.toNat]? = some "" ∧
        checkWinner (b0.set req.position.toNat sym) = some (hw, dr)) := by
  cases authUser with
  | none => exact Or.inl ⟨_, _, fun _ _ => rfl⟩
  | some user =>
  cases body with
  | none => exact Or.inl ⟨_, _, fun _ _ => rfl⟩
  | some req =>
  by_cases hpos : req.position < 0 ∨ req.position > 8
  · exact Or.inl ⟨"Invalid position", 400, fun w n => by
      simp only [makeMoveHandlerAt, hpos, if_true]⟩
  have h0 : 0 ≤ req.position := by omega
  have h8 : req.position ≤ 8 := by omega
  cases hg : read.getGame req.gameID with
  | none => exact Or.inl ⟨"Game not found", 404, fun w n => by
      simp only [makeMoveHandlerAt, hpos, if_false, hg]⟩
  | some g =>
  by_cases hst : g.status = "active"
  swap
  · exact Or.inl ⟨"Game is not active", 400, fun w n => by
      simp only [makeMoveHandlerAt, hpos, if_false, hg, hst, ne_eq, not_false_eq_true,
        if_true]⟩
  have hseat : (∃ pn sym, Seated g user pn sym) ∨
      (user.id ≠ g.player1ID ∧ g.player2ID ≠ some user.id) := by
    by_cases h1 : user.id = g.player1ID
    · exact Or.inl ⟨1, "X", Or.inl ⟨h1, rfl, rfl⟩⟩
    · by_cases h2 : g.player2ID = some user.id
      · exact Or.inl ⟨2, "O", Or.inr ⟨h1, h2, rfl, rfl⟩⟩
      · exact Or.inr ⟨h1, h2⟩
  rcases hseat with ⟨pn, sym, hseat⟩ | ⟨h1, h2⟩
  swap
  · exact Or.inl ⟨"You are not in this game", 403, fun w n => by
      simp only [makeMoveHandlerAt, hpos, if_false, hg, hst, ne_eq, not_true_eq_false, h1,
        h2]⟩
  have hseat' := hseat
  by_cases hturn : g.currentTurn = pn
  swap
  · refine Or.inl ⟨"Not your turn", 400, fun w n => ?_⟩
    rcases hseat with ⟨h1, rfl, rfl⟩ | ⟨h1, h2, rfl, rfl⟩
    · simp only [makeMoveHandlerAt, hpos, if_false, hg, hst, ne_eq, not_true_eq_false, h1,
        if_true, hturn, not_false_eq_true]
    · simp only [makeMoveHandlerAt, hpos, if_false, hg, hst, ne_eq, not_true_eq_false, h1, h2,
        if_true, hturn, not_false_eq_true]
  cases hb : g.board with
  | none =>
    refine Or.inl ⟨"Invalid board state", 500, fun w n => ?_⟩
    rcases hseat with ⟨h1, rfl, rfl⟩ | ⟨h1, h2, rfl, rfl⟩
    · simp only [makeMoveHandlerAt, hpos, if_false, hg, hst, ne_eq, not_true_eq_false, h1,
        if_true, hturn, hb]
    · simp only [makeMoveHandlerAt, hpos, if_false, hg, hst, ne_eq, not_true_eq_false, h1, h2,
        if_true, hturn, hb]
  | some b0 =>
  cases hcell : b0[req.position.toNat]? with
  | none =>
    refine Or.inr (Or.inl fun w n => ?_)
    rcases hseat with ⟨h1, rfl, rfl⟩ | ⟨h1, h2, rfl, rfl⟩
    · simp only [makeMoveHandlerAt, hpos, if_false, hg, hst, ne_eq, not_true_eq_false, h1,
        if_true, hturn, hb, hcell]
    · simp only [makeMoveHandlerAt, hpos, if_false, hg, hst, ne_eq, not_true_eq_false, h1, h2,
        if_true, hturn, hb, hcell]
  | some cell =>
  by_cases hne : cell = ""
  swap
  · refine Or.inl ⟨"Position already taken", 400, fun w n => ?_⟩
    rcases hseat with ⟨h1, rfl, rfl⟩ | ⟨h1, h2, rfl, rfl⟩
    · simp only [makeMoveHandlerAt, hpos, if_false, hg, hst, ne_eq, not_true_eq_false, h1,
        if_true, hturn, hb, hcell, hne, not_false_eq_true]
    · simp only [makeMoveHandlerAt, hpos, if_false, hg, hst, ne_eq, not_true_eq_false, h1, h2,
        if_true, hturn, hb, hcell, hne, not_false_eq_true]
  subst hne
  cases hcw : checkWinner (b0.set req.position.toNat sym) with
  | none =>
    refine Or.inr (Or.inl fun w n => ?_)
    rcases hseat with ⟨h1, rfl, rfl⟩ | ⟨h1, h2, rfl, rfl⟩
    · simp only [makeMoveHandlerAt, hpos, if_false, hg, hst, ne_eq, not_true_eq_false, h1,
        if_true, hturn, hb, hcell, hcw]
    · simp only [makeMoveHandlerAt, hpos, if_false, hg, hst, ne_eq, not_true_eq_false, h1, h2,
        if_true, hturn, hb, hcell, hcw]
  | some res =>
    obtain ⟨hw, dr⟩ := res
    exact Or.inr (Or.inr ⟨user, req, g, pn, sym, b0, hw, dr, rfl, rfl, h0, h8, hg, hst, hseat',
      hturn, hb, hcell, hcw⟩)

/-- The outcome of a request that passes every validation on the state it read,
whatever is stored at the time of its writes. -/
theorem makeMoveAt_accepted (read write : Store) (now : Nat) (user : User) (req : MoveReq)
    (g : Game) (pn : Int) (sym : String) (b0 : List String) (hw dr : Bool)
    (h0 : 0 ≤ req.position) (h8 : req.position ≤ 8) (hg : read.getGame req.gameID = some g)
    (hst : g.status = "active") (hseat : Seated g user pn sym) (hturn : g.currentTurn = pn)
    (hb : g.board = some b0) (hcell : b0[req.position.toNat]? = some "")
    (hcw : checkWinner (b0.set req.position.toNat sym) = some (hw, dr)) :
    (∃ so w, (makeMoveHandlerAt read write now (some user) (some req)).response =
        .success (b0.set req.position.toNat sym) (hw || dr) so dr
          ((makeMoveHandlerAt read write now (some user) (some req)).store.getGame req.gameID)
          w ∧
        (makeMoveHandler read now (some user) (some req)).response =
        .success (b0.set req.position.toNat sym) (hw || dr) so dr
          ((makeMoveHandler read now (some user) (some req)).store.getGame req.gameID) w) ∧
    (∀ g', write.getGame req.gameID = some g' →
      (makeMoveHandlerAt read write now (some user) (some req)).store.getGame req.gameID =
        some (writtenGame g g' now pn (b0.set req.position.toNat sym) hw dr)) ∧
    (makeMoveHandlerAt read write now (some user) (some req)).store.moves =
        write.moves ++ [{ gameID := req.gameID, playerID := user.id, position := req.position,
                          symbol := sym, createdAt := now }] := by
  have hpos : ¬ (req.position < 0 ∨ req.position > 8) := by omega
  have h21 : ¬ ((2 : Int) = 1) := by decide
  unfold makeMoveHandlerAt makeMoveHandler
  by_cases hp1 :
      (if hw = true ∧ pn = 1 then g.player1Score + 1 else g.player1Score) ≥ g.firstTo <;>
  by_cases hp2 :
      (if hw = true ∧ pn ≠ 1 then g.player2Score + 1 else g.player2Score) ≥ g.firstTo <;>
  rcases hseat with ⟨h1, rfl, rfl⟩ | ⟨h1, h2, rfl, rfl⟩ <;>
  cases hw <;> cases dr <;> cases hp2ID : g.player2ID <;>
  (try (rw [hp2ID] at h2)) <;>
  first
  | (exact absurd h2 (Option.some_ne_none _).symm)
  | (try (cases h2)
     simp only [hpos, if_false, hg, hst, ne_eq, not_true_eq_false, h1, if_true, hturn, hb,
      hcell, hcw, hp2ID, h21, Bool.or_self, Bool.or_true, Bool.true_or, Bool.or_false,
      Bool.false_eq_true, false_and, true_and, and_true, and_false, not_false_eq_true,
      Option.some.injEq] at hp1 hp2 ⊢
     try simp only [hp1, hp2, if_true, if_false]
     refine ⟨⟨_, _, rfl, rfl⟩, ?_, ?_⟩
     · intro g' hg'
       try simp only [getGame_markUserOnline, getGame_updatePlayerStats]
       rw [getGame_updateGame _ _ _ (by intro _; rfl), getGame_insertMove, hg']
       simp [writtenGame, hp1, hp2, hp2ID]
     · simp only [markUserOnline_moves, updatePlayerStats_moves, moves_updateGame]
       rfl)

/-- C20: the write of `makeMoveHandler` is not conditional on the state that was
read.  Two requests of A for game 1, cell 0 and cell 1, both read the game as
just started.  The first is served completely: the stored board has X on cell 0
and it is B's turn.  The second, validated against the state it read, is
accepted as well, and its `UPDATE` overwrites the stored board with the board
it computed: X on cell 1 only, the first move is gone from the board, and the
`moves` table holds two consecutive moves of A. -/
theorem stale_move_overwrites :
    (afterFirstMove.getGame 1).map (fun g => (g.board, g.currentTurn)) =
      some (some ["X", "", "", "", "", "", "", "", ""], 2) ∧
    staleMove.response.isSuccess = true ∧
    (staleMove.store.getGame 1).map (fun g => (g.board, g.currentTurn)) =
      some (some ["", "X", "", "", "", "", "", "", ""], 2) ∧
    staleMove.store.moves.map (fun m => (m.playerID, m.position)) = [(101, 0), (101, 1)] := by
  decide

/-- C20, amended: the write is unconditional.  Whether a request is accepted,
and everything of its response but the re-fetched game, is decided by the state
it read alone, whatever is stored when it writes; a request turned down writes
nothing; an accepted one issues `UPDATE games ... WHERE id = ?` with the values
it computed from the state it read, so the row stored afterwards is the row
stored at that time with the columns of the `SET` list overwritten, exactly the
values a run without anything in between would store.  With nothing served
between read and write the handler is `makeMoveHandler`. -/
theorem makeMoveHandlerAt_unconditional (read write : Store) (now : Nat)
    (authUser : Option User) (body : Option MoveReq) :
    makeMoveHandlerAt read read now authUser body = makeMoveHandler read now authUser body ∧
    (makeMoveHandlerAt read write now authUser body).response.verdict =
      (makeMoveHandler read now authUser body).response.verdict ∧
    (∀ msg code, (makeMoveHandlerAt read write now authUser body).response = .error msg code →
      (makeMoveHandlerAt read write now authUser body).store = write) ∧
    (∀ req g', body = some req →
      (makeMoveHandlerAt read write now authUser body).response.isSuccess = true →
      write.getGame req.gameID = some g' →
      ∃ user g pn sym b0 hw dr, authUser = some user ∧ read.getGame req.gameID = some g ∧
        Seated g user pn sym ∧ g.board = some b0 ∧
        checkWinner (b0.set req.position.toNat sym) = some (hw, dr) ∧
        (makeMoveHandlerAt read write now authUser body).store.getGame req.gameID =
          some (writtenGame g g' now pn (b0.set req.position.toNat sym) hw dr) ∧
        (makeMoveHandler read now authUser body).store.getGame req.gameID =
          some (writtenGame g g now pn (b0.set req.position.toNat sym) hw dr)) := by
  refine ⟨rfl, ?_⟩
  rcases makeMoveAt_cases read authUser body with
    ⟨msg, code, h⟩ | h |
    ⟨user, req, g, pn, sym, b0, hw, dr, rfl, rfl, h0, h8, hg, hst, hseat, hturn, hb, hcell, hcw⟩
  · refine ⟨?_, ?_, ?_⟩
    · rw [← makeMoveHandlerAt_self, h write now, h read now]
    · intro _ _ _
      rw [h write now]
    · intro req g' _ hs _
      rw [h write now] at hs
      cases hs
  · refine ⟨?_, ?_, ?_⟩
    · rw [← makeMoveHandlerAt_self, h write now, h read now]
    · intro _ _ he
      rw [h write now] at he
      cases he
    · intro req g' _ hs _
      rw [h write now] at hs
      cases hs
  · obtain ⟨⟨so, w, hr, hr0⟩, hstore, -⟩ :=
      makeMoveAt_accepted read write now user req g pn sym b0 hw dr h0 h8 hg hst hseat hturn
        hb hcell hcw
    obtain ⟨-, hstore0, -⟩ :=
      makeMoveAt_accepted read read now user req g pn sym b0 hw dr h0 h8 hg hst hseat hturn
        hb hcell hcw
    refine ⟨?_, ?_, ?_⟩
    · rw [hr, hr0]
      rfl
    · intro _ _ he
      rw [hr] at he
      cases he
    · intro req' g' hreq _ hg'
      cases hreq
      exact ⟨user, g, pn, sym, b0, hw, dr, rfl, hg, hseat, hb, hcw, hstore g' hg',
        hstore0 g hg⟩

/-- C20 amended, at the two requests of A: the stale request for cell 1 gets the
verdict it would get on the state it read, and the row it leaves is the row
stored by the first move with the board, the turn and the time overwritten. -/
theorem makeMoveHandlerAt_unconditional_witness :
    staleMove.response.verdict =
      (makeMoveHandler (scenarioStore 2) 2 (some userA)
        (some { gameID := 1, position := 1 })).response.verdict ∧
    ∃ user g pn sym b0 hw dr, some userA = some user ∧
      (scenarioStore 2).getGame 1 = some g ∧ Seated g user pn sym ∧ g.board = some b0 ∧
      checkWinner (b0.set 1 sym) = some (hw, dr) ∧
      staleMove.store.getGame 1 =
        some (writtenGame g
          { startedGame 1 userA userB "normal" 0 2 0 0 with
            board := some ["X", "", "", "", "", "", "", "", ""], currentTurn := 2,
            lastMoveAt := some 1 } 2 pn (b0.set 1 sym) hw dr) ∧
      (makeMoveHandler (scenarioStore 2) 2 (some userA)
        (some { gameID := 1, position := 1 })).store.getGame 1 =
        some (writtenGame g g 2 pn (b0.set 1 sym) hw dr) :=
  ⟨(makeMoveHandlerAt_unconditional (scenarioStore 2) afterFirstMove 2 (some userA)
      (some { gameID := 1, position := 1 })).2.1,
   (makeMoveHandlerAt_unconditional (scenarioStore 2) afterFirstMove 2 (some userA)
      (some { gameID := 1, position := 1 })).2.2.2 { gameID := 1, position := 1 } _ rfl
      (by decide) (by decide)⟩


/-- C19 at a concrete database: one completed game, one waiting challenge and
one pending rematch request; after the sweep no game is active or waiting and no
request is pending. -/
theorem cleanupOnServerRestart_spec_witness :
    (∀ g ∈ (cleanupOnServerRestart rematchAndChallengeStore).games,
      g.status ≠ "active" ∧ g.status ≠ "waiting") ∧
    (∀ r ∈ (cleanupOnServerRestart rematchAndChallengeStore).rematchRequests,
      r.status ≠ "pending") :=
  ⟨(cleanupOnServerRestart_spec rematchAndChallengeStore).1,
   (cleanupOnServerRestart_spec rematchAndChallengeStore).2.2.2.2.1⟩

/-! ## C21: statistics after a move -/

/-! ### Lemmas on the `player_stats` table -/

theorem markUserOnline_playerStats (s : Store) (now : Nat) (userID : Int) (userName : String)
    (inGame : Bool) :
    (markUserOnline s now userID userName inGame).playerStats = s.playerStats := by
  unfold markUserOnline
  dsimp only
  split_ifs <;> rfl

theorem updatePlayerStats_congr (s s' : Store) (now : Nat) (userID : Int) (userName : String)
    (won lost draw : Bool) (h : s.playerStats = s'.playerStats) :
    (updatePlayerStats s now userID userName won lost draw).playerStats =
      (updatePlayerStats s' now userID userName won lost draw).playerStats := by
  unfold updatePlayerStats
  simp only [h]

theorem find_stats_map (ps : List PlayerStats) (u : Int) (f : PlayerStats → PlayerStats)
    (hf : ∀ x, (f x).userID = x.userID) :
    (ps.map (fun p => if p.userID = u then f p else p)).find?
        (fun (p : PlayerStats) => decide (p.userID = u)) =
      (ps.find? (fun (p : PlayerStats) => decide (p.userID = u))).map f := by
  induction ps with
  | nil => rfl
  | cons x rest ih =>
    by_cases hx : x.userID = u
    · have hfx : (f x).userID = u := by rw [hf, hx]
      simp [List.find?, hx, hfx]
    · simp [List.find?, hx, ih]

theorem find_stats_map_other (ps : List PlayerStats) (u v : Int)
    (f : PlayerStats → PlayerStats) (hf : ∀ x, (f x).userID = x.userID) (hne : v ≠ u) :
    (ps.map (fun p => if p.userID = u then f p else p)).find?
        (fun (p : PlayerStats) => decide (p.userID = v)) =
      ps.find? (fun (p : PlayerStats) => decide (p.userID = v)) := by
  induction ps with
  | nil => rfl
  | cons x rest ih =>
    rw [List.map_cons, List.find?_cons, List.find?_cons, ih]
    by_cases hx : x.userID = u
    · have hxv : ¬ x.userID = v := by rw [hx]; exact fun h => hne h.symm
      have hfx : ¬ (f x).userID = v := by rw [hf]; exact hxv
      have huv : ¬ u = v := fun h => hne h.symm
      simp [hx, hfx, huv]
    · simp only [hx, if_false]

/-- The row of the user after `updatePlayerStats`: the stored row, or a new row
with zero counters, with the name replaced by the one passed and the counters
increased. -/
theorem statsOf_updatePlayerStats (s : Store) (now : Nat) (u : Int) (name : String)
    (won lost draw : Bool) :
    statsOf (updatePlayerStats s now u name won lost draw) u =
      some
        (match statsOf s u with
         | some p =>
           { p with userName := name, gamesPlayed := p.gamesPlayed + 1,
                    gamesWon := p.gamesWon + (if won then 1 else 0),
                    gamesLost := p.gamesLost + (if lost then 1 else 0),
                    gamesDraw := p.gamesDraw + (if draw then 1 else 0), updatedAt := now }
         | none =>
           { userID := u, userName := name, gamesPlayed := 0 + 1,
             gamesWon := 0 + (if won then 1 else 0), gamesLost := 0 + (if lost then 1 else 0),
             gamesDraw := 0 + (if draw then 1 else 0), updatedAt := now }) := by
  unfold statsOf updatePlayerStats
  dsimp only
  cases hfind : s.playerStats.find? (fun (p : PlayerStats) => decide (p.userID = u)) with
  | some p =>
    have hany : s.playerStats.any (fun p => decide (p.userID = u)) = true := by
      rw [List.any_eq_true]
      have hsome := List.find?_some hfind
      exact ⟨p, List.mem_of_find?_eq_some hfind, hsome⟩
    rw [if_pos hany, find_stats_map _ _ _ (by intro _; rfl),
      find_stats_map _ _ _ (by intro _; rfl), hfind]
    rfl
  | none =>
    have hany : ¬ s.playerStats.any (fun p => decide (p.userID = u)) = true := by
      rw [List.any_eq_true]
      rintro ⟨p, hp, hpu⟩
      exact List.find?_eq_none.mp hfind p hp hpu
    rw [if_neg hany, find_stats_map _ _ _ (by intro _; rfl), List.find?_append, hfind]
    simp

theorem statsOf_updatePlayerStats_other (s : Store) (now : Nat) (u v : Int) (name : String)
    (won lost draw : Bool) (hne : v ≠ u) :
    statsOf (updatePlayerStats s now u name won lost draw) v = statsOf s v := by
  unfold statsOf updatePlayerStats
  dsimp only
  rw [find_stats_map_other _ _ _ _ (by intro _; rfl) hne]
  split_ifs
  · rw [find_stats_map_other _ _ _ _ (by intro _; rfl) hne]
  · rw [List.find?_append]
    have hvu : ¬ u = v := fun h => hne h.symm
    simp [hvu]

theorem countersOf_updatePlayerStats (s : Store) (now : Nat) (u : Int) (name : String)
    (won lost draw : Bool) :
    countersOf (updatePlayerStats s now u name won lost draw) u =
      ((countersOf s u).1 + 1, (countersOf s u).2.1 + (if won then 1 else 0),
       (countersOf s u).2.2.1 + (if lost then 1 else 0),
       (countersOf s u).2.2.2 + (if draw then 1 else 0)) := by
  unfold countersOf
  rw [statsOf_updatePlayerStats]
  cases statsOf s u <;> rfl

theorem countersOf_updatePlayerStats_other (s : Store) (now : Nat) (u v : Int) (name : String)
    (won lost draw : Bool) (hne : v ≠ u) :
    countersOf (updatePlayerStats s now u name won lost draw) v = countersOf s v := by
  unfold countersOf
  rw [statsOf_updatePlayerStats_other s now u v name won lost draw hne]

/-- The statistics after a request that passes every validation: untouched
unless the move decides the series, and then `updatePlayerStats` has run once
for the winner and once for the other player (when the game has a second
player). -/
theorem makeMove_accepted_stats (s : Store) (now : Nat) (user : User) (req : MoveReq) (g : Game)
    (pn : Int) (sym : String) (b0 : List String) (hw dr : Bool)
    (h0 : 0 ≤ req.position) (h8 : req.position ≤ 8) (hg : s.getGame req.gameID = some g)
    (hst : g.status = "active") (hseat : Seated g user pn sym) (hturn : g.currentTurn = pn)
    (hb : g.board = some b0) (hcell : b0[req.position.toNat]? = some "")
    (hcw : checkWinner (b0.set req.position.toNat sym) = some (hw, dr)) :
    ((∃ game, (makeMoveHandler s now (some user) (some req)).response =
        .success (b0.set req.position.toNat sym) (hw || dr) false dr game none) ∧
      (makeMoveHandler s now (some user) (some req)).store.playerStats = s.playerStats) ∨
    (∃ game fwid, (makeMoveHandler s now (some user) (some req)).response =
        .success (b0.set req.position.toNat sym) (hw || dr) true dr game (some fwid) ∧
      (fwid = g.player1ID ∨ fwid = g.player2ID.getD 0) ∧
      (∀ p2, g.player2ID = some p2 →
        (makeMoveHandler s now (some user) (some req)).store.playerStats =
          (updatePlayerStats (updatePlayerStats s now fwid "" true false false) now
            (if fwid = g.player1ID then p2 else g.player1ID) "" false true false).playerStats)) := by
  have hpos : ¬ (req.position < 0 ∨ req.position > 8) := by omega
  have h21 : ¬ ((2 : Int) = 1) := by decide
  unfold makeMoveHandler
  by_cases hp1 :
      (if hw = true ∧ pn = 1 then g.player1Score + 1 else g.player1Score) ≥ g.firstTo <;>
  by_cases hp2 :
      (if hw = true ∧ pn ≠ 1 then g.player2Score + 1 else g.player2Score) ≥ g.firstTo <;>
  rcases hseat with ⟨h1, rfl, rfl⟩ | ⟨h1, h2, rfl, rfl⟩ <;>
  cases hw <;> cases dr <;> cases hp2ID : g.player2ID <;>
  (try (rw [hp2ID] at h2)) <;>
  first
  | (exact absurd h2 (Option.some_ne_none _).symm)
  | (try (cases h2)
     simp only [hpos, if_false, hg, hst, ne_eq, not_true_eq_false, h1, if_true, hturn, hb,
      hcell, hcw, hp2ID, h21, Bool.or_self, Bool.or_true, Bool.true_or, Bool.or_false,
      Bool.false_eq_true, false_and, true_and, and_true, and_false, not_false_eq_true,
      Option.some.injEq] at hp1 hp2 ⊢
     try simp only [hp1, hp2, if_true, if_false]
     first
     | exact Or.inl ⟨⟨_, rfl⟩, rfl⟩
     | (refine Or.inr ⟨_, _, rfl, ?_, ?_⟩
        · first
          | exact Or.inl rfl
          | exact Or.inr rfl
        · intro p2 hp
          cases hp <;>
          (simp only [markUserOnline_playerStats, eq_self_iff_true, if_true]
           exact updatePlayerStats_congr _ _ _ _ _ _ _ _
             (updatePlayerStats_congr _ _ _ _ _ _ _ _ rfl))))

theorem statsOf_congr (s t : Store) (h : t.playerStats = s.playerStats) (u : Int) :
    statsOf t u = statsOf s u := by
  unfold statsOf
  rw [h]

theorem countersOf_congr (s t : Store) (h : t.playerStats = s.playerStats) (u : Int) :
    countersOf t u = countersOf s u := by
  unfold countersOf
  rw [statsOf_congr s t h]

/-- A call of `makeMoveHandler` that panics leaves the statistics alone. -/
theorem makeMove_unaccepted_stats (s : Store) (now : Nat) (authUser : Option User)
    (body : Option MoveReq)
    (h : (makeMoveHandler s now authUser body).response.isSuccess = false) :
    (makeMoveHandler s now authUser body).store.playerStats = s.playerStats := by
  rcases makeMoveAt_cases s authUser body with ⟨msg, code, he⟩ | hp |
    ⟨user, req, g, pn, sym, b0, hw, dr, rfl, rfl, h0, h8, hg, hst, hseat, hturn, hb, hcell, hcw⟩
  · rw [← makeMoveHandlerAt_self, he s now]
  · cases authUser with
    | none => rfl
    | some user =>
    cases body with
    | none => rfl
    | some req =>
    by_cases hpos : req.position < 0 ∨ req.position > 8
    · rw [makeMove_invalidPosition s now user req hpos]
    have h0 : 0 ≤ req.position := by omega
    have h8 : req.position ≤ 8 := by omega
    cases hg : s.getGame req.gameID with
    | none => rw [makeMove_notFound s now user req h0 h8 hg]
    | some g =>
    by_cases hst : g.status = "active"
    swap
    · rw [makeMove_notActive s now user req g h0 h8 hg hst]
    by_cases h1 : user.id = g.player1ID
    · have hseat : Seated g user 1 "X" := Or.inl ⟨h1, rfl, rfl⟩
      by_cases hturn : g.currentTurn = 1
      swap
      · rw [makeMove_notYourTurn s now user req g 1 "X" h0 h8 hg hst hseat hturn]
      cases hb : g.board with
      | none => rw [makeMove_invalidBoard s now user req g 1 "X" h0 h8 hg hst hseat hturn hb]
      | some b0 =>
      cases hcell : b0[req.position.toNat]? with
      | none =>
        rw [makeMove_indexPanic s now user req g 1 "X" b0 h0 h8 hg hst hseat hturn hb hcell]
      | some cell =>
      by_cases hne : cell = ""
      swap
      · rw [makeMove_positionTaken s now user req g 1 "X" b0 cell h0 h8 hg hst hseat hturn hb
          hcell hne]
      subst hne
      cases hcw : checkWinner (b0.set req.position.toNat "X") with
      | none =>
        rw [makeMove_checkPanic s now user req g 1 "X" b0 h0 h8 hg hst hseat hturn hb hcell hcw]
        rfl
      | some res =>
        obtain ⟨⟨so, w, hr⟩, -⟩ := makeMove_accepted s now user req g 1 "X" b0 res.1 res.2 h0 h8
          hg hst hseat hturn hb hcell hcw
        rw [hr] at h
        cases h
    · by_cases h2 : g.player2ID = some user.id
      swap
      · rw [makeMove_notInGame s now user req g h0 h8 hg hst h1 h2]
      have hseat : Seated g user 2 "O" := Or.inr ⟨h1, h2, rfl, rfl⟩
      by_cases hturn : g.currentTurn = 2
      swap
      · rw [makeMove_notYourTurn s now user req g 2 "O" h0 h8 hg hst hseat hturn]
      cases hb : g.board with
      | none => rw [makeMove_invalidBoard s now user req g 2 "O" h0 h8 hg hst hseat hturn hb]
      | some b0 =>
      cases hcell : b0[req.position.toNat]? with
      | none =>
        rw [makeMove_indexPanic s now user req g 2 "O" b0 h0 h8 hg hst hseat hturn hb hcell]
      | some cell =>
      by_cases hne : cell = ""
      swap
      · rw [makeMove_positionTaken s now user req g 2 "O" b0 cell h0 h8 hg hst hseat hturn hb
          hcell hne]
      subst hne
      cases hcw : checkWinner (b0.set req.position.toNat "O") with
      | none =>
        rw [makeMove_checkPanic s now user req g 2 "O" b0 h0 h8 hg hst hseat hturn hb hcell hcw]
        rfl
      | some res =>
        obtain ⟨⟨so, w, hr⟩, -⟩ := makeMove_accepted s now user req g 2 "O" b0 res.1 res.2 h0 h8
          hg hst hseat hturn hb hcell hcw
        rw [hr] at h
        cases h
  · obtain ⟨⟨so, w, hr⟩, -⟩ := makeMove_accepted s now user req g pn sym b0 hw dr h0 h8
      hg hst hseat hturn hb hcell hcw
    rw [hr] at h
    cases h

/-- C21: a move that decides a series runs `updatePlayerStats` once for the
winner and once for the other player.  For a game between two different users
the winner's `games_played` and `games_won` grow by exactly 1, the loser's
`games_played` and `games_lost` grow by exactly 1, `games_draw` stays as it was
for both (a user without a row counts as all zero) and the row of every other
user is untouched.  A call that is rejected, that panics, or whose accepted
move does not decide the series leaves the `player_stats` table as it was. -/
theorem makeMoveHandler_stats (s : Store) (now : Nat) (authUser : Option User)
    (body : Option MoveReq) :
    ((∀ bd ro dr game w, (makeMoveHandler s now authUser body).response ≠
        .success bd ro true dr game w) →
      (makeMoveHandler s now authUser body).store.playerStats = s.playerStats) ∧
    (∀ bd ro dr game w req g p2, body = some req →
      (makeMoveHandler s now authUser body).response = .success bd ro true dr game w →
      s.getGame req.gameID = some g → g.player2ID = some p2 → p2 ≠ g.player1ID →
      ∃ winner loser, w = some winner ∧
        ((winner = g.player1ID ∧ loser = p2) ∨ (winner = p2 ∧ loser = g.player1ID)) ∧
        countersOf (makeMoveHandler s now authUser body).store winner =
          ((countersOf s winner).1 + 1, (countersOf s winner).2.1 + 1,
           (countersOf s winner).2.2.1, (countersOf s winner).2.2.2) ∧
        countersOf (makeMoveHandler s now authUser body).store loser =
          ((countersOf s loser).1 + 1, (countersOf s loser).2.1,
           (countersOf s loser).2.2.1 + 1, (countersOf s loser).2.2.2) ∧
        ∀ u, u ≠ winner → u ≠ loser →
          statsOf (makeMoveHandler s now authUser body).store u = statsOf s u) := by
  constructor
  · intro hno
    by_cases hs : (makeMoveHandler s now authUser body).response.isSuccess = true
    · rcases makeMove_cases s authUser body with ⟨msg, code, he⟩ | hp |
        ⟨user, req, g, pn, sym, b0, hw, dr, rfl, rfl, h0, h8, hg, hst, hseat, hturn, hb, hcell,
          hcw⟩
      · rw [he now] at hs
        cases hs
      · rw [(hp now).1] at hs
        cases hs
      · rcases makeMove_accepted_stats s now user req g pn sym b0 hw dr h0 h8 hg hst hseat hturn
          hb hcell hcw with ⟨-, hstats⟩ | ⟨game, fwid, hr, -, -⟩
        · exact hstats
        · exact absurd hr (hno _ _ _ _ _)
    · exact makeMove_unaccepted_stats s now authUser body (by simpa using hs)
  · intro bd ro dr game w req g p2 hbody hr hg hp2 hne
    subst hbody
    rcases makeMove_cases s authUser (some req) with ⟨msg, code, he⟩ | hp |
      ⟨user, req', g', pn, sym, b0, hw, dr', rfl, hreq, h0, h8, hg', hst, hseat, hturn, hb, hcell,
        hcw⟩
    · rw [he now] at hr
      cases hr
    · rw [(hp now).1] at hr
      cases hr
    · cases hreq
      rw [hg] at hg'
      cases hg'
      rcases makeMove_accepted_stats s now user req g pn sym b0 hw dr' h0 h8 hg hst hseat hturn
        hb hcell hcw with ⟨⟨game', hr'⟩, -⟩ | ⟨game', fwid, hr', hfw, hstats⟩
      · rw [hr'] at hr
        cases hr
      · rw [hr'] at hr
        injection hr with e1 e2 e3 e4 e5 e6
        subst e6
        have hps := hstats p2 hp2
        rw [hp2] at hfw
        have hcases : (fwid = g.player1ID ∧
            (if fwid = g.player1ID then p2 else g.player1ID) = p2) ∨
            (fwid = p2 ∧ (if fwid = g.player1ID then p2 else g.player1ID) = g.player1ID) := by
          rcases hfw with h | h
          · exact Or.inl ⟨h, by rw [if_pos h]⟩
          · have h' : fwid = p2 := h
            exact Or.inr ⟨h', by rw [if_neg (by rw [h']; exact hne)]⟩
        have hwl : fwid ≠ (if fwid = g.player1ID then p2 else g.player1ID) := by
          rcases hcases with ⟨ha, hb'⟩ | ⟨ha, hb'⟩
          · rw [hb', ha]
            exact fun h => hne h.symm
          · rw [hb', ha]
            exact hne
        refine ⟨fwid, (if fwid = g.player1ID then p2 else g.player1ID), rfl, hcases, ?_, ?_, ?_⟩
        · rw [countersOf_congr _ _ hps,
            countersOf_updatePlayerStats_other _ _ _ _ _ _ _ _ hwl,
            countersOf_updatePlayerStats]
          simp
        · rw [countersOf_congr _ _ hps, countersOf_updatePlayerStats,
            countersOf_updatePlayerStats_other _ _ _ _ _ _ _ _ hwl.symm]
          simp
        · intro u hu1 hu2
          rw [statsOf_congr _ _ hps, statsOf_updatePlayerStats_other _ _ _ _ _ _ _ _ hu2,
            statsOf_updatePlayerStats_other _ _ _ _ _ _ _ _ hu1]

/-- C21 on the scenario with first_to = 1: A's move on cell 2 after A:0, B:4,
A:1, B:5 wins the series; A goes from (3, 2, 1, 0) to (4, 3, 1, 0), B from
(3, 1, 2, 0) to (4, 1, 3, 0), and C's row is untouched. -/
theorem makeMoveHandler_stats_witness :
    countersOf (makeMoveHandler (playMoves (scenarioWithStats 1) scenarioOpening) 5
        (some userA) (some { gameID := 1, position := 2 })).store 101 = (4, 3, 1, 0) ∧
    countersOf (makeMoveHandler (playMoves (scenarioWithStats 1) scenarioOpening) 5
        (some userA) (some { gameID := 1, position := 2 })).store 102 = (4, 1, 3, 0) ∧
    statsOf (makeMoveHandler (playMoves (scenarioWithStats 1) scenarioOpening) 5
        (some userA) (some { gameID := 1, position := 2 })).store 103 =
      statsOf (playMoves (scenarioWithStats 1) scenarioOpening) 103 := by
  obtain ⟨winner, loser, hw, hwl, h1, h2, h3⟩ :=
    (makeMoveHandler_stats (playMoves (scenarioWithStats 1) scenarioOpening) 5 (some userA)
      (some { gameID := 1, position := 2 })).2
      ["X", "X", "X", "", "O", "O", "", "", ""] true false
      ((makeMoveHandler (playMoves (scenarioWithStats 1) scenarioOpening) 5 (some userA)
        (some { gameID := 1, position := 2 })).store.getGame 1)
      (some 101) { gameID := 1, position := 2 }
      { startedGame 1 userA userB "normal" 0 1 0 0 with
        board := some ["X", "X", "", "", "O", "O", "", "", ""], currentTurn := 1,
        lastMoveAt := some 4 }
      102 rfl (by decide) (by decide) rfl (by decide)
  have hwin : winner = 101 := (Option.some.inj hw).symm
  subst hwin
  have hlose : loser = 102 := by
    rcases hwl with ⟨-, h⟩ | ⟨h, -⟩
    · exact h
    · exact absurd h (by decide)
  subst hlose
  exact ⟨h1, h2, h3 103 (by decide) (by decide)⟩

/-! ## C29: the name in the statistics row -/

/-- The `player_stats` table after any call of `makeMoveHandler`: as it was, or
after two calls of `updatePlayerStats` with the empty name. -/
theorem makeMove_playerStats_cases (s : Store) (now : Nat) (authUser : Option User)
    (body : Option MoveReq) :
    (makeMoveHandler s now authUser body).store.playerStats = s.playerStats ∨
    ∃ u v, (makeMoveHandler s now authUser body).store.playerStats =
      (updatePlayerStats (updatePlayerStats s now u "" true false false) now v ""
        false true false).playerStats := by
  rcases makeMove_cases s authUser body with ⟨msg, code, he⟩ | hp |
    ⟨user, req, g, pn, sym, b0, hw, dr, rfl, rfl, h0, h8, hg, hst, hseat, hturn, hb, hcell, hcw⟩
  · rw [he now]
    exact Or.inl rfl
  · exact Or.inl (makeMove_unaccepted_stats s now authUser body (by rw [(hp now).1]; rfl))
  · have hpos : ¬ (req.position < 0 ∨ req.position > 8) := by omega
    have h21 : ¬ ((2 : Int) = 1) := by decide
    unfold makeMoveHandler
    by_cases hp1 :
        (if hw = true ∧ pn = 1 then g.player1Score + 1 else g.player1Score) ≥ g.firstTo <;>
    by_cases hp2 :
        (if hw = true ∧ pn ≠ 1 then g.player2Score + 1 else g.player2Score) ≥ g.firstTo <;>
    rcases hseat with ⟨h1, rfl, rfl⟩ | ⟨h1, h2, rfl, rfl⟩ <;>
    cases hw <;> cases dr <;> cases hp2ID : g.player2ID <;>
    (try (rw [hp2ID] at h2)) <;>
    first
    | (exact absurd h2 (Option.some_ne_none _).symm)
    | (try (cases h2)
       simp only [hpos, if_false, hg, hst, ne_eq, not_true_eq_false, h1, if_true, hturn, hb,
        hcell, hcw, hp2ID, h21, Bool.or_self, Bool.or_true, Bool.true_or, Bool.or_false,
        Bool.false_eq_true, false_and, true_and, and_true, and_false, not_false_eq_true,
        Option.some.injEq] at hp1 hp2 ⊢
       try simp only [hp1, hp2, if_true, if_false]
       first
       | exact Or.inl rfl
       | (left
          simp only [markUserOnline_playerStats]
          done)
       | (right
          refine ⟨?_, ?_, ?_⟩
          pick_goal 3
          · simp only [markUserOnline_playerStats]
            exact updatePlayerStats_congr _ _ _ _ _ _ _ _
              (updatePlayerStats_congr _ _ _ _ _ _ _ _ rfl)))

/-- What `updatePlayerStats`, called with the empty name, does to the rows: every
row keeps its `user_id`, a row that held the empty name still holds it, and a
table in which every name is empty stays so. -/
theorem updatePlayerStats_names (s : Store) (now : Nat) (u : Int) (won lost draw : Bool) :
    (StatsNamesEmpty s → StatsNamesEmpty (updatePlayerStats s now u "" won lost draw)) ∧
    ∀ v p, statsOf s v = some p →
      ∃ p', statsOf (updatePlayerStats s now u "" won lost draw) v = some p' ∧
        p'.userID = p.userID ∧ (p.userName = "" → p'.userName = "") := by
  constructor
  · intro hn p hp
    unfold updatePlayerStats at hp
    dsimp only at hp
    rw [List.mem_map] at hp
    obtain ⟨q, hq, rfl⟩ := hp
    have hqn : q.userName = "" := by
      split_ifs at hq with hany
      · rw [List.mem_map] at hq
        obtain ⟨r, hr, rfl⟩ := hq
        split_ifs
        · rfl
        · exact hn r hr
      · rw [List.mem_append, List.mem_singleton] at hq
        rcases hq with hq | rfl
        · exact hn q hq
        · rfl
    split_ifs <;> exact hqn
  · intro v p hv
    by_cases hvu : v = u
    · subst hvu
      rw [statsOf_updatePlayerStats, hv]
      exact ⟨_, rfl, rfl, fun _ => rfl⟩
    · rw [statsOf_updatePlayerStats_other s now u v "" won lost draw hvu]
      exact ⟨p, hv, rfl, fun h => h⟩

/-- Any call of `makeMoveHandler` keeps the `player_stats` table free of names. -/
theorem makeMove_names_empty (s : Store) (now : Nat) (authUser : Option User)
    (body : Option MoveReq) (hnames : StatsNamesEmpty s) :
    StatsNamesEmpty (makeMoveHandler s now authUser body).store := by
  rcases makeMove_playerStats_cases s now authUser body with h | ⟨a, b, h⟩
  · intro p hp
    rw [h] at hp
    exact hnames p hp
  · intro p hp
    rw [h] at hp
    exact (updatePlayerStats_names _ now b false true false).1
      ((updatePlayerStats_names s now a true false false).1 hnames) p hp

/-- From a database whose `player_stats` rows have the empty name (an empty
table, for one), any run of requests to `makeMoveHandler` leaves only rows with
the empty name. -/
theorem playMoves_names_empty (reqs : List (Nat × Option User × Option MoveReq)) (s : Store)
    (hnames : StatsNamesEmpty s) : StatsNamesEmpty (playMoves s reqs) := by
  induction reqs generalizing s with
  | nil => exact hnames
  | cons r rest ih =>
    obtain ⟨now, authUser, body⟩ := r
    exact ih _ (makeMove_names_empty s now authUser body hnames)

/-- The other operations on the database leave the `player_stats` table as it
was: the table is written by `makeMoveHandler` (through `updatePlayerStats`)
only. -/
theorem playerStats_written_by_moves_only (s : Store) (now : Nat) (newID : Int)
    (authUser : Option User) :
    (∀ body, (createChallengeHandler s now newID authUser body).store.playerStats =
      s.playerStats) ∧
    (∀ gameID body, (respondToChallengeHandler s now authUser gameID body).store.playerStats =
      s.playerStats) ∧
    (∀ body, (createRematchHandler s now newID authUser body).store.playerStats =
      s.playerStats) ∧
    (∀ gameID, (getRematchHandler s now authUser gameID).store.playerStats = s.playerStats) ∧
    (∀ rematchID body res,
      respondToRematchHandler s now newID authUser rematchID body = some res →
        res.store.playerStats = s.playerStats) ∧
    (cleanupExpiredRematches s now).playerStats = s.playerStats ∧
    (cleanupOnServerRestart s).playerStats = s.playerStats := by
  refine ⟨?_, ?_, ?_, ?_, ?_, rfl, rfl⟩
  · intro body
    unfold createChallengeHandler
    dsimp only
    repeat' split
    all_goals rfl
  · intro gameID body
    unfold respondToChallengeHandler
    dsimp only
    repeat' split
    all_goals first | rfl | simp only [Store.updateGame, markUserOnline_playerStats]
  · intro body
    unfold createRematchHandler
    dsimp only
    repeat' split
    all_goals rfl
  · intro gameID
    unfold getRematchHandler
    dsimp only
    repeat' split
    all_goals rfl
  · intro rematchID body res h
    unfold respondToRematchHandler at h
    dsimp only at h
    repeat' split at h
    all_goals first
      | (cases h; done)
      | (cases h; rfl)
      | (cases h; simp only [updateRematchStatus, markUserOnline_playerStats])

/-- For contrast, on a table seeded by hand with names (`scenarioWithStats`: rows
named "A", "B" and "C", which no operation of the service writes): a move that
ends the series passes the empty name to `updatePlayerStats`, whose upsert
writes it over the names of the two players; C's row keeps its name.
`markUserOnline`, called with the empty name by the same move, leaves the names
of the `online_users` rows as they were. -/
theorem stats_update_erases_name :
    (statsOf (playMoves (scenarioWithStats 1) scenarioOpening) 101).map
      (fun p => p.userName) = some "A" ∧
    (statsOf (playMoves (scenarioWithStats 1) scenarioOpening) 102).map
      (fun p => p.userName) = some "B" ∧
    (makeMoveHandler (playMoves (scenarioWithStats 1) scenarioOpening) 5 (some userA)
      (some { gameID := 1, position := 2 })).response.isSuccess = true ∧
    (statsOf (makeMoveHandler (playMoves (scenarioWithStats 1) scenarioOpening) 5 (some userA)
      (some { gameID := 1, position := 2 })).store 101).map (fun p => p.userName) = some "" ∧
    (statsOf (makeMoveHandler (playMoves (scenarioWithStats 1) scenarioOpening) 5 (some userA)
      (some { gameID := 1, position := 2 })).store 102).map (fun p => p.userName) = some "" ∧
    (statsOf (makeMoveHandler (playMoves (scenarioWithStats 1) scenarioOpening) 5 (some userA)
      (some { gameID := 1, position := 2 })).store 103).map (fun p => p.userName) = some "C" ∧
    (makeMoveHandler (playMoves (scenarioWithStats 1) scenarioOpening) 5 (some userA)
      (some { gameID := 1, position := 2 })).store.onlineUsers.map
        (fun u => (u.userID, u.userName, u.inGame)) = [(101, "A", 0), (102, "B", 0)] := by
  decide

/-! ## C22: the status of a game -/

theorem GoMap.get_delete_other {V : Type} (m : GoMap V) (k j : Int) (h : j ≠ k) :
    (m.delete k).get j = m.get j := by
  unfold GoMap.delete GoMap.get
  congr 1
  induction m with
  | nil => rfl
  | cons e rest ih =>
    by_cases he : e.1 = k
    · have hej : ¬ e.1 = j := by rw [he]; exact fun h' => h h'.symm
      rw [List.filter_cons_of_neg (by simp [he]), List.find?_cons_of_neg _ (by simp [hej])]
      exact ih
    · rw [List.filter_cons_of_pos (by simp [he])]
      by_cases hej : e.1 = j
      · rw [List.find?_cons_of_pos _ (by simp [hej]), List.find?_cons_of_pos _ (by simp [hej])]
      · rw [List.find?_cons_of_neg _ (by simp [hej]), List.find?_cons_of_neg _ (by simp [hej])]
        exact ih

theorem GoMap.get_put_other {V : Type} (m : GoMap V) (k j : Int) (v : V) (h : j ≠ k) :
    (m.put k v).get j = m.get j := by
  have hkj : ¬ k = j := fun h' => h h'.symm
  have hmap : (m.map (fun e => if e.1 = k then (k, v) else e)).find?
      (fun e => decide (e.1 = j)) = m.find? (fun e => decide (e.1 = j)) := by
    induction m with
    | nil => rfl
    | cons e rest ih =>
      rw [List.map_cons]
      by_cases he : e.1 = k
      · have hej : ¬ e.1 = j := by rw [he]; exact hkj
        rw [if_pos he, List.find?_cons_of_neg _ (by simp [hkj]),
          List.find?_cons_of_neg _ (by simp [hej])]
        exact ih
      · rw [if_neg he]
        by_cases hej : e.1 = j
        · rw [List.find?_cons_of_pos _ (by simp [hej]), List.find?_cons_of_pos _ (by simp [hej])]
        · rw [List.find?_cons_of_neg _ (by simp [hej]), List.find?_cons_of_neg _ (by simp [hej])]
          exact ih
  unfold GoMap.put GoMap.get
  congr 1
  split
  · exact hmap
  · rw [List.find?_append]
    cases m.find? (fun e => decide (e.1 = j)) with
    | some e => rfl
    | none => simp [hkj]

theorem GoMap.mem_put {V : Type} (m : GoMap V) (k : Int) (v : V) (e : Int × V)
    (he : e ∈ m.put k v) : e = (k, v) ∨ (e ∈ m ∧ e.1 ≠ k) := by
  unfold GoMap.put at he
  split at he
  · obtain ⟨x, hx, hxe⟩ := List.mem_map.mp he
    by_cases hk : x.1 = k
    · rw [if_pos hk] at hxe
      exact Or.inl hxe.symm
    · rw [if_neg hk] at hxe
      rw [← hxe]
      exact Or.inr ⟨hx, hk⟩
  · next hany =>
    rcases List.mem_append.mp he with h | h
    · refine Or.inr ⟨h, ?_⟩
      intro hk
      apply hany
      rw [List.any_eq_true]
      exact ⟨e, h, by simpa using hk⟩
    · exact Or.inl (List.mem_singleton.mp h)

theorem GoMap.put_ne_nil {V : Type} (m : GoMap V) (k : Int) (v : V) : m.put k v ≠ [] := by
  intro h
  have hget := GoMap.get_put_self m k v
  rw [h] at hget
  cases hget

theorem GoMap.get_of_delete_nil {V : Type} (m : GoMap V) (k j : Int) (h : m.delete k = [])
    (hj : j ≠ k) : m.get j = none := by
  rw [← GoMap.get_delete_other m k j hj, h]
  rfl

theorem registerConnection_noEmpty (cm : ConnectionManager) (gameID userID : Int)
    (conn : ConnID) (h : NoEmptyGame cm) :
    NoEmptyGame (registerConnection cm gameID userID conn) := by
  intro e he
  unfold registerConnection at he
  dsimp only at he
  rcases GoMap.mem_put _ _ _ _ he with rfl | ⟨hmem, hk⟩
  · exact GoMap.put_ne_nil _ _ _
  · split at hmem
    · rcases GoMap.mem_put _ _ _ _ hmem with rfl | ⟨hmem', -⟩
      · exact absurd rfl hk
      · exact h e hmem'
    · exact h e hmem

theorem unregisterConnection_noEmpty (cm : ConnectionManager) (gameID userID : Int)
    (h : NoEmptyGame cm) : NoEmptyGame (unregisterConnection cm gameID userID) := by
  intro e he
  unfold unregisterConnection at he
  cases hget : cm.connections.get gameID with
  | none =>
    rw [hget] at he
    exact h e he
  | some gameConns =>
    rw [hget] at he
    dsimp only at he
    split at he
    · have hmem := (List.mem_filter.mp he).1
      rcases GoMap.mem_put _ _ _ _ hmem with rfl | ⟨hmem', -⟩
      · have := (List.mem_filter.mp he).2
        simp at this
      · exact h e hmem'
    · next hlen =>
      rcases GoMap.mem_put _ _ _ _ he with rfl | ⟨hmem', -⟩
      · intro hnil
        apply hlen
        have hnil' : gameConns.delete userID = [] := hnil
        rw [hnil']
        rfl
      · exact h e hmem'

theorem runRegistryOps_noEmpty (ops : List RegistryOp) (cm : ConnectionManager)
    (h : NoEmptyGame cm) : NoEmptyGame (runRegistryOps cm ops) := by
  induction ops generalizing cm with
  | nil => exact h
  | cons op rest ih =>
    unfold runRegistryOps
    rw [List.foldl_cons]
    apply ih
    cases op with
    | register gameID userID conn => exact registerConnection_noEmpty cm gameID userID conn h
    | unregister gameID userID => exact unregisterConnection_noEmpty cm gameID userID h

theorem unregisterConnection_lookup_other (cm : ConnectionManager) (gameID userID g u : Int)
    (hne : g ≠ gameID ∨ u ≠ userID) :
    (unregisterConnection cm gameID userID).lookup g u = cm.lookup g u := by
  unfold unregisterConnection ConnectionManager.lookup
  cases hget : cm.connections.get gameID with
  | none => rfl
  | some gameConns =>
    dsimp only
    by_cases hg : g = gameID
    · subst hg
      have hu : u ≠ userID := by
        rcases hne with h | h
        · exact absurd rfl h
        · exact h
      rw [hget]
      split
      · next hlen =>
        have hnil : gameConns.delete userID = [] := List.length_eq_zero.mp hlen
        rw [GoMap.get_delete_self]
        simp only [Option.none_bind, Option.some_bind]
        exact (GoMap.get_of_delete_nil gameConns userID u hnil hu).symm
      · rw [GoMap.get_put_self]
        simp only [Option.some_bind]
        exact GoMap.get_delete_other gameConns userID u hu
    · split
      · rw [GoMap.get_delete_other _ _ _ hg, GoMap.get_put_other _ _ _ _ hg]
      · rw [GoMap.get_put_other _ _ _ _ hg]

/-- C25: after `unregisterConnection(gameID, userID)` the pair is not
registered, every other pair is registered exactly as before, and when no other
user of the game was registered the game id is no longer a key of the outer
map; and after any sequence of `registerConnection` and `unregisterConnection`
calls from the empty registry no game id maps to an empty connection set. -/
theorem unregisterConnection_spec (cm : ConnectionManager) (gameID userID : Int) :
    hasExistingConnection (unregisterConnection cm gameID userID) userID gameID = false ∧
    (∀ g u, g ≠ gameID ∨ u ≠ userID →
      (unregisterConnection cm gameID userID).lookup g u = cm.lookup g u ∧
      hasExistingConnection (unregisterConnection cm gameID userID) u g =
        hasExistingConnection cm u g) ∧
    ((∀ u, u ≠ userID → cm.lookup gameID u = none) →
      (unregisterConnection cm gameID userID).connections.get gameID = none) ∧
    (∀ ops : List RegistryOp, ∀ e ∈ (runRegistryOps { connections := [] } ops).connections,
      e.2 ≠ []) := by
  refine ⟨?_, ?_, ?_, ?_⟩
  · rw [hasExistingConnection_eq_lookup, unregisterConnection_lookup]
    rfl
  · intro g u hne
    refine ⟨unregisterConnection_lookup_other cm gameID userID g u hne, ?_⟩
    rw [hasExistingConnection_eq_lookup, hasExistingConnection_eq_lookup,
      unregisterConnection_lookup_other cm gameID userID g u hne]
  · intro hall
    unfold unregisterConnection
    cases hget : cm.connections.get gameID with
    | none => exact hget
    | some gameConns =>
      dsimp only
      have hnil : gameConns.delete userID = [] := by
        apply List.eq_nil_iff_forall_not_mem.mpr
        intro e he
        have hk : e.1 ≠ userID := by
          have := (List.mem_filter.mp he).2
          simpa using this
        have hl := hall e.1 hk
        unfold ConnectionManager.lookup at hl
        rw [hget] at hl
        simp only [Option.some_bind] at hl
        have hsome : (gameConns.delete userID).get e.1 ≠ none := by
          unfold GoMap.get
          intro hn
          rw [Option.map_eq_none', List.find?_eq_none] at hn
          exact absurd (hn e he) (by simp)
        rw [GoMap.get_delete_other gameConns userID e.1 hk] at hsome
        exact hsome hl
      have hlen : (gameConns.delete userID).len = 0 := by
        rw [hnil]
        rfl
      rw [if_pos hlen]
      exact GoMap.get_delete_self _ _
  · intro ops
    exact runRegistryOps_noEmpty ops { connections := [] } (fun e he => by cases he)

/-- C25 at a concrete registry: A and B are registered for game 1, A for game 2;
A leaves game 2 (its key disappears), then A leaves game 1 (B stays). -/
theorem unregisterConnection_spec_witness :
    (runRegistryOps { connections := [] }
      [.register 1 101 7, .register 1 102 8, .register 2 101 9, .unregister 2 101,
       .unregister 1 101]).connections = [(1, [(102, 8)])] ∧
    hasExistingConnection (unregisterConnection
      (runRegistryOps { connections := [] }
        [.register 1 101 7, .register 1 102 8, .register 2 101 9, .unregister 2 101]) 1 101)
      101 1 = false ∧
    ∀ e ∈ (runRegistryOps { connections := [] }
      [.register 1 101 7, .register 1 102 8, .register 2 101 9, .unregister 2 101,
       .unregister 1 101]).connections, e.2 ≠ [] :=
  ⟨by decide,
   (unregisterConnection_spec (runRegistryOps { connections := [] }
      [.register 1 101 7, .register 1 102 8, .register 2 101 9, .unregister 2 101]) 1 101).1,
   (unregisterConnection_spec { connections := [] } 0 0).2.2.2 _⟩

/-! ## C23, C24: broadcasts -/

theorem writeJSON_id (c : Conn) (m : WSMessage) : (c.writeJSON m).2.id = c.id := by
  unfold Conn.writeJSON
  rcases c.writeErrs with _ | ⟨_ | _, rest⟩ <;> rfl

/-- Writing one message to each socket of a list of distinct identities. -/
theorem foldl_writeJSON (ids : List ConnID) (m : WSMessage) (sv : Server)
    (hnd : ids.Nodup) :
    ids.foldl (fun (acc : Server) (id : ConnID) => acc.writeJSON id m) sv =
      { sv with sockets := sv.sockets.map (fun (c : Conn) =>
          if c.id ∈ ids then (c.writeJSON m).2 else c) } := by
  induction ids generalizing sv with
  | nil => simp
  | cons id rest ih =>
    rw [List.foldl_cons, ih _ (List.nodup_cons.mp hnd).2]
    have hnot : id ∉ rest := (List.nodup_cons.mp hnd).1
    unfold Server.writeJSON
    simp only [List.map_map, Server.mk.injEq, true_and]
    apply List.map_congr_left
    intro c _
    simp only [Function.comp]
    by_cases hc : c.id = id
    · have h1 : (c.writeJSON m).2.id ∉ rest := by rw [writeJSON_id, hc]; exact hnot
      simp [hc, h1]
    · by_cases hr : c.id ∈ rest
      · simp [hc, hr]
      · simp [hc, hr]

theorem foldl_writeJSON_sockets (ids : List ConnID) (m : WSMessage) (sv : Server) :
    (ids.foldl (fun (acc : Server) (id : ConnID) => acc.writeJSON id m) sv).connManager =
        sv.connManager ∧
    (ids.foldl (fun (acc : Server) (id : ConnID) => acc.writeJSON id m) sv).db = sv.db := by
  induction ids generalizing sv with
  | nil => exact ⟨rfl, rfl⟩
  | cons id rest ih =>
    rw [List.foldl_cons]
    exact ih _

theorem foldl_if_filter {α β : Type} (l : List α) (p : α → Bool) (f : β → α → β) (b : β) :
    l.foldl (fun acc e => if p e = true then f acc e else acc) b = (l.filter p).foldl f b := by
  induction l generalizing b with
  | nil => rfl
  | cons x rest ih =>
    rw [List.foldl_cons, ih]
    by_cases hp : p x = true
    · rw [if_pos hp, List.filter_cons_of_pos hp, List.foldl_cons]
    · rw [if_neg hp, List.filter_cons_of_neg hp]

theorem broadcastGameUpdate_eq (sv : Server) (gameID : Int) (game : Game)
    (hnd : (connsOfGame sv.connManager gameID).Nodup) :
    broadcastGameUpdate sv gameID game =
      { sv with sockets := sv.sockets.map (fun (c : Conn) =>
          if c.id ∈ connsOfGame sv.connManager gameID then
            (c.writeJSON (moveUpdateMsg game)).2
          else c) } := by
  unfold broadcastGameUpdate connsOfGame at *
  cases hget : sv.connManager.connections.get gameID with
  | none => simp
  | some gameConns =>
    rw [hget] at hnd
    simp only [Option.getD_some] at hnd ⊢
    have h := foldl_writeJSON (gameConns.map (fun e => e.2)) (moveUpdateMsg game) sv hnd
    rw [List.foldl_map] at h
    exact h

theorem notifyOpponentDisconnected_eq (sv : Server) (gameID userID : Int)
    (hnd : (connsOfGame sv.connManager gameID).Nodup) :
    notifyOpponentDisconnected sv gameID userID =
      { sv with sockets := sv.sockets.map (fun (c : Conn) =>
          if c.id ∈ connsOfOthers sv.connManager gameID userID then
            (c.writeJSON (opponentDisconnectedMsg userID)).2
          else c) } := by
  unfold notifyOpponentDisconnected connsOfOthers
  unfold connsOfGame at hnd
  cases hget : sv.connManager.connections.get gameID with
  | none => simp
  | some gameConns =>
    rw [hget] at hnd
    simp only [Option.getD_some] at hnd ⊢
    have hnd' : ((gameConns.filter (fun e => !decide (e.1 = userID))).map
        (fun e => e.2)).Nodup :=
      List.Nodup.sublist ((List.filter_sublist _).map _) hnd
    have h := foldl_writeJSON _ (opponentDisconnectedMsg userID) sv hnd'
    rw [List.foldl_map, ← foldl_if_filter] at h
    rw [← h]
    congr 1
    funext acc e
    by_cases he : e.1 = userID
    · simp [he]
    · simp [he, opponentDisconnectedMsg]

/-- C23: `broadcastGameUpdate(gameID, game)`, when the sockets registered under
the game are distinct, performs exactly one `WriteJSON` of the `move_update`
message carrying `game` on each of them and none on any other socket: a
registered socket whose write succeeds has the message appended to what it was
sent, one whose write fails has only used up that write, and this whatever
happens on the other sockets.  The registry and the database are untouched,
and the function returns nothing to its caller. -/
theorem broadcastGameUpdate_spec (sv : Server) (gameID : Int) (game : Game)
    (hnd : (connsOfGame sv.connManager gameID).Nodup) :
    (broadcastGameUpdate sv gameID game).connManager = sv.connManager ∧
    (broadcastGameUpdate sv gameID game).db = sv.db ∧
    (broadcastGameUpdate sv gameID game).sockets =
      sv.sockets.map (fun (c : Conn) =>
        if c.id ∈ connsOfGame sv.connManager gameID then
          (c.writeJSON { type := "move_update", payload := .game game }).2
        else c) ∧
    (∀ c ∈ sv.sockets, c.id ∈ connsOfGame sv.connManager gameID →
      c.writeErrs.head? ≠ some true →
      { c with writeErrs := c.writeErrs.tail,
               sent := c.sent ++ [{ type := "move_update", payload := .game game }] } ∈
        (broadcastGameUpdate sv gameID game).sockets) ∧
    (∀ c ∈ sv.sockets, c.id ∈ connsOfGame sv.connManager gameID →
      c.writeErrs.head? = some true →
      { c with writeErrs := c.writeErrs.tail } ∈
        (broadcastGameUpdate sv gameID game).sockets) ∧
    (∀ c ∈ sv.sockets, c.id ∉ connsOfGame sv.connManager gameID →
      c ∈ (broadcastGameUpdate sv gameID game).sockets) := by
  rw [broadcastGameUpdate_eq sv gameID game hnd]
  refine ⟨rfl, rfl, rfl, ?_, ?_, ?_⟩
  · intro c hc hid hok
    refine List.mem_map.mpr ⟨c, hc, ?_⟩
    rw [if_pos hid]
    unfold Conn.writeJSON moveUpdateMsg
    rcases hw : c.writeErrs with _ | ⟨_ | _, rest⟩
    · rfl
    · rfl
    · rw [hw] at hok
      exact absurd rfl hok
  · intro c hc hid hfail
    refine List.mem_map.mpr ⟨c, hc, ?_⟩
    rw [if_pos hid]
    unfold Conn.writeJSON
    rcases hw : c.writeErrs with _ | ⟨_ | _, rest⟩
    · rw [hw] at hfail
      cases hfail
    · rw [hw] at hfail
      cases hfail
    · rfl
  · intro c hc hid
    refine List.mem_map.mpr ⟨c, hc, ?_⟩
    rw [if_neg hid]

/-- C23 on the server with two games: the update of game 1 is written to the
sockets of A and B only; the write to A's socket fails and B still gets the
message, and C's socket (game 2) gets nothing. -/
theorem broadcastGameUpdate_spec_witness :
    (broadcastGameUpdate twoGamesServer 1 (startedGame 1 userA userB "normal" 0 1 0 0)).sockets =
      [{ id := 7, inbox := [], writeErrs := [], sent := [] },
       { id := 8, inbox := [], writeErrs := [],
         sent := [moveUpdateMsg (startedGame 1 userA userB "normal" 0 1 0 0)] },
       { id := 9, inbox := [], writeErrs := [], sent := [] }] ∧
    (broadcastGameUpdate twoGamesServer 1
      (startedGame 1 userA userB "normal" 0 1 0 0)).connManager = twoGamesServer.connManager :=
  ⟨((broadcastGameUpdate_spec twoGamesServer 1 (startedGame 1 userA userB "normal" 0 1 0 0)
      (by decide)).2.2.1).trans (by decide),
   (broadcastGameUpdate_spec twoGamesServer 1 (startedGame 1 userA userB "normal" 0 1 0 0)
      (by decide)).1⟩

theorem lookup_not_mem_connsOfOthers (cm : ConnectionManager) (gameID userID : Int)
    (cid : ConnID) (hnd : (connsOfGame cm gameID).Nodup)
    (hl : cm.lookup gameID userID = some cid) : cid ∉ connsOfOthers cm gameID userID := by
  unfold ConnectionManager.lookup at hl
  unfold connsOfOthers
  unfold connsOfGame at hnd
  cases hget : cm.connections.get gameID with
  | none =>
    rw [hget] at hl
    cases hl
  | some gameConns =>
    rw [hget] at hl hnd
    simp only [Option.some_bind] at hl
    simp only [Option.getD_some] at hnd ⊢
    unfold GoMap.get at hl
    cases hfind : gameConns.find? (fun e => decide (e.1 = userID)) with
    | none =>
      rw [hfind] at hl
      cases hl
    | some e0 =>
      rw [hfind] at hl
      have he0 : e0.2 = cid := Option.some.inj hl
      have hmem0 : e0 ∈ gameConns := List.mem_of_find?_eq_some hfind
      have hkey0 := List.find?_some hfind
      have hkey0' : e0.1 = userID := of_decide_eq_true hkey0
      intro hin
      obtain ⟨e, he, hec⟩ := List.mem_map.mp hin
      obtain ⟨hmem, hkey⟩ := List.mem_filter.mp he
      have hne : ¬ e.1 = userID := by simpa using hkey
      have heq : e = e0 :=
        List.inj_on_of_nodup_map hnd hmem hmem0 (hec.trans he0.symm)
      rw [heq] at hne
      exact hne hkey0'

/-- C24: `notifyOpponentDisconnected(gameID, u)`, when the sockets registered
under the game are distinct, performs exactly one `WriteJSON` of the
`opponent_disconnected` message with `user_id` = u on each socket registered
under the game for another user, and none on any other socket, in particular
none on u's own.  The registry and the database are untouched: the disconnect
of a client (notification, then the deferred `unregisterConnection`) changes no
game record. -/
theorem notifyOpponentDisconnected_spec (sv : Server) (gameID u : Int)
    (hnd : (connsOfGame sv.connManager gameID).Nodup) :
    (notifyOpponentDisconnected sv gameID u).connManager = sv.connManager ∧
    (notifyOpponentDisconnected sv gameID u).db = sv.db ∧
    (notifyOpponentDisconnected sv gameID u).sockets =
      sv.sockets.map (fun (c : Conn) =>
        if c.id ∈ connsOfOthers sv.connManager gameID u then
          (c.writeJSON { type := "opponent_disconnected", payload := .userID u }).2
        else c) ∧
    (∀ c ∈ sv.sockets, sv.connManager.lookup gameID u = some c.id →
      c ∈ (notifyOpponentDisconnected sv gameID u).sockets) ∧
    (∀ c ∈ sv.sockets, c.id ∉ connsOfGame sv.connManager gameID →
      c ∈ (notifyOpponentDisconnected sv gameID u).sockets) ∧
    (gameConnectionClosed sv gameID u).db = sv.db ∧
    (gameConnectionClosed sv gameID u).connManager =
      unregisterConnection sv.connManager gameID u := by
  have hdb : (gameConnectionClosed sv gameID u).db = sv.db ∧
      (gameConnectionClosed sv gameID u).connManager =
        unregisterConnection sv.connManager gameID u := by
    unfold gameConnectionClosed
    rw [notifyOpponentDisconnected_eq sv gameID u hnd]
    exact ⟨rfl, rfl⟩
  rw [notifyOpponentDisconnected_eq sv gameID u hnd]
  refine ⟨rfl, rfl, rfl, ?_, ?_, hdb.1, hdb.2⟩
  · intro c hc hl
    refine List.mem_map.mpr ⟨c, hc, ?_⟩
    rw [if_neg (lookup_not_mem_connsOfOthers _ _ _ _ hnd hl)]
  · intro c hc hid
    refine List.mem_map.mpr ⟨c, hc, ?_⟩
    have hsub : c.id ∉ connsOfOthers sv.connManager gameID u := by
      intro hin
      apply hid
      unfold connsOfOthers at hin
      unfold connsOfGame
      exact ((List.filter_sublist _).map _).subset hin
    rw [if_neg hsub]

/-- C24 on the server with two games: when B's client of game 1 goes away, only
A's socket is written to (and that write fails); B's own socket and C's socket
get nothing, and the database is as before. -/
theorem notifyOpponentDisconnected_spec_witness :
    (notifyOpponentDisconnected twoGamesServer 1 102).sockets =
      [{ id := 7, inbox := [], writeErrs := [], sent := [] },
       { id := 8, inbox := [], writeErrs := [], sent := [] },
       { id := 9, inbox := [], writeErrs := [], sent := [] }] ∧
    (notifyOpponentDisconnected twoGamesServer 1 101).sockets =
      [{ id := 7, inbox := [], writeErrs := [true], sent := [] },
       { id := 8, inbox := [], writeErrs := [], sent := [opponentDisconnectedMsg 101] },
       { id := 9, inbox := [], writeErrs := [], sent := [] }] ∧
    (gameConnectionClosed twoGamesServer 1 101).db = twoGamesServer.db :=
  ⟨((notifyOpponentDisconnected_spec twoGamesServer 1 102 (by decide)).2.2.1).trans (by decide),
   ((notifyOpponentDisconnected_spec twoGamesServer 1 101 (by decide)).2.2.1).trans (by decide),
   (notifyOpponentDisconnected_spec twoGamesServer 1 101 (by decide)).2.2.2.2.2.1⟩

/-! ## C26: the expiry of a lobby connection -/

theorem runLobbyLoop_traffic (userID : Int) (conn : ConnID)
    (events : List (Nat × LobbyLoopEvent)) (st : LobbyLoop)
    (h : ∀ e ∈ events, e.2 = .message ∨ e.2 = .pong ∨ e.2 = .tick true) :
    (runLobbyLoop userID conn st events).lm = st.lm ∧
    (runLobbyLoop userID conn st events).returned = st.returned := by
  induction events generalizing st with
  | nil => exact ⟨rfl, rfl⟩
  | cons e rest ih =>
    obtain ⟨now, ev⟩ := e
    have hrest : ∀ e ∈ rest, e.2 = .message ∨ e.2 = .pong ∨ e.2 = .tick true :=
      fun e he => h e (List.mem_cons_of_mem _ he)
    have hev : ev = .message ∨ ev = .pong ∨ ev = .tick true := h (now, ev) (List.mem_cons_self _ _)
    have hstep : (lobbyLoopStep userID conn st now ev).lm = st.lm ∧
        (lobbyLoopStep userID conn st now ev).returned = st.returned := by
      rcases hev with rfl | rfl | rfl
      · exact ⟨rfl, rfl⟩
      · cases hr : st.returned <;> simp [lobbyLoopStep, hr]
      · exact ⟨rfl, rfl⟩
    obtain ⟨h1, h2⟩ := ih (lobbyLoopStep userID conn st now ev) hrest
    exact ⟨h1.trans hstep.1, h2.trans hstep.2⟩

/-- C26: `registerLobbyConnection` at time `now` arms one timer for the
connection, due at `now + 30`.  Messages, pongs and pings in the keep-alive
loop of the handler leave the registry and its timers exactly as they are (a
pong only moves the read deadline of the socket), so the timer stays due at
`now + 30`.  When the timer fires while the connection is still the one
registered for the user, its socket is closed, the entry of the user is
removed, and the timer is no longer armed. -/
theorem lobby_expiry (lm : LobbyConnectionManager) (now : Nat) (userID : Int) (conn : ConnID) :
    ({ id := lm.nextTimer, userID := userID, fireAt := now + 30 } : LobbyTimer) ∈
      (registerLobbyConnection lm now userID conn).timers ∧
    getLobbyConnection (registerLobbyConnection lm now userID conn) userID =
      some { conn := conn, timer := lm.nextTimer, userID := userID, connected := now } ∧
    (∀ (events : List (Nat × LobbyLoopEvent)) (deadline : Nat),
      (∀ e ∈ events, e.2 = .message ∨ e.2 = .pong ∨ e.2 = .tick true) →
      (runLobbyLoop userID conn
        { lm := registerLobbyConnection lm now userID conn, readDeadline := deadline,
          returned := false } events).lm = registerLobbyConnection lm now userID conn) ∧
    (∀ (lm' : LobbyConnectionManager) (t : LobbyTimer) (lc : LobbyConnection),
      getLobbyConnection lm' t.userID = some lc →
      lc.conn ∈ (lobbyTimerFired lm' t).closed ∧
      getLobbyConnection (lobbyTimerFired lm' t) t.userID = none ∧
      ∀ x ∈ (lobbyTimerFired lm' t).timers, x.id ≠ t.id) := by
  refine ⟨?_, (registerLobbyConnection_spec lm now userID conn).1, ?_, ?_⟩
  · unfold registerLobbyConnection
    simp
  · intro events deadline h
    exact (runLobbyLoop_traffic userID conn events _ h).1
  · intro lm' t lc hget
    have hget' : lm'.connections.get t.userID = some lc := hget
    unfold lobbyTimerFired
    simp only [hget']
    refine ⟨by simp, GoMap.get_delete_self _ _, ?_⟩
    intro x hx
    have := (List.mem_filter.mp hx).2
    simpa using this

/-- C26 on the registry with A's connection (socket 7, registered at time 0):
its timer is due at time 30; a pong at time 8, a message at 9 and pings at 10
and 20 change nothing in the registry; the timer, firing, closes socket 7 and
empties the registry. -/
theorem lobby_expiry_witness :
    ({ id := 0, userID := 101, fireAt := 30 } : LobbyTimer) ∈ lobbyWithA.timers ∧
    (runLobbyLoop 101 7 { lm := lobbyWithA, readDeadline := 35, returned := false }
      [(8, .pong), (9, .message), (10, .tick true), (20, .tick true)]).lm = lobbyWithA ∧
    lobbyTimerFired lobbyWithA { id := 0, userID := 101, fireAt := 30 } =
      { connections := [], timers := [], closed := [7], nextTimer := 1 } :=
  ⟨(lobby_expiry { connections := [], timers := [], closed := [], nextTimer := 0 } 0 101 7).1,
   (lobby_expiry { connections := [], timers := [], closed := [], nextTimer := 0 } 0 101
      7).2.2.1 _ 35 (by decide),
   by decide⟩

/-! ## C28: the exit of a replaced lobby handler -/

/-- C28 fails on the code: `unregisterLobbyConnection` looks the entry up by
user id alone.  A's second connection (socket 8, timer 1, due at 35) has
replaced the first one (socket 7).  When the handler of socket 7 then returns,
its deferred `unregisterLobbyConnection(101)` finds the entry of socket 8,
stops timer 1 and deletes the entry: the user has no lobby connection in the
registry, socket 8 is still open and no timer is left to close it. -/
theorem replaced_handler_exit_unregisters_successor :
    getLobbyConnection lobbyReplaced 101 =
      some { conn := 8, timer := 1, userID := 101, connected := 5 } ∧
    lobbyReplaced.timers = [{ id := 1, userID := 101, fireAt := 35 }] ∧
    lobbyReplaced.closed = [7] ∧
    getLobbyConnection (lobbyHandlerExit lobbyReplaced 101 7) 101 = none ∧
    (lobbyHandlerExit lobbyReplaced 101 7).timers = [] ∧
    8 ∉ (lobbyHandlerExit lobbyReplaced 101 7).closed ∧
    (runLobbyLoop 101 7 { lm := lobbyReplaced, readDeadline := 35, returned := false }
      [(6, .readError)]).lm = lobbyHandlerExit lobbyReplaced 101 7 := by
  decide

/-! ## C27: the state of an active game -/

theorem emptyBoard_noLine : ¬ HasLine emptyBoard := by
  rw [← any_comboFilled_iff]
  decide

theorem emptyBoard_hasEmpty : ¬ NoEmptyCell emptyBoard := by
  rw [← boardFull_iff]
  decide

/-- One call of `makeMoveHandler` keeps the invariant of every stored game. -/
theorem makeMove_preserves_activeInv (s : Store) (now : Nat) (authUser : Option User)
    (body : Option MoveReq) (gid : Int)
    (h : ∃ g, s.getGame gid = some g ∧ ActiveInv g) :
    ∃ g, (makeMoveHandler s now authUser body).store.getGame gid = some g ∧ ActiveInv g := by
  rcases makeMove_cases s authUser body with ⟨msg, code, h'⟩ | h' | h'
  · rw [h' now]
    exact h
  · rw [getGame_congr _ _ (h' now).2]
    exact h
  · obtain ⟨user, req, g, pn, sym, b0, hw, dr, rfl, rfl, h0, h8, hg, hst, hseat, hturn, hb,
      hcell, hcw⟩ := h'
    obtain ⟨-, hget, -, hother⟩ :=
      makeMove_accepted s now user req g pn sym b0 hw dr h0 h8 hg hst hseat hturn hb hcell hcw
    by_cases hid : gid = req.gameID
    swap
    · rw [hother gid hid]
      exact h
    subst hid
    obtain ⟨g1, hg1, hinv⟩ := h
    rw [hg] at hg1
    cases hg1
    obtain ⟨⟨b, hb', hlen, hnl, hne⟩, hs1, hs2⟩ := hinv hst
    rw [hb] at hb'
    cases hb'
    obtain ⟨hwl, hdl⟩ := checkWinner_some _ hw dr hcw
    refine ⟨_, hget, ?_⟩
    by_cases hro : (hw || dr) = true
    · by_cases hdec : (movedGame g now pn (b0.set req.position.toNat sym) hw dr).player1Score ≥
          g.firstTo ∨
        (movedGame g now pn (b0.set req.position.toNat sym) hw dr).player2Score ≥ g.firstTo
      · intro hact
        rw [(movedGame_decided g now pn _ hw dr hro hdec).1] at hact
        exact absurd hact (by decide)
      · have h1 : (movedGame g now pn (b0.set req.position.toNat sym) hw dr).player1Score <
            g.firstTo := by
          by_contra hc
          exact hdec (Or.inl (not_lt.mp hc))
        have h2 : (movedGame g now pn (b0.set req.position.toNat sym) hw dr).player2Score <
            g.firstTo := by
          by_contra hc
          exact hdec (Or.inr (not_lt.mp hc))
        obtain ⟨-, -, hbd, -, -⟩ := movedGame_restart g now pn _ hw dr hro h1 h2
        intro _
        have hft : (movedGame g now pn (b0.set req.position.toNat sym) hw dr).firstTo =
            g.firstTo := by
          unfold movedGame
          dsimp only
          split_ifs <;> rfl
        rw [hft]
        exact ⟨⟨emptyBoard, hbd, rfl, emptyBoard_noLine, emptyBoard_hasEmpty⟩, h1, h2⟩
    · have hwf : hw = false := by
        cases hw
        · rfl
        · exact absurd rfl hro
      have hdf : dr = false := by
        cases dr
        · rfl
        · exact absurd (by rw [hwf]; rfl) hro
      subst hwf hdf
      rw [movedGame_continue]
      intro _
      have hnl' : ¬ HasLine (b0.set req.position.toNat sym) := fun hl => by
        have := hwl.mpr hl
        cases this
      have hne' : ¬ NoEmptyCell (b0.set req.position.toNat sym) := fun hn => by
        have := hdl.mpr ⟨hnl', hn⟩
        cases this
      exact ⟨⟨_, rfl, by rw [List.length_set]; exact hlen, hnl', hne'⟩, hs1, hs2⟩

theorem playMoves_preserves_activeInv (reqs : List (Nat × Option User × Option MoveReq))
    (s : Store) (gid : Int) (h : ∃ g, s.getGame gid = some g ∧ ActiveInv g) :
    ∃ g, (playMoves s reqs).getGame gid = some g ∧ ActiveInv g := by
  induction reqs generalizing s with
  | nil => exact h
  | cons r rest ih =>
    obtain ⟨now, authUser, body⟩ := r
    exact ih _ (makeMove_preserves_activeInv s now authUser body gid h)

/-- A line of a board that had none before one cell was set passes through
that cell and consists of the symbol set. -/
theorem line_through_set (b : List String) (p : Nat) (sym' : String) (l : List Nat)
    (sym : String) (hp : p < b.length) (hnl : ¬ HasLine b) (hl : l ∈ lines)
    (hne : sym ≠ "") (hall : ∀ i ∈ l, (b.set p sym')[i]? = some sym) :
    p ∈ l ∧ sym = sym' := by
  have hpl : p ∈ l := by
    by_contra hnot
    apply hnl
    refine ⟨l, hl, sym, hne, ?_⟩
    intro i hi
    have hip : p ≠ i := fun h => hnot (h ▸ hi)
    rw [← List.getElem?_set_ne hip]
    exact hall i hi
  refine ⟨hpl, ?_⟩
  have h := hall p hpl
  rw [List.getElem?_set_self hp] at h
  exact (Option.some.inj h).symm

/-- C27: start from a database in which game `gid` is newly created (empty
board, both scores 0, first_to at least 1) and run any sequence of requests
through `makeMoveHandler`.  While the game is `active` its stored board has no
three-in-a-row and has an empty cell, and both scores are below first_to.
Hence every line on the board of a move accepted next passes through the cell
just played and is made of the mover's symbol ("X" for seat 1, "O" for seat 2),
and the score that the move increments is the mover's. -/
theorem active_game_invariant (s0 : Store) (gid : Int) (g0 : Game)
    (reqs : List (Nat × Option User × Option MoveReq))
    (hg0 : s0.getGame gid = some g0) (hb0 : g0.board = some emptyBoard)
    (hs1 : g0.player1Score = 0) (hs2 : g0.player2Score = 0) (hft : 1 ≤ g0.firstTo) :
    ∃ g, (playMoves s0 reqs).getGame gid = some g ∧
      (g.status = "active" →
        ∃ b, g.board = some b ∧ ¬ HasLine b ∧ ¬ NoEmptyCell b ∧
          g.player1Score < g.firstTo ∧ g.player2Score < g.firstTo) ∧
      ∀ (now : Nat) (user : User) (req : MoveReq) (bd : List String) (ro so dr : Bool)
        (game : Option Game) (w : Option Int),
        req.gameID = gid →
        (makeMoveHandler (playMoves s0 reqs) now (some user) (some req)).response =
          .success bd ro so dr game w →
        ∀ l ∈ lines, ∀ sym : String, sym ≠ "" → (∀ i ∈ l, bd[i]? = some sym) →
          req.position.toNat ∈ l ∧
          ∃ g', (makeMoveHandler (playMoves s0 reqs) now (some user)
              (some req)).store.getGame gid = some g' ∧
            ((seatOf g user.id = some 1 ∧ sym = "X" ∧
                g'.player1Score = g.player1Score + 1 ∧ g'.player2Score = g.player2Score) ∨
             (seatOf g user.id = some 2 ∧ sym = "O" ∧
                g'.player2Score = g.player2Score + 1 ∧ g'.player1Score = g.player1Score)) := by
  have hinv0 : ActiveInv g0 := by
    intro _
    refine ⟨⟨emptyBoard, hb0, rfl, emptyBoard_noLine, emptyBoard_hasEmpty⟩, ?_, ?_⟩
    · rw [hs1]
      omega
    · rw [hs2]
      omega
  obtain ⟨g, hg, hinv⟩ := playMoves_preserves_activeInv reqs s0 gid ⟨g0, hg0, hinv0⟩
  refine ⟨g, hg, ?_, ?_⟩
  · intro hact
    obtain ⟨⟨b, hb, -, hnl, hne⟩, h1, h2⟩ := hinv hact
    exact ⟨b, hb, hnl, hne, h1, h2⟩
  · intro now user req bd ro so dr game w hid hr l hl sym hsym hall
    subst hid
    obtain ⟨pn, sym', b0, hw, h0, h8, hst, hseat, hturn, hb1, hcell, hbd, hcw, hro, hget, -, -⟩ :=
      makeMove_success_inv _ now user req g bd ro so dr game w hg hr
    obtain ⟨⟨b, hb, -, hnl, -⟩, -, -⟩ := hinv hst
    rw [hb1] at hb
    cases hb
    have hp : req.position.toNat < b0.length := by
      by_contra hge
      rw [List.getElem?_eq_none (not_lt.mp hge)] at hcell
      cases hcell
    subst hbd
    obtain ⟨hpl, hsymeq⟩ := line_through_set b0 _ sym' l sym hp hnl hl hsym hall
    have hwt : hw = true := (checkWinner_some _ hw dr hcw).1.mpr ⟨l, hl, sym, hsym, hall⟩
    subst hwt
    refine ⟨hpl, _, hget, ?_⟩
    rw [movedGame_player1Score, movedGame_player2Score]
    rcases hseat with ⟨hu, rfl, rfl⟩ | ⟨hu, hp2, rfl, rfl⟩
    · refine Or.inl ⟨(seated_seatOf g user 1 "X" (Or.inl ⟨hu, rfl, rfl⟩)).1, hsymeq, ?_, ?_⟩
      · simp
      · simp
    · refine Or.inr ⟨(seated_seatOf g user 2 "O" (Or.inr ⟨hu, hp2, rfl, rfl⟩)).1, hsymeq, ?_, ?_⟩
      · simp
      · simp

/-- C27 on the scenario: after A:0, B:4, A:1, B:5 game 1 is active with a board
without a line and with empty cells and with scores below first_to = 2; A's
move on cell 2 completes the top row, which passes through cell 2 and is made of
"X", and it is A's score that grows. -/
theorem active_game_invariant_witness :
    ∃ g, (playMoves (scenarioStore 2) scenarioOpening).getGame 1 = some g ∧
      (g.status = "active" →
        ∃ b, g.board = some b ∧ ¬ HasLine b ∧ ¬ NoEmptyCell b ∧
          g.player1Score < g.firstTo ∧ g.player2Score < g.firstTo) ∧
      (2 ∈ [0, 1, 2] ∧
        ∃ g', (makeMoveHandler (playMoves (scenarioStore 2) scenarioOpening) 5 (some userA)
            (some { gameID := 1, position := 2 })).store.getGame 1 = some g' ∧
          ((seatOf g userA.id = some 1 ∧ "X" = "X" ∧
              g'.player1Score = g.player1Score + 1 ∧ g'.player2Score = g.player2Score) ∨
           (seatOf g userA.id = some 2 ∧ "X" = "O" ∧
              g'.player2Score = g.player2Score + 1 ∧ g'.player1Score = g.player1Score))) := by
  obtain ⟨g, hg, hact, hnext⟩ :=
    active_game_invariant (scenarioStore 2) 1 (startedGame 1 userA userB "normal" 0 2 0 0)
      scenarioOpening (by decide) (by decide) (by decide) (by decide) (by decide)
  refine ⟨g, hg, hact, ?_⟩
  exact hnext 5 userA { gameID := 1, position := 2 }
    ["X", "X", "X", "", "O", "O", "", "", ""] true false false
    (some { startedGame 1 userA userB "normal" 0 2 0 0 with
      board := some emptyBoard, currentTurn := 2, currentRound := 2,
      player1Score := 1, lastMoveAt := some 5 })
    none rfl (by decide) [0, 1, 2] (by decide) "X" (by decide) (by decide)

end TicTacToe

namespace LastManStanding

/-! ## C30: the winner of a result string -/

/-- C30 fails on the code: `parseResult` compares the two scores as text.  For
"10-9" it names the away team although 10 > 9, for "9-10" the home team although
9 < 10, and for "01-1" the away team although the scores are equal; with one
digit on each side ("2-1", " 1 - 3 ", "2-2") the answer is the numerical one. -/
theorem parseResult_compares_text :
    parseResult "10-9" "Home" "Away" = "Away" ∧
    parseResult "9-10" "Home" "Away" = "Home" ∧
    parseResult "01-1" "Home" "Away" = "Away" ∧
    parseResult "2-1" "Home" "Away" = "Home" ∧
    parseResult " 1 - 3 " "Home" "Away" = "Away" ∧
    parseResult "2-2" "Home" "Away" = "draw" ∧
    parseResult "p - p" "Home" "Away" = "postponed" := by
  decide

/-- With one decimal digit on each side the answer of `parseResult` is the
numerical one. -/
theorem parseResult_single_digits :
    ∀ h a : Fin 10,
      parseResult (String.mk [Char.ofNat (48 + h.val), Char.ofNat 45, Char.ofNat (48 + a.val)])
        "Home" "Away" =
        if h = a then "draw" else if h > a then "Home" else "Away" := by
  decide

end LastManStanding
